import Mathlib

/-!
Shallow embedding of the CSS design engine (`css-utils.ts`) of the repository:
the color engine, unit normalizer, property registry, AST-walker fallback
tokenizer, per-mode value extractors, clamp engine, semantic rule engine,
accessibility analyzer and the `parseAndValidateCSS` orchestrator, together
with theorems settling the specification claims.

Modelling conventions:
* JS numbers are modelled as `ℚ` wherever the source only performs field
  arithmetic, comparisons, `Math.round`, `Math.min/max`; the WCAG luminance
  pipeline (which uses `Math.pow` with exponent 2.4) and the OKLch decoder
  (`Math.cos`, `Math.sin`, fractional `Math.pow`) are modelled over `ℝ`.
* JS strings are modelled as `String`, manipulated through their `List Char`
  data; the hand-written scanners below implement the exact semantics of the
  (anchored or searching) regular expressions of the source, which are all
  effectively deterministic (greedy character-class runs followed by literals).
* `NaN` corners: `parseFloat` / `parseInt` are modelled as `Option`-valued
  prefix parsers.  Where the source lets a `NaN` flow onwards without an
  `isNaN` check (only reachable when a regex capture such as `[\d.]+` consists
  solely of dots, or a hex alpha pair is malformed) the model uses `0`
  respectively rejects the color; no claim depends on these corners.
-/

set_option linter.unusedVariables false

/-- JS `clamp(n, min, max) = Math.min(max, Math.max(min, n))` from css-utils. -/
def jsClamp (n lo hi : ℚ) : ℚ := min hi (max lo n)

/-- JS `Math.round` (round half toward positive infinity) on rationals. -/
def jsRound (x : ℚ) : ℤ := ⌊x + 1/2⌋

/-- JS `Math.trunc`-style integer part (toward zero), used for the `%` operator. -/
def qTrunc (x : ℚ) : ℤ := if 0 ≤ x then ⌊x⌋ else -⌊-x⌋

/-- JS remainder operator `a % b` (sign of the dividend, truncated division). -/
def jsMod (a b : ℚ) : ℚ := a - b * (qTrunc (a / b) : ℚ)

/-- JS `Math.abs` on rationals. -/
def jsAbs (x : ℚ) : ℚ := |x|

/-- Decimal value of a digit run (used by the `parseFloat` model). -/
def natOfDigits (l : List Char) : ℕ :=
  l.foldl (fun a c => 10 * a + (c.toNat - 48)) 0

/-- Value of one hexadecimal digit, if valid. -/
def hexDigitVal (c : Char) : Option ℕ :=
  if '0' ≤ c ∧ c ≤ '9' then some (c.toNat - 48)
  else if 'a' ≤ c ∧ c ≤ 'f' then some (c.toNat - 87)
  else if 'A' ≤ c ∧ c ≤ 'F' then some (c.toNat - 55)
  else none

/-- Maximal hexadecimal-digit prefix accumulation: `go acc l` extends `acc`. -/
def hexPrefixVal : ℕ → List Char → ℕ
  | acc, [] => acc
  | acc, c :: rest =>
    match hexDigitVal c with
    | some d => hexPrefixVal (16 * acc + d) rest
    | none => acc

/-- Whether the list starts with a valid hexadecimal digit. -/
def startsWithHexDigit : List Char → Bool
  | [] => false
  | c :: _ => (hexDigitVal c).isSome

/-- JS `parseInt(s, 16)`: skip whitespace, optional sign, optional `0x`/`0X`
prefix, then the maximal run of hex digits; `none` models `NaN`. -/
def jsParseHexInt (l : List Char) : Option ℤ :=
  let l := l.dropWhile Char.isWhitespace
  let signed : Bool × List Char :=
    match l with
    | '-' :: rest => (true, rest)
    | '+' :: rest => (false, rest)
    | _ => (false, l)
  let body : List Char :=
    match signed.2 with
    | '0' :: 'x' :: rest => rest
    | '0' :: 'X' :: rest => rest
    | l' => l'
  if startsWithHexDigit body then
    let v : ℤ := (hexPrefixVal 0 (body.takeWhile (fun c => (hexDigitVal c).isSome)) : ℕ)
    some (if signed.1 then -v else v)
  else none

/-- JS `parseFloat`: skip whitespace, optional sign, digits, optional dot and
digits; `none` models `NaN`.  Exponent forms never occur in the regex captures
of the source (`[\d.]+` runs), so they are not modelled. -/
def jsParseFloat (l : List Char) : Option ℚ :=
  let l := l.dropWhile Char.isWhitespace
  let signed : Bool × List Char :=
    match l with
    | '-' :: rest => (true, rest)
    | '+' :: rest => (false, rest)
    | _ => (false, l)
  let intPart := signed.2.takeWhile Char.isDigit
  let rest := signed.2.dropWhile Char.isDigit
  let fracPart : List Char :=
    match rest with
    | '.' :: r => r.takeWhile Char.isDigit
    | _ => []
  if intPart = [] ∧ fracPart = [] then none
  else
    let v : ℚ := (natOfDigits intPart : ℚ) + (natOfDigits fracPart : ℚ) / (10 ^ fracPart.length)
    some (if signed.1 then -v else v)

/-- `parseFloat` on a `String`. -/
def jsParseFloatS (s : String) : Option ℚ := jsParseFloat s.data

/-- Total variant used where the source applies `parseFloat` to a capture with
no `isNaN` guard (the `NaN` corner is modelled as `0`, see file comment). -/
def jsParseFloatD (s : String) : ℚ := (jsParseFloatS s).getD 0

/-- JS `String.prototype.trim` on char lists. -/
def trimChars (l : List Char) : List Char :=
  ((l.dropWhile Char.isWhitespace).reverse.dropWhile Char.isWhitespace).reverse

/-- JS `trim` on strings. -/
def jsTrim (s : String) : String := String.mk (trimChars s.data)

/-- JS `toLowerCase` (ASCII range; CSS inputs are ASCII-cased). -/
def lowerChars (l : List Char) : List Char := l.map Char.toLower

/-- JS `toLowerCase` on strings. -/
def jsLower (s : String) : String := String.mk (lowerChars s.data)

/-- Whether `pre` is a prefix of `l`. -/
def startsWithChars (l pre : List Char) : Bool := l.take pre.length = pre

-- ══════════════════════════════════════════════════════════════════
-- Color engine
-- ══════════════════════════════════════════════════════════════════

/-- Immutable color value object of css-utils (`class Color`). -/
structure Color where
  r : ℕ
  g : ℕ
  b : ℕ
  a : ℚ
deriving DecidableEq, Repr

/-- Channel construction of the private `Color` constructor:
`Math.round(clamp(x, 0, 255))`. -/
def chanRound (x : ℚ) : ℕ := (jsRound (jsClamp x 0 255)).toNat

/-- The private `Color` constructor (`new Color(r, g, b, a)`). -/
def Color.mkC (r g b a : ℚ) : Color :=
  ⟨chanRound r, chanRound g, chanRound b, jsClamp a 0 1⟩

/-- `Color.fromRgba`. -/
def Color.fromRgba (r g b a : ℚ) : Color := Color.mkC r g b a

/-- Channel bounds that the source constructor enforces on every constructed
color (`r,g,b ∈ [0,255]`, `a ∈ [0,1]`). -/
def Color.Valid (c : Color) : Prop :=
  c.r ≤ 255 ∧ c.g ≤ 255 ∧ c.b ≤ 255 ∧ 0 ≤ c.a ∧ c.a ≤ 1

/-- Shared channel assembly of `Color.fromHex` (the slice/parseInt part plus
the final construction; `none` for the `isNaN` check).  A malformed alpha pair
is modelled as rejection (see the `NaN` note in the file comment). -/
def Color.hexChans (rp gp bp : List Char) (ap : Option (List Char)) : Option Color :=
  match jsParseHexInt rp, jsParseHexInt gp, jsParseHexInt bp with
  | some r, some g, some b =>
    match ap with
    | none => some (Color.mkC (r : ℚ) (g : ℚ) (b : ℚ) ((255 : ℚ) / 255))
    | some s =>
      match jsParseHexInt s with
      | some av => some (Color.mkC (r : ℚ) (g : ℚ) (b : ℚ) ((av : ℚ) / 255))
      | none => none
  | _, _, _ => none

/-- `Color.fromHex`: strip one leading `#`, accept lengths 3/4/6/8, double the
short-form digits, and parse each channel pair with `parseInt(·, 16)`. -/
def Color.fromHex (hex : String) : Option Color :=
  let clean : List Char :=
    match hex.data with
    | '#' :: rest => rest
    | l => l
  match clean with
  | [c0, c1, c2] => Color.hexChans [c0, c0] [c1, c1] [c2, c2] none
  | [c0, c1, c2, c3] => Color.hexChans [c0, c0] [c1, c1] [c2, c2] (some [c3, c3])
  | [c0, c1, c2, c3, c4, c5] => Color.hexChans [c0, c1] [c2, c3] [c4, c5] none
  | [c0, c1, c2, c3, c4, c5, c6, c7] =>
    Color.hexChans [c0, c1] [c2, c3] [c4, c5] (some [c6, c7])
  | _ => none

/-- Two-character zero padding of JS `toString(16).padStart(2, '0')`. -/
def padTwo (l : List Char) : List Char :=
  if l.length < 2 then List.replicate (2 - l.length) '0' ++ l else l

/-- `Color.toHex`: `#` followed by the three channel bytes in lowercase hex. -/
def Color.toHex (c : Color) : String :=
  String.mk ('#' :: (padTwo (Nat.toDigits 16 c.r) ++ padTwo (Nat.toDigits 16 c.g) ++
    padTwo (Nat.toDigits 16 c.b)))

-- ══════════════════════════════════════════════════════════════════
-- Color: HSL / OKLch constructors
-- ══════════════════════════════════════════════════════════════════

/-- `Color.fromHsl` (standard chroma / hue-sector / lightness-offset). -/
def Color.fromHsl (h s l a : ℚ) : Color :=
  let sn := s / 100
  let ln := l / 100
  let c := (1 - jsAbs (2 * ln - 1)) * sn
  let x := c * (1 - jsAbs (jsMod (h / 60) 2 - 1))
  let m := ln - c / 2
  let rgb : ℚ × ℚ × ℚ :=
    if h < 60 then (c, x, 0)
    else if h < 120 then (x, c, 0)
    else if h < 180 then (0, c, x)
    else if h < 240 then (0, x, c)
    else if h < 300 then (x, 0, c)
    else (c, 0, x)
  Color.mkC ((rgb.1 + m) * 255) ((rgb.2.1 + m) * 255) ((rgb.2.2 + m) * 255) a

/-- Channel rounding of the constructor when fed a real-valued argument
(OKLch pipeline): `Math.round(clamp(x, 0, 255))`. -/
noncomputable def chanRoundR (x : ℝ) : ℕ := ⌊min 255 (max 0 x) + 1/2⌋.toNat

/-- sRGB gamma encoding used by `Color.fromOklch`. -/
noncomputable def srgbGamma (x : ℝ) : ℝ :=
  if x ≤ 0.0031308 then 12.92 * x else 1.055 * (max 0 x) ^ ((1 : ℝ) / 2.4) - 0.055

/-- `Color.fromOklch`: OKLab → linear sRGB matrices, then gamma encode. -/
noncomputable def Color.fromOklch (L C H a : ℚ) : Color :=
  let hRad : ℝ := (H : ℝ) * Real.pi / 180
  let okA : ℝ := (C : ℝ) * Real.cos hRad
  let okB : ℝ := (C : ℝ) * Real.sin hRad
  let l3 : ℝ := ((L : ℝ) + 0.3963377774 * okA + 0.2158037573 * okB) ^ (3 : ℕ)
  let m3 : ℝ := ((L : ℝ) - 0.1055613458 * okA - 0.0638541728 * okB) ^ (3 : ℕ)
  let s3 : ℝ := ((L : ℝ) - 0.0894841775 * okA - 1.2914855480 * okB) ^ (3 : ℕ)
  let rLin : ℝ := 4.0767416621 * l3 - 3.3077115913 * m3 + 0.2309699292 * s3
  let gLin : ℝ := -1.2684380046 * l3 + 2.6097574011 * m3 - 0.3413193965 * s3
  let bLin : ℝ := -0.0041960863 * l3 - 0.7034186147 * m3 + 1.7076147010 * s3
  ⟨chanRoundR (srgbGamma rLin * 255), chanRoundR (srgbGamma gLin * 255),
    chanRoundR (srgbGamma bLin * 255), jsClamp a 0 1⟩

-- ══════════════════════════════════════════════════════════════════
-- Color: functional-notation matchers (rgb / hsl / oklch regexes)
-- ══════════════════════════════════════════════════════════════════

/-- Characters of the `[\d.]` class. -/
def isDigitDot (c : Char) : Bool := c.isDigit || c == '.'

/-- Capture of one `[\d.]+` run: the token and the rest, or `none`. -/
def numRun (l : List Char) : Option (List Char × List Char) :=
  let t := l.takeWhile isDigitDot
  if t.isEmpty then none else some (t, l.drop t.length)

/-- Optional trailing `%` absorbed into a capture (`[\d.]+%?`). -/
def pctOpt (tok l : List Char) : List Char × List Char :=
  match l with
  | '%' :: r => (tok ++ ['%'], r)
  | _ => (tok, l)

/-- The separator `\s*[,\s]\s*` of the rgb/hsl regexes: a nonempty run of
whitespace and commas containing at most one comma. -/
def sepGap (l : List Char) : Option (List Char) :=
  let g := l.takeWhile (fun c => c.isWhitespace || c == ',')
  if g.isEmpty ∨ 2 ≤ g.count ',' then none else some (l.drop g.length)

/-- The tail `\s*(?:SEP\s*([\d.]+%?))?\s*\)$` closing the rgb/hsl/oklch
patterns; `seps` lists the characters admitted by the separator class
(`[,/]` for rgb/hsl, `/` for oklch). -/
def alphaTail (seps : List Char) (l : List Char) : Option (Option (List Char)) :=
  match l.dropWhile Char.isWhitespace with
  | [] => none
  | c :: rest =>
    if c == ')' then if rest.isEmpty then some none else none
    else if seps.contains c then
      match numRun (rest.dropWhile Char.isWhitespace) with
      | none => none
      | some (tok, l2) =>
        let p := pctOpt tok l2
        match p.2.dropWhile Char.isWhitespace with
        | [')'] => some (some p.1)
        | _ => none
    else none

/-- Matcher of `^rgba?\(\s*([\d.]+)\s*[,\s]\s*([\d.]+)\s*[,\s]\s*([\d.]+)\s*(?:[,/]\s*([\d.]+%?))?\s*\)$`
on the lowercased subject (the source regex carries the `i` flag). -/
def rgbMatch (l : List Char) : Option (List Char × List Char × List Char × Option (List Char)) :=
  let afterHead : Option (List Char) :=
    match l with
    | 'r' :: 'g' :: 'b' :: 'a' :: '(' :: rest => some rest
    | 'r' :: 'g' :: 'b' :: '(' :: rest => some rest
    | _ => none
  match afterHead with
  | none => none
  | some l0 =>
    match numRun (l0.dropWhile Char.isWhitespace) with
    | none => none
    | some (t1, l1) =>
      match sepGap l1 with
      | none => none
      | some l2 =>
        match numRun l2 with
        | none => none
        | some (t2, l3) =>
          match sepGap l3 with
          | none => none
          | some l4 =>
            match numRun l4 with
            | none => none
            | some (t3, l5) =>
              match alphaTail [',', '/'] l5 with
              | none => none
              | some a? => some (t1, t2, t3, a?)

/-- Matcher of `^hsla?\(\s*([\d.]+)\s*[,\s]\s*([\d.]+)%\s*[,\s]\s*([\d.]+)%\s*(?:[,/]\s*([\d.]+%?))?\s*\)$`. -/
def hslMatch (l : List Char) : Option (List Char × List Char × List Char × Option (List Char)) :=
  let afterHead : Option (List Char) :=
    match l with
    | 'h' :: 's' :: 'l' :: 'a' :: '(' :: rest => some rest
    | 'h' :: 's' :: 'l' :: '(' :: rest => some rest
    | _ => none
  match afterHead with
  | none => none
  | some l0 =>
    match numRun (l0.dropWhile Char.isWhitespace) with
    | none => none
    | some (t1, l1) =>
      match sepGap l1 with
      | none => none
      | some l2 =>
        match numRun l2 with
        | none => none
        | some (t2, l3) =>
          match l3 with
          | '%' :: l3' =>
            match sepGap l3' with
            | none => none
            | some l4 =>
              match numRun l4 with
              | none => none
              | some (t3, l5) =>
                match l5 with
                | '%' :: l5' =>
                  match alphaTail [',', '/'] l5' with
                  | none => none
                  | some a? => some (t1, t2, t3, a?)
                | _ => none
          | _ => none

/-- Matcher of `^oklch\(\s*([\d.]+%?)\s+([\d.]+)\s+([\d.]+)\s*(?:\/\s*([\d.]+%?))?\s*\)$`. -/
def oklchMatch (l : List Char) : Option (List Char × List Char × List Char × Option (List Char)) :=
  match l with
  | 'o' :: 'k' :: 'l' :: 'c' :: 'h' :: '(' :: l0 =>
    match numRun (l0.dropWhile Char.isWhitespace) with
    | none => none
    | some (t1raw, l1raw) =>
      let p1 := pctOpt t1raw l1raw
      let g1 := p1.2.takeWhile Char.isWhitespace
      if g1.isEmpty then none
      else
        match numRun (p1.2.drop g1.length) with
        | none => none
        | some (t2, l2) =>
          let g2 := l2.takeWhile Char.isWhitespace
          if g2.isEmpty then none
          else
            match numRun (l2.drop g2.length) with
            | none => none
            | some (t3, l3) =>
              match alphaTail ['/'] l3 with
              | none => none
              | some a? => some (p1.1, t2, t3, a?)
  | _ => none

-- ══════════════════════════════════════════════════════════════════
-- Color.parse
-- ══════════════════════════════════════════════════════════════════

/-- Component value with the `endsWith('%') ? parseFloat(m)/100 : parseFloat(m)`
convention of `Color.parse` (alpha and oklch-lightness components). -/
def pctVal (tok : List Char) : ℚ :=
  if tok.getLast? = some '%' then ((jsParseFloat tok).getD 0) / 100 else (jsParseFloat tok).getD 0

/-- The named-color table of `Color.parse` (its own keys). -/
def NAMED : List (String × String) :=
  [("white", "#ffffff"), ("black", "#000000"), ("red", "#ff0000"), ("green", "#008000"),
   ("blue", "#0000ff"), ("transparent", "#00000000"), ("silver", "#c0c0c0"),
   ("gray", "#808080"), ("grey", "#808080"), ("navy", "#000080"), ("teal", "#008080")]

/-- `Color.parse`.  The result is `Except`-valued because the source's final
branch `if (NAMED[v.toLowerCase()]) return Color.fromHex(NAMED[...])` performs
an unguarded JS object-index: for the lowercased values `"constructor"` and
`"__proto__"` the lookup yields a truthy `Object.prototype` member (a function
respectively an object), `fromHex` then invokes `.replace` on a non-string and
a `TypeError` escapes.  `Except.error` models that thrown exception; every
other path is `Except.ok` of the source's `Color | null`. -/
noncomputable def Color.parse (value : String) : Except String (Option Color) :=
  let v := jsTrim value
  if startsWithChars v.data ['#'] then Except.ok (Color.fromHex v)
  else
    let lv := lowerChars v.data
    match oklchMatch lv with
    | some (t1, t2, t3, a?) =>
      let L := pctVal t1
      let C := (jsParseFloat t2).getD 0
      let H := (jsParseFloat t3).getD 0
      let a := match a? with
        | some ta => pctVal ta
        | none => 1
      Except.ok (some (Color.fromOklch L C H a))
    | none =>
    match hslMatch lv with
    | some (t1, t2, t3, a?) =>
      let a := match a? with
        | some ta => pctVal ta
        | none => 1
      Except.ok (some (Color.fromHsl ((jsParseFloat t1).getD 0) ((jsParseFloat t2).getD 0)
        ((jsParseFloat t3).getD 0) a))
    | none =>
    match rgbMatch lv with
    | some (t1, t2, t3, a?) =>
      let a := match a? with
        | some ta => pctVal ta
        | none => 1
      Except.ok (some (Color.mkC ((jsParseFloat t1).getD 0) ((jsParseFloat t2).getD 0)
        ((jsParseFloat t3).getD 0) a))
    | none =>
      let lvs := String.mk lv
      match (NAMED.find? (fun p => p.1 == lvs)).map Prod.snd with
      | some hx => Except.ok (Color.fromHex hx)
      | none =>
        if lvs = "constructor" ∨ lvs = "__proto__" then Except.error "TypeError"
        else Except.ok none

-- ══════════════════════════════════════════════════════════════════
-- Color: luminance, contrast, neumorphism shadow synthesis
-- ══════════════════════════════════════════════════════════════════

/-- WCAG channel linearization of `relativeLuminance`. -/
noncomputable def linearize (chan : ℕ) : ℝ :=
  let val : ℝ := (chan : ℝ) / 255
  if val ≤ 0.03928 then val / 12.92 else ((val + 0.055) / 1.055) ^ (2.4 : ℝ)

/-- `Color.relativeLuminance`. -/
noncomputable def Color.relativeLuminance (c : Color) : ℝ :=
  0.2126 * linearize c.r + 0.7152 * linearize c.g + 0.0722 * linearize c.b

/-- `Color.contrastWith`: `(lighter + 0.05) / (darker + 0.05)`. -/
noncomputable def Color.contrastWith (c other : Color) : ℝ :=
  let l1 := c.relativeLuminance
  let l2 := other.relativeLuminance
  let p : ℝ × ℝ := if l2 < l1 then (l1, l2) else (l2, l1)
  (p.1 + 0.05) / (p.2 + 0.05)

/-- The private `Color.toHsl` (rounded h/s/l triple). -/
def Color.toHsl (c : Color) : ℚ × ℚ × ℚ :=
  let r := (c.r : ℚ) / 255
  let g := (c.g : ℚ) / 255
  let b := (c.b : ℚ) / 255
  let mx := max r (max g b)
  let mn := min r (min g b)
  let l := (mx + mn) / 2
  let d := mx - mn
  if d = 0 then (0, 0, (jsRound (l * 100) : ℚ))
  else
    let s := d / (1 - jsAbs (2 * l - 1))
    let h : ℚ :=
      if mx = r then ((g - b) / d + (if g < b then 6 else 0)) / 6
      else if mx = g then ((b - r) / d + 2) / 6
      else ((r - g) / d + 4) / 6
    ((jsRound (h * 360) : ℚ), (jsRound (s * 100) : ℚ), (jsRound (l * 100) : ℚ))

/-- `Color.generateNeumorphismShadows` (light, dark). -/
def Color.generateNeumorphismShadows (c : Color) (intensity : ℚ) : Color × Color :=
  let hsl := c.toHsl
  let delta := intensity / 100 * 32
  (Color.fromHsl hsl.1 (max 0 (hsl.2.1 - 5)) (jsClamp (hsl.2.2 + delta) 0 100) 1,
   Color.fromHsl hsl.1 (min 100 (hsl.2.1 + 8)) (jsClamp (hsl.2.2 - delta) 0 100) 1)

-- ══════════════════════════════════════════════════════════════════
-- Unit normalization (`parseWithUnit`)
-- ══════════════════════════════════════════════════════════════════

/-- Result record of `parseWithUnit`. -/
structure ParsedUnit where
  raw : ℚ
  unit : String
  px : ℚ
  wasConverted : Bool
deriving DecidableEq, Repr

/-- The unit alternation `(px|rem|em|%|vh|vw|pt|cm|mm)` of `parseWithUnit`. -/
def UNIT_NAMES : List (List Char) :=
  [['p', 'x'], ['r', 'e', 'm'], ['e', 'm'], ['%'], ['v', 'h'], ['v', 'w'],
   ['p', 't'], ['c', 'm'], ['m', 'm']]

/-- Conversion of `parseWithUnit`'s switch (16px base font). -/
def unitToPx (unit : List Char) (value : ℚ) : ℚ × Bool :=
  if unit = ['p', 'x'] then (value, false)
  else if unit = ['r', 'e', 'm'] then (value * 16, true)
  else if unit = ['e', 'm'] then (value * 16, true)
  else if unit = ['p', 't'] then (value * (4 / 3), true)
  else if unit = ['c', 'm'] then (value * 377953 / 10000, true)
  else if unit = ['m', 'm'] then (value * 377953 / 100000, true)
  else (value, false)

/-- `parseWithUnit`: anchored match of `^(-?[\d.]+)\s*(px|rem|em|%|vh|vw|pt|cm|mm)?$`,
`parseFloat` with `isNaN` guard, unit conversion, result rounded to 0.1 px. -/
def parseWithUnit (raw : String) : Option ParsedUnit :=
  let l := raw.data
  let signSplit : List Char × List Char :=
    match l with
    | '-' :: r => (['-'], r)
    | _ => ([], l)
  match numRun signSplit.2 with
  | none => none
  | some (t, rest) =>
    let tok := signSplit.1 ++ t
    let rest1 := rest.dropWhile Char.isWhitespace
    let unit? : Option (Option (List Char)) :=
      if rest1.isEmpty then some none
      else match UNIT_NAMES.find? (fun u => rest1 = u) with
        | some u => some (some u)
        | none => none
    match unit? with
    | none => none
    | some u? =>
      match jsParseFloat tok with
      | none => none
      | some value =>
        let unit := u?.getD ['p', 'x']
        let conv := unitToPx unit value
        some ⟨value, String.mk unit, (jsRound (conv.1 * 10) : ℚ) / 10, conv.2⟩

-- ══════════════════════════════════════════════════════════════════
-- Shadow-layer splitting and parsing
-- ══════════════════════════════════════════════════════════════════

/-- Depth-aware top-level comma splitter (`splitShadowLayers` loop). -/
def splitGo : List Char → ℤ → List Char → List (List Char) → List (List Char)
  | [], _, buf, acc =>
    let t := trimChars buf
    if t.isEmpty then acc else acc ++ [t]
  | c :: rest, depth, buf, acc =>
    if c == '(' then splitGo rest (depth + 1) (buf ++ [c]) acc
    else if c == ')' then splitGo rest (depth - 1) (buf ++ [c]) acc
    else if c == ',' ∧ depth = 0 then
      let t := trimChars buf
      splitGo rest depth [] (if t.isEmpty then acc else acc ++ [t])
    else splitGo rest depth (buf ++ [c]) acc

/-- `splitShadowLayers`. -/
def splitShadowLayers (value : String) : List String :=
  (splitGo value.data 0 [] []).map String.mk

/-- JS `\w` word characters. -/
def isWordChar (c : Char) : Bool := c.isAlphanum || c == '_'

/-- Boundary-checked search for the first `\binset\b` occurrence, returning
the pieces before and after it (used for both `test` and `replace`). -/
def insetSplitGo (prev : Option Char) (accRev rest : List Char) :
    Option (List Char × List Char) :=
  if startsWithChars rest ['i', 'n', 's', 'e', 't'] &&
      (match prev with
       | none => true
       | some p => ! isWordChar p) &&
      (match rest.drop 5 with
       | [] => true
       | c :: _ => ! isWordChar c) then
    some (accRev.reverse, rest.drop 5)
  else
    match rest with
    | [] => none
    | c :: r => insetSplitGo (some c) (c :: accRev) r

/-- First `\binset\b` occurrence of a layer string. -/
def insetSplit (l : List Char) : Option (List Char × List Char) := insetSplitGo none [] l

/-- Result record of `parseShadowLayer`. -/
structure ParsedShadow where
  x : ℚ
  y : ℚ
  blur : ℚ
  spread : Option ℚ
  color : Option String
  alpha : Option ℤ
  inset : Bool
deriving DecidableEq, Repr

/-- Captures of the `parseShadowLayer` regex. -/
structure ShadowCaps where
  g1 : List Char
  g2 : List Char
  g3 : List Char
  g4 : Option (List Char)
  g5 : List Char
deriving DecidableEq, Repr

/-- One `-?[\d.]+px` token (capture includes the `px`). -/
def pxTok (neg : Bool) (l : List Char) : Option (List Char × List Char) :=
  let signSplit : List Char × List Char :=
    if neg then
      match l with
      | '-' :: r => (['-'], r)
      | _ => ([], l)
    else ([], l)
  match numRun signSplit.2 with
  | none => none
  | some (t, rest) =>
    match rest with
    | 'p' :: 'x' :: r2 => some (signSplit.1 ++ t ++ ['p', 'x'], r2)
    | _ => none

/-- Hexadecimal digit class `[0-9a-fA-F]`. -/
def isHexChar (c : Char) : Bool := (hexDigitVal c).isSome

/-- The color alternative `rgba?\([^)]+\)|#[0-9a-fA-F]{3,8}` (no `i` flag). -/
def colorTok (l : List Char) : Option (List Char × List Char) :=
  match l with
  | 'r' :: 'g' :: 'b' :: rest =>
    let aSplit : List Char × List Char :=
      match rest with
      | 'a' :: r => (['a'], r)
      | _ => ([], rest)
    (match aSplit.2 with
     | '(' :: r2 =>
       let inner := r2.takeWhile (fun c => ¬ c == ')')
       if inner.isEmpty then none
       else
         match r2.drop inner.length with
         | ')' :: r3 =>
           some ('r' :: 'g' :: 'b' :: aSplit.1 ++ '(' :: inner ++ [')'], r3)
         | _ => none
     | _ => none)
  | '#' :: rest =>
    let run := rest.takeWhile isHexChar
    if run.length < 3 then none
    else some ('#' :: run.take 8, rest.drop (min run.length 8))
  | _ => none

/-- Whitespace run of `\s+` (nonempty), returning the rest. -/
def wsPlus (l : List Char) : Option (List Char) :=
  let g := l.takeWhile Char.isWhitespace
  if g.isEmpty then none else some (l.drop g.length)

/-- Attempt of the `parseShadowLayer` regex at one start position, with the
greedy-then-backtrack treatment of the optional spread group. -/
def shadowMatchAt (l : List Char) : Option ShadowCaps :=
  match pxTok true l with
  | none => none
  | some (t1, r1) =>
    match wsPlus r1 with
    | none => none
    | some r1' =>
      match pxTok true r1' with
      | none => none
      | some (t2, r2) =>
        match wsPlus r2 with
        | none => none
        | some r2' =>
          match pxTok false r2' with
          | none => none
          | some (t3, r3) =>
            let withSpread : Option ShadowCaps :=
              match wsPlus r3 with
              | none => none
              | some r4 =>
                match pxTok true r4 with
                | none => none
                | some (t4, r5) =>
                  match wsPlus r5 with
                  | none => none
                  | some r5' =>
                    match colorTok r5' with
                    | none => none
                    | some (t5, _) => some ⟨t1, t2, t3, some t4, t5⟩
            match withSpread with
            | some caps => some caps
            | none =>
              match wsPlus r3 with
              | none => none
              | some r4 =>
                match colorTok r4 with
                | none => none
                | some (t5, _) => some ⟨t1, t2, t3, none, t5⟩

/-- Leftmost successful position of the `parseShadowLayer` regex. -/
def shadowSearch : List Char → Option ShadowCaps
  | [] => none
  | l@(_ :: rest) =>
    match shadowMatchAt l with
    | some caps => some caps
    | none => shadowSearch rest

/-- `parseShadowLayer`: `inset` detection and removal, then the positional
`x y blur [spread] color` pattern; `Except` propagates the (never actually
reachable here) `Color.parse` exception faithfully. -/
noncomputable def parseShadowLayer (layer : String) : Except String (Option ParsedShadow) := do
  let insetHit := insetSplit layer.data
  let inset := insetHit.isSome
  let cleaned : List Char :=
    match insetHit with
    | some (bef, aft) => trimChars (bef ++ aft)
    | none => trimChars layer.data
  match shadowSearch cleaned with
  | none => pure none
  | some caps => do
    let colorRes ← Color.parse (String.mk caps.g5)
    pure (some
      { x := jsParseFloatD (String.mk caps.g1)
        y := jsParseFloatD (String.mk caps.g2)
        blur := jsParseFloatD (String.mk caps.g3)
        spread := caps.g4.map (fun t => jsParseFloatD (String.mk t))
        color := colorRes.map Color.toHex
        alpha := colorRes.map (fun c => jsRound (c.a * 100))
        inset })

-- ══════════════════════════════════════════════════════════════════
-- Backdrop-filter and border sub-parsers
-- ══════════════════════════════════════════════════════════════════

/-- Attempt of `blur\(\s*([\d.]+)px\s*\)` at one position (capture only). -/
def blurMatchAt (l : List Char) : Option (List Char) :=
  if startsWithChars l ['b', 'l', 'u', 'r', '('] then
    match numRun ((l.drop 5).dropWhile Char.isWhitespace) with
    | none => none
    | some (t, r) =>
      match r with
      | 'p' :: 'x' :: r2 =>
        match r2.dropWhile Char.isWhitespace with
        | ')' :: _ => some t
        | _ => none
      | _ => none
  else none

/-- Leftmost `blur(...px)` capture. -/
def searchBlur : List Char → Option (List Char)
  | [] => none
  | l@(_ :: rest) =>
    match blurMatchAt l with
    | some t => some t
    | none => searchBlur rest

/-- Attempt of `NAME\(\s*([\d.]+)%?\s*\)` at one position (capture only). -/
def pctFnMatchAt (name l : List Char) : Option (List Char) :=
  if startsWithChars l (name ++ ['(']) then
    match numRun ((l.drop (name.length + 1)).dropWhile Char.isWhitespace) with
    | none => none
    | some (t, r) =>
      let r1 : List Char :=
        match r with
        | '%' :: r' => r'
        | _ => r
      match r1.dropWhile Char.isWhitespace with
      | ')' :: _ => some t
      | _ => none
  else none

/-- Leftmost `NAME\(\s*([\d.]+)%?\s*\)` capture. -/
def searchPctFn (name : List Char) : List Char → Option (List Char)
  | [] => none
  | l@(_ :: rest) =>
    match pctFnMatchAt name l with
    | some t => some t
    | none => searchPctFn name rest

/-- Result of `parseBackdropFilter` (blur, saturate, brightness). -/
structure BackdropParts where
  blur : Option ℚ
  saturate : Option ℚ
  brightness : Option ℚ
deriving DecidableEq, Repr

/-- `parseBackdropFilter`: three independent searches. -/
def parseBackdropFilter (value : String) : BackdropParts :=
  { blur := (searchBlur value.data).map (fun t => jsParseFloatD (String.mk t))
    saturate :=
      (searchPctFn ['s', 'a', 't', 'u', 'r', 'a', 't', 'e'] value.data).map
        (fun t => jsParseFloatD (String.mk t))
    brightness :=
      (searchPctFn ['b', 'r', 'i', 'g', 'h', 't', 'n', 'e', 's', 's'] value.data).map
        (fun t => jsParseFloatD (String.mk t)) }

/-- Attempt of the border-width pattern `[\d.]+(?:px|rem|em|pt)` at one
position, returning (match, rest). -/
def widthMatchAt (l : List Char) : Option (List Char × List Char) :=
  match numRun l with
  | none => none
  | some (t, rest) =>
    if startsWithChars rest ['p', 'x'] then some (t ++ ['p', 'x'], rest.drop 2)
    else if startsWithChars rest ['r', 'e', 'm'] then some (t ++ ['r', 'e', 'm'], rest.drop 3)
    else if startsWithChars rest ['e', 'm'] then some (t ++ ['e', 'm'], rest.drop 2)
    else if startsWithChars rest ['p', 't'] then some (t ++ ['p', 't'], rest.drop 2)
    else none

/-- Leftmost border-width match with its surrounding pieces (before, match, after). -/
def widthSearchGo (accRev : List Char) : List Char → Option (List Char × List Char × List Char)
  | [] => none
  | l@(c :: rest) =>
    match widthMatchAt l with
    | some (tok, after) => some (accRev.reverse, tok, after)
    | none => widthSearchGo (c :: accRev) rest

/-- Leftmost border-width match. -/
def widthSearch (l : List Char) : Option (List Char × List Char × List Char) :=
  widthSearchGo [] l

/-- Style keywords of `parseBorder`. -/
def BORDER_STYLES : List (List Char) :=
  [['s', 'o', 'l', 'i', 'd'], ['d', 'a', 's', 'h', 'e', 'd'], ['d', 'o', 't', 't', 'e', 'd'],
   ['d', 'o', 'u', 'b', 'l', 'e'], ['g', 'r', 'o', 'o', 'v', 'e'], ['r', 'i', 'd', 'g', 'e'],
   ['n', 'o', 'n', 'e'], ['h', 'i', 'd', 'd', 'e', 'n']]

/-- Boundary-checked attempt of the style alternation at one position. -/
def styleMatchAt (prev : Option Char) (l : List Char) : Option (List Char) :=
  (BORDER_STYLES.find? fun w =>
    startsWithChars l w &&
    (match prev with
     | none => true
     | some p => ! isWordChar p) &&
    (match l.drop w.length with
     | [] => true
     | c :: _ => ! isWordChar c))

/-- Leftmost boundary-checked style keyword. -/
def styleSearchGo (prev : Option Char) : List Char → Option (List Char)
  | [] => none
  | l@(c :: rest) =>
    match styleMatchAt prev l with
    | some w => some w
    | none => styleSearchGo (some c) rest

/-- Leftmost style keyword of a border value. -/
def styleSearch (l : List Char) : Option (List Char) := styleSearchGo none l

/-- JS `replace(sub, '')` for a literal substring (first occurrence). -/
def literalRemoveFirst (sub : List Char) : List Char → List Char
  | [] => []
  | l@(c :: rest) =>
    if startsWithChars l sub ∧ ¬ sub.isEmpty then l.drop sub.length
    else c :: literalRemoveFirst sub rest

/-- Result record of `parseBorder`. -/
structure BorderParts where
  width : Option ℚ
  style : Option String
  color : Option String
  alpha : Option ℤ
deriving DecidableEq, Repr

/-- `parseBorder`: width (unit-normalized), style keyword, then the remainder
(width match and style word removed) parsed as a color.  `Except` carries the
`Color.parse` exception (reachable, e.g. a border value `constructor`). -/
noncomputable def parseBorder (value : String) : Except String BorderParts := do
  let l := value.data
  let widthHit := widthSearch l
  let width : Option ℚ :=
    match widthHit with
    | some (_, tok, _) => (parseWithUnit (String.mk tok)).map ParsedUnit.px
    | none => none
  let style := styleSearch l
  let afterW : List Char :=
    match widthHit with
    | some (bef, _, aft) => bef ++ aft
    | none => l
  let afterS : List Char :=
    match style with
    | some sw => literalRemoveFirst sw afterW
    | none => afterW
  let colorRes ← Color.parse (String.mk (trimChars afterS))
  pure
    { width
      style := style.map String.mk
      color := colorRes.map Color.toHex
      alpha := colorRes.map (fun c => jsRound (c.a * 100)) }

-- ══════════════════════════════════════════════════════════════════
-- Effect modes, settings records, diagnostics
-- ══════════════════════════════════════════════════════════════════

/-- The `EffectMode` union. -/
inductive EffectMode where
  | liquidGlass
  | glassmorphism
  | neumorphism
  | glow
deriving DecidableEq, Repr

/-- The mode tag strings used in messages. -/
def modeName : EffectMode → String
  | .liquidGlass => "liquid-glass"
  | .glassmorphism => "glassmorphism"
  | .neumorphism => "neumorphism"
  | .glow => "glow"

/-- Severity of a diagnostic. -/
inductive Severity where
  | error
  | warning
  | info
deriving DecidableEq, Repr

/-- Diagnostic record. -/
structure Diagnostic where
  message : String
  severity : Severity
  line : Option ℕ := none
  column : Option ℕ := none
  property : Option String := none
deriving DecidableEq, Repr

/-- Ghost-property record. -/
structure GhostProperty where
  property : String
  value : String
  line : Option ℕ
  reason : String
deriving DecidableEq, Repr

/-- Raw declaration extracted by the walker. -/
structure CSSDeclaration where
  property : String
  value : String
  line : ℕ
  column : ℕ
deriving DecidableEq, Repr

/-- `NeuShape` enum. -/
inductive NeuShape where
  | flat
  | concave
  | convex
  | pressed
deriving DecidableEq, Repr

/-- `LiquidGlassSettings` (field order as declared in `types/css-generator.ts`,
which is the `Object.entries` iteration order of the spread records). -/
structure LiquidGlassSettings where
  blur : ℚ
  opacity : ℚ
  borderRadius : ℚ
  bgColor : String
  bgAlpha : ℚ
  borderColor : String
  borderAlpha : ℚ
  borderWidth : ℚ
  refractionIntensity : ℚ
  shadowX : ℚ
  shadowY : ℚ
  shadowBlur : ℚ
  shadowSpread : ℚ
  shadowColor : String
  shadowAlpha : ℚ
  saturation : ℚ
  brightness : ℚ
deriving DecidableEq, Repr

/-- `GlassmorphismSettings`. -/
structure GlassmorphismSettings where
  blur : ℚ
  opacity : ℚ
  borderRadius : ℚ
  bgColor : String
  bgAlpha : ℚ
  borderColor : String
  borderAlpha : ℚ
  borderWidth : ℚ
  shadowX : ℚ
  shadowY : ℚ
  shadowBlur : ℚ
  shadowColor : String
  shadowAlpha : ℚ
  saturation : ℚ
deriving DecidableEq, Repr

/-- `NeumorphismSettings`. -/
structure NeumorphismSettings where
  borderRadius : ℚ
  bgColor : String
  distance : ℚ
  intensity : ℚ
  blur : ℚ
  shape : NeuShape
  lightColor : String
  darkColor : String
deriving DecidableEq, Repr

/-- `GlowSettings`. -/
structure GlowSettings where
  borderRadius : ℚ
  bgColor : String
  bgAlpha : ℚ
  glowColor : String
  glowIntensity : ℚ
  glowSpread : ℚ
  glowBlur : ℚ
  innerGlow : ℚ
  borderColor : String
  borderAlpha : ℚ
  borderWidth : ℚ
  blur : ℚ
  saturation : ℚ
  brightness : ℚ
deriving DecidableEq, Repr

/-- Per-mode settings type (`Preset['settings']` with the mode fixed; the UI
always passes the record matching the mode, which the TS casts assume). -/
def ModeSettings : EffectMode → Type
  | .liquidGlass => LiquidGlassSettings
  | .glassmorphism => GlassmorphismSettings
  | .neumorphism => NeumorphismSettings
  | .glow => GlowSettings

instance : DecidableEq (ModeSettings m) := by
  cases m <;> dsimp [ModeSettings] <;> infer_instance

-- ══════════════════════════════════════════════════════════════════
-- Property registry and setting ranges
-- ══════════════════════════════════════════════════════════════════

/-- Own keys of `PROPERTIES_BY_MODE[mode]` (descriptions are never consulted
for recognition). -/
def PROPERTIES_BY_MODE (m : EffectMode) : List String :=
  match m with
  | .liquidGlass =>
    ["background", "backdrop-filter", "-webkit-backdrop-filter", "border-radius",
     "border", "box-shadow", "opacity"]
  | .glassmorphism =>
    ["background", "backdrop-filter", "-webkit-backdrop-filter", "border-radius",
     "border", "box-shadow", "opacity"]
  | .neumorphism =>
    ["background", "border-radius", "box-shadow"]
  | .glow =>
    ["background", "backdrop-filter", "-webkit-backdrop-filter", "border-radius",
     "border", "box-shadow", "opacity"]

/-- JS `key in obj` for the registry object literals: own keys plus the
all-lowercase inherited `Object.prototype` members reachable after the
walker's `toLowerCase()` (`constructor` and `__proto__`). -/
def jsInProps (key : String) (own : List String) : Bool :=
  own.contains key || key == "constructor" || key == "__proto__"

/-- `SETTING_RANGES` per mode, as an ordered association list. -/
def SETTING_RANGES (m : EffectMode) : List (String × ℚ × ℚ) :=
  match m with
  | .liquidGlass =>
    [("blur", 0, 60), ("opacity", 0, 100), ("borderRadius", 0, 50), ("bgAlpha", 0, 100),
     ("borderAlpha", 0, 100), ("borderWidth", 0, 5), ("refractionIntensity", 0, 100),
     ("shadowX", -20, 20), ("shadowY", -20, 20), ("shadowBlur", 0, 80),
     ("shadowSpread", -20, 20), ("shadowAlpha", 0, 100), ("saturation", 50, 200),
     ("brightness", 50, 200)]
  | .glassmorphism =>
    [("blur", 0, 50), ("opacity", 0, 100), ("borderRadius", 0, 50), ("bgAlpha", 0, 100),
     ("borderAlpha", 0, 100), ("borderWidth", 0, 5), ("shadowX", -20, 20),
     ("shadowY", -20, 20), ("shadowBlur", 0, 60), ("shadowAlpha", 0, 100),
     ("saturation", 50, 200)]
  | .neumorphism =>
    [("borderRadius", 0, 50), ("distance", 1, 20), ("intensity", 1, 50), ("blur", 1, 40)]
  | .glow =>
    [("borderRadius", 0, 100), ("bgAlpha", 0, 100), ("glowIntensity", 0, 100),
     ("glowSpread", 0, 100), ("glowBlur", 0, 200), ("innerGlow", 0, 100),
     ("borderAlpha", 0, 100), ("borderWidth", 0, 5), ("blur", 0, 40),
     ("saturation", 50, 300), ("brightness", 50, 300)]

/-- Range lookup `ranges[key]`. -/
def lookupRange (m : EffectMode) (key : String) : Option (ℚ × ℚ) :=
  (SETTING_RANGES m |>.find? (fun e => e.1 == key)).map Prod.snd

-- ══════════════════════════════════════════════════════════════════
-- Semantic validation rules
-- ══════════════════════════════════════════════════════════════════

/-- One semantic rule (`SemanticRule<T>`). -/
structure SemanticRule (σ : Type) where
  id : String
  severity : Severity
  message : String
  property : Option String
  check : σ → Bool

/-- `LIQUID_GLASS_RULES`. -/
def LIQUID_GLASS_RULES : List (SemanticRule LiquidGlassSettings) :=
  [{ id := "blur-performance", severity := .warning, property := some "blur",
     check := fun s => decide (s.blur > 40),
     message := "blur > 40px is GPU-intensive and can cause jank on mobile. Values ≤ 30px are recommended." },
   { id := "opacity-blur-imbalance", severity := .info, property := some "bgAlpha",
     check := fun s => decide (s.bgAlpha > 60 ∧ s.blur < 8),
     message := "High background opacity with low blur diminishes the liquid-glass refraction effect." },
   { id := "border-invisible", severity := .info, property := some "borderAlpha",
     check := fun s => decide (s.borderAlpha < 3),
     message := "borderAlpha is nearly 0 — the border will be invisible." },
   { id := "refraction-saturation-conflict", severity := .info, property := none,
     check := fun s => decide (s.refractionIntensity > 70 ∧ s.saturation < 80),
     message := "High refractionIntensity with low saturation produces grey, washed-out refraction highlights." },
   { id := "shadow-invisible", severity := .info, property := some "shadowAlpha",
     check := fun s => decide (s.shadowAlpha < 3),
     message := "shadowAlpha is nearly 0 — the shadow will be invisible." }]

/-- `GLASSMORPHISM_RULES`. -/
def GLASSMORPHISM_RULES : List (SemanticRule GlassmorphismSettings) :=
  [{ id := "blur-performance", severity := .warning, property := some "blur",
     check := fun s => decide (s.blur > 30),
     message := "blur > 30px is GPU-intensive. Typical glassmorphism uses 10–20px." },
   { id := "opacity-blur-imbalance", severity := .info, property := some "bgAlpha",
     check := fun s => decide (s.bgAlpha > 60 ∧ s.blur < 8),
     message := "High background opacity with low blur eliminates the glass transparency effect." },
   { id := "saturation-extreme", severity := .warning, property := some "saturation",
     check := fun s => decide (s.saturation > 180),
     message := "saturation > 180% produces unnatural oversaturated color fringing through the glass." },
   { id := "border-too-wide", severity := .info, property := some "borderWidth",
     check := fun s => decide (s.borderWidth > 3),
     message := "Borders > 3px are unusual for glassmorphism." }]

/-- `NEUMORPHISM_RULES`. -/
def NEUMORPHISM_RULES : List (SemanticRule NeumorphismSettings) :=
  [{ id := "distance-blur-ratio", severity := .info, property := some "blur",
     check := fun s => decide (s.blur < s.distance),
     message := "blur should be ≥ distance for natural-looking neumorphism." },
   { id := "intensity-extreme", severity := .warning, property := some "intensity",
     check := fun s => decide (s.intensity > 35),
     message := "intensity > 35% makes shadows harsh and unrealistic." },
   { id := "distance-flat", severity := .info, property := some "distance",
     check := fun s => decide (s.distance ≤ 1),
     message := "Very small distance produces a flat look with no 3-D depth." },
   { id := "radius-mismatch", severity := .info, property := some "borderRadius",
     check := fun s => decide (¬ s.shape = NeuShape.flat ∧ s.borderRadius < 4),
     message := "Shaped neumorphism normally uses a rounded border-radius (≥ 8px)." }]

/-- `GLOW_RULES`. -/
def GLOW_RULES : List (SemanticRule GlowSettings) :=
  [{ id := "glow-blur-extreme", severity := .warning, property := some "glowBlur",
     check := fun s => decide (s.glowBlur > 150),
     message := "glowBlur > 150px is very GPU-intensive and may cause performance issues." },
   { id := "glow-invisible", severity := .info, property := some "glowIntensity",
     check := fun s => decide (s.glowIntensity < 5),
     message := "glowIntensity is nearly 0 — the glow effect will be invisible." },
   { id := "inner-glow-no-outer", severity := .info, property := none,
     check := fun s => decide (s.innerGlow > 40 ∧ s.glowIntensity < 10),
     message := "Strong inner glow without outer glow looks like an inset shadow rather than a glow effect." }]

/-- Rule table dispatch of `runSemanticRules`. -/
def rulesFor : (m : EffectMode) → List (SemanticRule (ModeSettings m))
  | .liquidGlass => LIQUID_GLASS_RULES
  | .glassmorphism => GLASSMORPHISM_RULES
  | .neumorphism => NEUMORPHISM_RULES
  | .glow => GLOW_RULES

/-- The diagnostic a firing rule pushes. -/
def ruleDiag {σ : Type} (r : SemanticRule σ) : Diagnostic :=
  { message := r.message, severity := r.severity, property := r.property }

/-- `runSemanticRules`: every rule whose `check` holds pushes its diagnostic. -/
def runSemanticRules (m : EffectMode) (s : ModeSettings m) (ds : List Diagnostic) :
    List Diagnostic :=
  (rulesFor m).foldl (fun acc r => if r.check s then acc ++ [ruleDiag r] else acc) ds

-- ══════════════════════════════════════════════════════════════════
-- Clamp engine
-- ══════════════════════════════════════════════════════════════════

/-- Rendering of a JS number in the clamp message; all claim-relevant values
are integers, where this coincides with JS `toString` (a non-integer rational
is rendered as an exact fraction instead of JS float formatting). -/
def qstr (q : ℚ) : String :=
  if q.den = 1 then toString q.num else toString q.num ++ "/" ++ toString q.den

/-- The clamp-notice diagnostic
`'KEY' value V clamped to C (valid range: MIN–MAX)`. -/
def clampDiag (key : String) (v c lo hi : ℚ) : Diagnostic :=
  { message := "'" ++ key ++ "' value " ++ qstr v ++ " clamped to " ++ qstr c ++
      " (valid range: " ++ qstr lo ++ "–" ++ qstr hi ++ ")",
    severity := .info, property := some key }

/-- One iteration of the `clampWithTracking` loop for a numeric field:
range lookup, clamp, and the conditional clampedFields/diagnostic pushes. -/
def clampStep (m : EffectMode) (key : String) (v : ℚ) : ℚ × List String × List Diagnostic :=
  match lookupRange m key with
  | none => (v, [], [])
  | some (lo, hi) =>
    let c := jsClamp v lo hi
    if c = v then (v, [], [])
    else (c, [key], [clampDiag key v c lo hi])

/-- The `Object.entries` loop of `clampWithTracking` over a liquid-glass
record: numeric fields in declaration order (the spread's key order); string
fields fail the `typeof value === 'number'` test and pass through. -/
def clampLG (s : LiquidGlassSettings) :
    LiquidGlassSettings × List String × List Diagnostic :=
  let c1 := clampStep .liquidGlass "blur" s.blur
  let c2 := clampStep .liquidGlass "opacity" s.opacity
  let c3 := clampStep .liquidGlass "borderRadius" s.borderRadius
  let c4 := clampStep .liquidGlass "bgAlpha" s.bgAlpha
  let c5 := clampStep .liquidGlass "borderAlpha" s.borderAlpha
  let c6 := clampStep .liquidGlass "borderWidth" s.borderWidth
  let c7 := clampStep .liquidGlass "refractionIntensity" s.refractionIntensity
  let c8 := clampStep .liquidGlass "shadowX" s.shadowX
  let c9 := clampStep .liquidGlass "shadowY" s.shadowY
  let c10 := clampStep .liquidGlass "shadowBlur" s.shadowBlur
  let c11 := clampStep .liquidGlass "shadowSpread" s.shadowSpread
  let c12 := clampStep .liquidGlass "shadowAlpha" s.shadowAlpha
  let c13 := clampStep .liquidGlass "saturation" s.saturation
  let c14 := clampStep .liquidGlass "brightness" s.brightness
  ({ s with
      blur := c1.1, opacity := c2.1, borderRadius := c3.1, bgAlpha := c4.1
      borderAlpha := c5.1, borderWidth := c6.1, refractionIntensity := c7.1
      shadowX := c8.1, shadowY := c9.1, shadowBlur := c10.1, shadowSpread := c11.1
      shadowAlpha := c12.1, saturation := c13.1, brightness := c14.1 },
   c1.2.1 ++ c2.2.1 ++ c3.2.1 ++ c4.2.1 ++ c5.2.1 ++ c6.2.1 ++ c7.2.1 ++ c8.2.1 ++
     c9.2.1 ++ c10.2.1 ++ c11.2.1 ++ c12.2.1 ++ c13.2.1 ++ c14.2.1,
   c1.2.2 ++ c2.2.2 ++ c3.2.2 ++ c4.2.2 ++ c5.2.2 ++ c6.2.2 ++ c7.2.2 ++ c8.2.2 ++
     c9.2.2 ++ c10.2.2 ++ c11.2.2 ++ c12.2.2 ++ c13.2.2 ++ c14.2.2)

/-- `clampWithTracking` loop over a glassmorphism record. -/
def clampGM (s : GlassmorphismSettings) :
    GlassmorphismSettings × List String × List Diagnostic :=
  let c1 := clampStep .glassmorphism "blur" s.blur
  let c2 := clampStep .glassmorphism "opacity" s.opacity
  let c3 := clampStep .glassmorphism "borderRadius" s.borderRadius
  let c4 := clampStep .glassmorphism "bgAlpha" s.bgAlpha
  let c5 := clampStep .glassmorphism "borderAlpha" s.borderAlpha
  let c6 := clampStep .glassmorphism "borderWidth" s.borderWidth
  let c7 := clampStep .glassmorphism "shadowX" s.shadowX
  let c8 := clampStep .glassmorphism "shadowY" s.shadowY
  let c9 := clampStep .glassmorphism "shadowBlur" s.shadowBlur
  let c10 := clampStep .glassmorphism "shadowAlpha" s.shadowAlpha
  let c11 := clampStep .glassmorphism "saturation" s.saturation
  ({ s with
      blur := c1.1, opacity := c2.1, borderRadius := c3.1, bgAlpha := c4.1
      borderAlpha := c5.1, borderWidth := c6.1, shadowX := c7.1, shadowY := c8.1
      shadowBlur := c9.1, shadowAlpha := c10.1, saturation := c11.1 },
   c1.2.1 ++ c2.2.1 ++ c3.2.1 ++ c4.2.1 ++ c5.2.1 ++ c6.2.1 ++ c7.2.1 ++ c8.2.1 ++
     c9.2.1 ++ c10.2.1 ++ c11.2.1,
   c1.2.2 ++ c2.2.2 ++ c3.2.2 ++ c4.2.2 ++ c5.2.2 ++ c6.2.2 ++ c7.2.2 ++ c8.2.2 ++
     c9.2.2 ++ c10.2.2 ++ c11.2.2)

/-- `clampWithTracking` loop over a neumorphism record (`shape` and the color
strings are not numbers and pass through). -/
def clampNM (s : NeumorphismSettings) :
    NeumorphismSettings × List String × List Diagnostic :=
  let c1 := clampStep .neumorphism "borderRadius" s.borderRadius
  let c2 := clampStep .neumorphism "distance" s.distance
  let c3 := clampStep .neumorphism "intensity" s.intensity
  let c4 := clampStep .neumorphism "blur" s.blur
  ({ s with borderRadius := c1.1, distance := c2.1, intensity := c3.1, blur := c4.1 },
   c1.2.1 ++ c2.2.1 ++ c3.2.1 ++ c4.2.1,
   c1.2.2 ++ c2.2.2 ++ c3.2.2 ++ c4.2.2)

/-- `clampWithTracking` loop over a glow record. -/
def clampGL (s : GlowSettings) : GlowSettings × List String × List Diagnostic :=
  let c1 := clampStep .glow "borderRadius" s.borderRadius
  let c2 := clampStep .glow "bgAlpha" s.bgAlpha
  let c3 := clampStep .glow "glowIntensity" s.glowIntensity
  let c4 := clampStep .glow "glowSpread" s.glowSpread
  let c5 := clampStep .glow "glowBlur" s.glowBlur
  let c6 := clampStep .glow "innerGlow" s.innerGlow
  let c7 := clampStep .glow "borderAlpha" s.borderAlpha
  let c8 := clampStep .glow "borderWidth" s.borderWidth
  let c9 := clampStep .glow "blur" s.blur
  let c10 := clampStep .glow "saturation" s.saturation
  let c11 := clampStep .glow "brightness" s.brightness
  ({ s with
      borderRadius := c1.1, bgAlpha := c2.1, glowIntensity := c3.1
      glowSpread := c4.1, glowBlur := c5.1, innerGlow := c6.1, borderAlpha := c7.1
      borderWidth := c8.1, blur := c9.1, saturation := c10.1, brightness := c11.1 },
   c1.2.1 ++ c2.2.1 ++ c3.2.1 ++ c4.2.1 ++ c5.2.1 ++ c6.2.1 ++ c7.2.1 ++ c8.2.1 ++
     c9.2.1 ++ c10.2.1 ++ c11.2.1,
   c1.2.2 ++ c2.2.2 ++ c3.2.2 ++ c4.2.2 ++ c5.2.2 ++ c6.2.2 ++ c7.2.2 ++ c8.2.2 ++
     c9.2.2 ++ c10.2.2 ++ c11.2.2)

/-- `clampWithTracking(mode, settings, diagnostics, clampedFields)`: the new
entries are appended to the accumulators passed in (the source mutates the
caller's arrays). -/
def clampWithTracking : (m : EffectMode) → ModeSettings m → List Diagnostic →
    List String → ModeSettings m × List String × List Diagnostic
  | .liquidGlass, s, ds, cf =>
    let r := clampLG s
    (r.1, cf ++ r.2.1, ds ++ r.2.2)
  | .glassmorphism, s, ds, cf =>
    let r := clampGM s
    (r.1, cf ++ r.2.1, ds ++ r.2.2)
  | .neumorphism, s, ds, cf =>
    let r := clampNM s
    (r.1, cf ++ r.2.1, ds ++ r.2.2)
  | .glow, s, ds, cf =>
    let r := clampGL s
    (r.1, cf ++ r.2.1, ds ++ r.2.2)

-- ══════════════════════════════════════════════════════════════════
-- Mode-specific extractors
-- ══════════════════════════════════════════════════════════════════

/-- JS `value.split(' ')[0]`. -/
def firstSpaceTok (s : String) : String :=
  String.mk (s.data.takeWhile (fun c => ¬ c == ' '))

/-- The `(get('backdrop-filter') ?? get('-webkit-backdrop-filter'))?.value` lookup. -/
def bdLookup (get : String → Option CSSDeclaration) : Option String :=
  match get "backdrop-filter" with
  | some d => some d.value
  | none => (get "-webkit-backdrop-filter").map CSSDeclaration.value

/-- `layers.map(parseShadowLayer).find((l) => l && !l.inset)`. -/
def findNonInset (parsed : List (Option ParsedShadow)) : Option ParsedShadow :=
  match parsed.find? (fun o =>
    match o with
    | some l => ! l.inset
    | none => false) with
  | some (some l) => some l
  | _ => none

/-- The unit-conversion info diagnostic of the `border-radius` handling. -/
def convDiag (br : CSSDeclaration) (p : ParsedUnit) : Diagnostic :=
  { message := "border-radius: converted " ++ qstr p.raw ++ p.unit ++ " → " ++ qstr p.px ++ "px",
    severity := .info, line := some br.line, property := some "border-radius" }

/-- The `background` block of `extractLiquidGlass` / `extractGlow` (its
unparseable-value warning). -/
def lgBgFail (bg : CSSDeclaration) : Diagnostic :=
  { message := "Could not parse 'background' color value: \"" ++ bg.value ++ "\""
    severity := .warning, line := some bg.line, property := some "background" }

/-- The `background` block of `extractGlassmorphism` (shorter warning text). -/
def gmBgFail (bg : CSSDeclaration) : Diagnostic :=
  { message := "Could not parse 'background': \"" ++ bg.value ++ "\""
    severity := .warning, line := some bg.line, property := some "background" }

/-- `background` block shared by the liquid-glass, glassmorphism and glow
extractors: parse the color, set `bgColor`/`bgAlpha` or push the warning.
`setBg` writes the two fields, `fail` builds the warning diagnostic. -/
noncomputable def bgStep {σ : Type} (get : String → Option CSSDeclaration)
    (setBg : String → ℚ → σ → σ) (fail : CSSDeclaration → Diagnostic)
    (x : σ × List Diagnostic) : Except String (σ × List Diagnostic) :=
  match get "background" with
  | none => .ok x
  | some bg =>
    match Color.parse bg.value with
    | .error e => .error e
    | .ok (some color) =>
      .ok (setBg color.toHex (jsRound (color.a * 100) : ℚ) x.1, x.2)
    | .ok none => .ok (x.1, x.2 ++ [fail bg])

/-- `backdrop-filter` block shared by the extractors: `setBlur`, `setSat`,
`setBright` write the respective fields (glassmorphism passes a no-op
`setBright`, its block reads no brightness). -/
def bdStep {σ : Type} (get : String → Option CSSDeclaration)
    (setBlur setSat setBright : ℚ → σ → σ) (s : σ) : σ :=
  match bdLookup get with
  | none => s
  | some v =>
    let f := parseBackdropFilter v
    let sa := match f.blur with
      | some b => setBlur b s
      | none => s
    let sb := match f.saturate with
      | some w => setSat w sa
      | none => sa
    match f.brightness with
    | some w => setBright w sb
    | none => sb

/-- `border-radius` block shared by the liquid-glass, glassmorphism and glow
extractors (first token, unit-normalized, conversion notice). -/
def brStep {σ : Type} (get : String → Option CSSDeclaration) (setBr : ℚ → σ → σ)
    (x : σ × List Diagnostic) : σ × List Diagnostic :=
  match get "border-radius" with
  | none => x
  | some br =>
    match parseWithUnit (firstSpaceTok br.value) with
    | none => x
    | some p =>
      (setBr p.px x.1, if p.wasConverted then x.2 ++ [convDiag br p] else x.2)

/-- `border` block shared by the liquid-glass, glassmorphism and glow
extractors. -/
noncomputable def borderStep {σ : Type} (get : String → Option CSSDeclaration)
    (setW : ℚ → σ → σ) (setC : String → σ → σ) (setA : ℚ → σ → σ)
    (x : σ × List Diagnostic) : Except String (σ × List Diagnostic) :=
  match get "border" with
  | none => .ok x
  | some border =>
    match parseBorder border.value with
    | .error e => .error e
    | .ok b =>
      let sa := match b.width with
        | some w => setW w x.1
        | none => x.1
      let sb := match b.color with
        | some col => setC col sa
        | none => sa
      .ok ((match b.alpha with
        | some al => setA (al : ℚ) sb
        | none => sb), x.2)

/-- `box-shadow` block of `extractLiquidGlass`: first non-inset layer. -/
noncomputable def lgShadowStep (get : String → Option CSSDeclaration)
    (x : LiquidGlassSettings × List Diagnostic) :
    Except String (LiquidGlassSettings × List Diagnostic) :=
  match get "box-shadow" with
  | none => .ok x
  | some shadow =>
    match (splitShadowLayers shadow.value).mapM parseShadowLayer with
    | .error e => .error e
    | .ok parsed =>
      match findNonInset parsed with
      | none => .ok x
      | some sh =>
        let sa := { x.1 with shadowX := sh.x, shadowY := sh.y, shadowBlur := sh.blur }
        let sb := match sh.spread with
          | some sp => { sa with shadowSpread := sp }
          | none => sa
        let sc := match sh.color with
          | some col => { sb with shadowColor := col }
          | none => sb
        .ok ((match sh.alpha with
          | some al => { sc with shadowAlpha := (al : ℚ) }
          | none => sc), x.2)

/-- `extractLiquidGlass`: the source blocks in order. -/
noncomputable def extractLiquidGlass (get : String → Option CSSDeclaration)
    (current : LiquidGlassSettings) (ds0 : List Diagnostic) :
    Except String (LiquidGlassSettings × List Diagnostic) :=
  match bgStep get
      (fun hx al s => { s with bgColor := hx, bgAlpha := al }) lgBgFail (current, ds0) with
  | .error e => .error e
  | .ok x1 =>
    let s2 := bdStep get (fun v s => { s with blur := v }) (fun v s => { s with saturation := v })
      (fun v s => { s with brightness := v }) x1.1
    let x2 := brStep get (fun v s => { s with borderRadius := v }) (s2, x1.2)
    match borderStep get (fun v s => { s with borderWidth := v })
        (fun c s => { s with borderColor := c }) (fun v s => { s with borderAlpha := v }) x2 with
    | .error e => .error e
    | .ok x3 => lgShadowStep get x3

/-- `box-shadow` block of `extractGlassmorphism`: first non-inset layer, no
spread field. -/
noncomputable def gmShadowStep (get : String → Option CSSDeclaration)
    (x : GlassmorphismSettings × List Diagnostic) :
    Except String (GlassmorphismSettings × List Diagnostic) :=
  match get "box-shadow" with
  | none => .ok x
  | some shadow =>
    match (splitShadowLayers shadow.value).mapM parseShadowLayer with
    | .error e => .error e
    | .ok parsed =>
      match findNonInset parsed with
      | none => .ok x
      | some sh =>
        let sa := { x.1 with shadowX := sh.x, shadowY := sh.y, shadowBlur := sh.blur }
        let sb := match sh.color with
          | some col => { sa with shadowColor := col }
          | none => sa
        .ok ((match sh.alpha with
          | some al => { sb with shadowAlpha := (al : ℚ) }
          | none => sb), x.2)

/-- `extractGlassmorphism`: the source blocks in order (its backdrop-filter
block reads only blur and saturate). -/
noncomputable def extractGlassmorphism (get : String → Option CSSDeclaration)
    (current : GlassmorphismSettings) (ds0 : List Diagnostic) :
    Except String (GlassmorphismSettings × List Diagnostic) :=
  match bgStep get
      (fun hx al s => { s with bgColor := hx, bgAlpha := al }) gmBgFail (current, ds0) with
  | .error e => .error e
  | .ok x1 =>
    let s2 := bdStep get (fun v s => { s with blur := v }) (fun v s => { s with saturation := v })
      (fun _ s => s) x1.1
    let x2 := brStep get (fun v s => { s with borderRadius := v }) (s2, x1.2)
    match borderStep get (fun v s => { s with borderWidth := v })
        (fun c s => { s with borderColor := c }) (fun v s => { s with borderAlpha := v }) x2 with
    | .error e => .error e
    | .ok x3 => gmShadowStep get x3

-- ══════════════════════════════════════════════════════════════════
-- Neumorphism and glow extractors
-- ══════════════════════════════════════════════════════════════════

/-- JS `String.prototype.includes`. -/
def containsSub (sub : List Char) : List Char → Bool
  | [] => startsWithChars [] sub
  | l@(_ :: rest) => startsWithChars l sub || containsSub sub rest

/-- Attempt of `linear-gradient\(\s*(-?[\d.]+)deg` at one position. -/
def gradientAngleAt (l : List Char) : Option (List Char) :=
  let pat := ("linear-gradient(").data
  if startsWithChars l pat then
    let r := (l.drop pat.length).dropWhile Char.isWhitespace
    let signSplit : List Char × List Char :=
      match r with
      | '-' :: rr => (['-'], rr)
      | _ => ([], r)
    match numRun signSplit.2 with
    | none => none
    | some (t, rest) =>
      if startsWithChars rest ['d', 'e', 'g'] then some (signSplit.1 ++ t) else none
  else none

/-- Leftmost gradient-angle capture. -/
def gradientAngleSearch : List Char → Option (List Char)
  | [] => none
  | l@(_ :: rest) =>
    match gradientAngleAt l with
    | some t => some t
    | none => gradientAngleSearch rest

/-- Attempt of `,\s*(#[0-9a-fA-F]{3,8}|rgba?\([^)]+\))` at one position. -/
def firstColorAt (l : List Char) : Option (List Char) :=
  match l with
  | ',' :: r => (colorTok (r.dropWhile Char.isWhitespace)).map Prod.fst
  | _ => none

/-- Leftmost first-color-stop capture. -/
def firstColorSearch : List Char → Option (List Char)
  | [] => none
  | l@(_ :: rest) =>
    match firstColorAt l with
    | some t => some t
    | none => firstColorSearch rest

/-- The dark-layer predicate of `extractNeumorphism` (lower luminance than the
background color); the luminance comparison is over `ℝ` and classically
decided, as the source compares JS floats. -/
noncomputable def nmDarkPred (bg : Option Color) (l : ParsedShadow) : Bool :=
  if l.inset then false
  else
    match (match l.color with
           | some cs => Color.fromHex cs
           | none => none), bg with
    | some c, some bgc => decide (c.relativeLuminance < bgc.relativeLuminance)
    | _, _ => false

/-- The light-layer predicate of `extractNeumorphism` (higher luminance). -/
noncomputable def nmLightPred (bg : Option Color) (l : ParsedShadow) : Bool :=
  if l.inset then false
  else
    match (match l.color with
           | some cs => Color.fromHex cs
           | none => none), bg with
    | some c, some bgc => decide (bgc.relativeLuminance < c.relativeLuminance)
    | _, _ => false

/-- `border-radius` block of `extractNeumorphism` (no conversion notice). -/
def nmBrStep (get : String → Option CSSDeclaration) (current : NeumorphismSettings) :
    NeumorphismSettings :=
  match get "border-radius" with
  | none => current
  | some br =>
    match parseWithUnit (firstSpaceTok br.value) with
    | some p => { current with borderRadius := p.px }
    | none => current

/-- `background` block of `extractNeumorphism`: gradient angle → shape, first
color stop → bgColor; a flat color parses directly. -/
noncomputable def nmBgStep (get : String → Option CSSDeclaration)
    (s1 : NeumorphismSettings) : Except String NeumorphismSettings :=
  match get "background" with
  | none => .ok s1
  | some bg =>
    let bgVal := bg.value
    if containsSub ("linear-gradient").data bgVal.data then
      let sShape : NeumorphismSettings :=
        match gradientAngleSearch bgVal.data with
        | some t =>
          let angle := jsParseFloatD (String.mk t)
          let normalized := jsMod (jsMod angle 360 + 360) 360
          if jsAbs (normalized - 145) < 15 ∨ jsAbs (normalized - 135) < 15 then
            { s1 with shape := .convex }
          else if jsAbs (normalized - 315) < 15 ∨ jsAbs (normalized - 45) < 15 then
            { s1 with shape := .concave }
          else s1
        | none => s1
      match firstColorSearch bgVal.data with
      | none => .ok sShape
      | some tok =>
        match Color.parse (String.mk tok) with
        | .error e => .error e
        | .ok (some c) => .ok { sShape with bgColor := c.toHex }
        | .ok none => .ok sShape
    else
      match Color.parse bgVal with
      | .error e => .error e
      | .ok (some c) => .ok { s1 with bgColor := c.toHex }
      | .ok none => .ok s1

/-- `box-shadow` block of `extractNeumorphism`: `inset` forces the pressed
shape; the lower-luminance layer is dark, the higher-luminance one light; a
missing light layer triggers the info-only suggestion diagnostic. -/
noncomputable def nmShadowStep (get : String → Option CSSDeclaration)
    (s2 : NeumorphismSettings) (ds0 : List Diagnostic) :
    Except String (NeumorphismSettings × List Diagnostic) :=
  match get "box-shadow" with
  | none => .ok (s2, ds0)
  | some shadow =>
    let isPressed := (insetSplit shadow.value.data).isSome
    let s3 := if isPressed then { s2 with shape := .pressed } else s2
    match (splitShadowLayers shadow.value).mapM parseShadowLayer with
    | .error e => .error e
    | .ok parsedO =>
      let parsed := parsedO.filterMap id
      let bgColor := Color.fromHex s3.bgColor
      let darkLayer : Option ParsedShadow :=
        match parsed.find? (nmDarkPred bgColor) with
        | some l => some l
        | none => parsed.find? (fun l => ! l.inset)
      let lightLayer : Option ParsedShadow :=
        match parsed.find? (nmLightPred bgColor) with
        | some l => some l
        | none => (parsed.filter (fun l => ! l.inset)).get? 1
      let s4 : NeumorphismSettings :=
        match darkLayer with
        | none => s3
        | some dark =>
          let v := if ¬ dark.x = 0 then dark.x else if ¬ dark.y = 0 then dark.y else 0
          let sa := { s3 with
              distance := (jsRound (jsAbs v) : ℚ)
              blur := (jsRound dark.blur : ℚ) }
          let sb := match dark.alpha with
            | some al => { sa with intensity := (al : ℚ) }
            | none => sa
          match dark.color with
          | some col => { sb with darkColor := col }
          | none => sb
      let s5 : NeumorphismSettings :=
        match lightLayer with
        | some light =>
          match light.color with
          | some col => { s4 with lightColor := col }
          | none => s4
        | none => s4
      let dsOut : List Diagnostic :=
        if ¬ s5.bgColor = "" ∧ lightLayer = none then
          match Color.fromHex s5.bgColor with
          | some bgC =>
            let pair := bgC.generateNeumorphismShadows s5.intensity
            ds0 ++ [{ message := "Only one shadow layer found. Auto-suggesting: light=" ++
                        pair.1.toHex ++ ", dark=" ++ pair.2.toHex ++ " based on bgColor."
                      severity := .info, property := some "box-shadow" }]
          | none => ds0
        else ds0
      .ok (s5, dsOut)

/-- `extractNeumorphism`: the source blocks in order.  The `s.intensity ?? 15`
fallback of the suggestion branch never fires for the typed records
(intensity is always present). -/
noncomputable def extractNeumorphism (get : String → Option CSSDeclaration)
    (current : NeumorphismSettings) (ds0 : List Diagnostic) :
    Except String (NeumorphismSettings × List Diagnostic) :=
  match nmBgStep get (nmBrStep get current) with
  | .error e => .error e
  | .ok s2 => nmShadowStep get s2 ds0

/-- Stable insertion into a blur-descending list; together with `sortBlurDesc`
this realizes ES2019's stable `Array.prototype.sort` under the comparator
`(a, b) => b.blur - a.blur`. -/
def insertBlurDesc (x : ParsedShadow) : List ParsedShadow → List ParsedShadow
  | [] => [x]
  | y :: ys => if y.blur < x.blur then x :: y :: ys else y :: insertBlurDesc x ys

/-- Stable blur-descending sort of `extractGlow`. -/
def sortBlurDesc (l : List ParsedShadow) : List ParsedShadow :=
  l.foldl (fun acc x => insertBlurDesc x acc) []

/-- `box-shadow` block of `extractGlow`: the largest-blur non-inset layer is
the outer glow, the first inset layer the inner glow. -/
noncomputable def glShadowStep (get : String → Option CSSDeclaration)
    (x : GlowSettings × List Diagnostic) :
    Except String (GlowSettings × List Diagnostic) :=
  match get "box-shadow" with
  | none => .ok x
  | some shadow =>
    match (splitShadowLayers shadow.value).mapM parseShadowLayer with
    | .error e => .error e
    | .ok parsedO =>
      let parsedLayers := parsedO.filterMap id
      let outerGlow := (sortBlurDesc (parsedLayers.filter (fun l => ! l.inset))).head?
      let s5 : GlowSettings :=
        match outerGlow with
        | none => x.1
        | some og =>
          let sa := match og.color with
            | some col => { x.1 with glowColor := col }
            | none => x.1
          let sb := { sa with glowBlur := (jsRound og.blur : ℚ) }
          let sc := match og.spread with
            | some sp => { sb with glowSpread := (jsRound sp : ℚ) }
            | none => sb
          match og.alpha with
          | some al => { sc with glowIntensity := (jsRound ((al : ℚ) / (0.6 : ℚ)) : ℚ) }
          | none => sc
      let s6 : GlowSettings :=
        match parsedLayers.find? (fun l => l.inset) with
        | some inner => { s5 with innerGlow := (jsRound inner.blur : ℚ) }
        | none => s5
      .ok (s6, x.2)

/-- `extractGlow`: the source blocks in order. -/
noncomputable def extractGlow (get : String → Option CSSDeclaration)
    (current : GlowSettings) (ds0 : List Diagnostic) :
    Except String (GlowSettings × List Diagnostic) :=
  match bgStep get
      (fun hx al s => { s with bgColor := hx, bgAlpha := al }) lgBgFail (current, ds0) with
  | .error e => .error e
  | .ok x1 =>
    let s2 := bdStep get (fun v s => { s with blur := v }) (fun v s => { s with saturation := v })
      (fun v s => { s with brightness := v }) x1.1
    let x2 := brStep get (fun v s => { s with borderRadius := v }) (s2, x1.2)
    match borderStep get (fun v s => { s with borderWidth := v })
        (fun c s => { s with borderColor := c }) (fun v s => { s with borderAlpha := v }) x2 with
    | .error e => .error e
    | .ok x3 => glShadowStep get x3

-- ══════════════════════════════════════════════════════════════════
-- Accessibility analysis
-- ══════════════════════════════════════════════════════════════════

/-- WCAG accessibility snapshot.  `passesAA`/`passesAAA` are the threshold
propositions over the real-valued ratio. -/
structure AccessibilityInfo where
  contrastRatio : ℝ
  passesAA : Prop
  passesAAA : Prop
  recommendedTextColor : String
  recommendation : String

/-- Recommendation text of the AAA branch (the interpolated
`contrastRatio.toFixed(1)` float formatting is elided, see file comment). -/
def recExcellent : String := "Excellent contrast — passes WCAG AAA."

/-- Recommendation text of the AA branch. -/
def recGood : String := "Good contrast — passes WCAG AA. Consider increasing bgAlpha for AAA."

/-- Recommendation text of the failing branch. -/
def recLow : String := "Low contrast — fails WCAG AA. Text readability on this surface may be poor."

/-- The black-contrast value `(effectiveLum + 0.05) / (0 + 0.05)`. -/
noncomputable def blackContrastOf (effectiveLum : ℝ) : ℝ := (effectiveLum + 0.05) / (0 + 0.05)

/-- The white-contrast value `(1 + 0.05) / (effectiveLum + 0.05)`. -/
noncomputable def whiteContrastOf (effectiveLum : ℝ) : ℝ := (1 + 0.05) / (effectiveLum + 0.05)

/-- Assembly of the `AccessibilityInfo` from the effective luminance
(lines computing blackContrast … recommendation of `calculateAccessibility`). -/
noncomputable def mkAccessInfo (effectiveLum : ℝ) : AccessibilityInfo :=
  let blackContrast := blackContrastOf effectiveLum
  let whiteContrast := whiteContrastOf effectiveLum
  let recommendedTextColor := if blackContrast < whiteContrast then "#ffffff" else "#000000"
  let contrastRatio := max blackContrast whiteContrast
  let passesAA := (4.5 : ℝ) ≤ contrastRatio
  let passesAAA := (7 : ℝ) ≤ contrastRatio
  { contrastRatio
    passesAA
    passesAAA
    recommendedTextColor
    recommendation :=
      if passesAAA then recExcellent else if passesAA then recGood else recLow }

/-- Mode dispatch for the background hex of `calculateAccessibility`. -/
def bgHexOf : (m : EffectMode) → ModeSettings m → String
  | .liquidGlass, s => s.bgColor
  | .glassmorphism, s => s.bgColor
  | .neumorphism, s => s.bgColor
  | .glow, s => s.bgColor

/-- Mode dispatch for the background alpha (neumorphism always 100). -/
def bgAlphaOf : (m : EffectMode) → ModeSettings m → ℚ
  | .liquidGlass, s => s.bgAlpha
  | .glassmorphism, s => s.bgAlpha
  | .neumorphism, _ => 100
  | .glow, s => s.bgAlpha

/-- `calculateAccessibility`.  The surrounding `try/catch` of the source has
no effect in the model (no modelled step throws); the `!bgHex` falsy guard is
the empty-string test on the typed records. -/
noncomputable def calculateAccessibility (m : EffectMode) (s : ModeSettings m) :
    Option AccessibilityInfo :=
  let bgHex := bgHexOf m s
  if bgHex = "" then none
  else
    match Color.fromHex bgHex with
    | none => none
    | some bgColor =>
      let blendFactor : ℝ := ((bgAlphaOf m s : ℚ) : ℝ) / 100
      let effectiveLum := bgColor.relativeLuminance * blendFactor + 0.5 * (1 - blendFactor)
      some (mkAccessInfo effectiveLum)

-- ══════════════════════════════════════════════════════════════════
-- AST walker (PostCSS front end is external; fallback tokenizer is local)
-- ══════════════════════════════════════════════════════════════════

/-- Modelled from the spec: the error object thrown by the external PostCSS
structured parse (`§4.4: captures an error Diagnostic (message/line/column
from the parser)`); the `reason ?? message ?? 'CSS syntax error'` collapse is
folded into `message`. -/
structure SyntaxErr where
  message : String
  line : Option ℕ
  column : Option ℕ
deriving DecidableEq, Repr

/-- Walker output. -/
structure WalkResult where
  declarations : List CSSDeclaration
  syntaxError : Option Diagnostic
deriving DecidableEq, Repr

/-- `regexFallbackWalk`'s `^[^{]*\{` strip. -/
def stripLeadToBrace (l : List Char) : List Char :=
  if l.contains '{' then (l.dropWhile (fun c => ¬ c == '{')).drop 1 else l

/-- `regexFallbackWalk`'s `}[^}]*$` strip. -/
def stripTrailFromBrace (l : List Char) : List Char :=
  if l.contains '}' then ((l.reverse.dropWhile (fun c => ¬ c == '}')).drop 1).reverse else l

/-- Scanner state of the fallback tokenizer. -/
structure FWState where
  depth : ℤ
  buffer : List Char
  lineNum : ℕ
  tokenStartLine : ℕ
  decls : List CSSDeclaration
deriving DecidableEq, Repr

/-- The `;`-handler of the fallback tokenizer: split the buffer at the first
`:` (index must be positive), trim/lowercase, and push when both
pieces are nonempty. -/
def fwEmit (st : FWState) : List CSSDeclaration :=
  match st.buffer.findIdx? (fun c => c == ':') with
  | some idx =>
    if 0 < idx then
      let prop := lowerChars (trimChars (st.buffer.take idx))
      let v := trimChars (st.buffer.drop (idx + 1))
      if ¬ prop.isEmpty ∧ ¬ v.isEmpty then
        st.decls ++ [⟨String.mk prop, String.mk v, st.tokenStartLine, 1⟩]
      else st.decls
    else st.decls
  | none => st.decls

/-- One character step of the fallback tokenizer. -/
def fwStep (st0 : FWState) (c : Char) : FWState :=
  let st := if c == '\n' then { st0 with lineNum := st0.lineNum + 1 } else st0
  if c == '(' then { st with depth := st.depth + 1, buffer := st.buffer ++ [c] }
  else if c == ')' then { st with depth := st.depth - 1, buffer := st.buffer ++ [c] }
  else if c == ';' ∧ st.depth = 0 then
    { st with decls := fwEmit st, buffer := [], tokenStartLine := st.lineNum }
  else { st with buffer := st.buffer ++ [c] }

/-- `regexFallbackWalk`: strip an optional leading selector+brace and trailing
brace, then scan with parenthesis-depth tracking; a trailing chunk without a
closing `;` is dropped (the source loop only emits on `;`). -/
def regexFallbackWalk (css : String) : List CSSDeclaration :=
  let inner := stripTrailFromBrace (stripLeadToBrace css.data)
  (inner.foldl fwStep ⟨0, [], 1, 1, []⟩).decls

/-- `walkCSS`: the structured-parse outcome (external PostCSS) is a parameter;
on an error the fallback tokenizer runs and the error becomes a severity-error
diagnostic. -/
def walkCSS (css : String) (ast : Except SyntaxErr (List CSSDeclaration)) : WalkResult :=
  match ast with
  | .ok ds => ⟨ds, none⟩
  | .error e => ⟨regexFallbackWalk css, some ⟨e.message, .error, e.line, e.column, none⟩⟩

-- ══════════════════════════════════════════════════════════════════
-- Orchestrator
-- ══════════════════════════════════════════════════════════════════

/-- `ParseResult` for a fixed mode. -/
structure ParseResult (m : EffectMode) where
  settings : Option (ModeSettings m)
  diagnostics : List Diagnostic
  ghostProperties : List GhostProperty
  accessibility : Option AccessibilityInfo
  clampedFields : List String

/-- The ghost record pushed for an unrecognized declaration. -/
def ghostOf (m : EffectMode) (d : CSSDeclaration) : GhostProperty :=
  ⟨d.property, d.value, some d.line,
   "'" ++ d.property ++ "' is not used by " ++ modeName m ++ " — it will be ignored."⟩

/-- The ghost-classification loop of `parseAndValidateCSS` (the membership
test is JS `in`, see `jsInProps`). -/
def ghostsOf (m : EffectMode) (decls : List CSSDeclaration) : List GhostProperty :=
  decls.foldl
    (fun acc d =>
      if jsInProps d.property (PROPERTIES_BY_MODE m) then acc else acc ++ [ghostOf m d])
    []

/-- The `propMap` lookup (`Map.set` per declaration: the last declaration of a
property wins). -/
def getProp (decls : List CSSDeclaration) (p : String) : Option CSSDeclaration :=
  (decls.filter (fun d => d.property == p)).getLast?

/-- Extractor dispatch of the orchestrator. -/
noncomputable def extractFor : (m : EffectMode) → (String → Option CSSDeclaration) →
    ModeSettings m → List Diagnostic → Except String (ModeSettings m × List Diagnostic)
  | .liquidGlass => extractLiquidGlass
  | .glassmorphism => extractGlassmorphism
  | .neumorphism => extractNeumorphism
  | .glow => extractGlow

/-- `parseAndValidateCSS(mode, css, currentSettings)`.  The structured-parse
outcome `ast` is threaded to `walkCSS` (PostCSS is external to the repository);
`Except.error` models a JS exception escaping the orchestrator (reachable
through `Color.parse`, see there). -/
noncomputable def parseAndValidateCSS (m : EffectMode) (css : String)
    (ast : Except SyntaxErr (List CSSDeclaration)) (currentSettings : ModeSettings m) :
    Except String (ParseResult m) :=
  let w := walkCSS css ast
  let ds0 : List Diagnostic :=
    match w.syntaxError with
    | some e => [e]
    | none => []
  if w.declarations.isEmpty ∧ w.syntaxError.isSome then
    .ok { settings := none, diagnostics := ds0, ghostProperties := [],
          accessibility := none, clampedFields := [] }
  else
    let ghosts := ghostsOf m w.declarations
    let get := getProp w.declarations
    match extractFor m get currentSettings ds0 with
    | .error e => .error e
    | .ok (raw, ds1) =>
      let r := clampWithTracking m raw ds1 []
      let ds2 := runSemanticRules m r.1 r.2.2
      let accessibility := calculateAccessibility m r.1
      .ok { settings := some r.1, diagnostics := ds2, ghostProperties := ghosts,
            accessibility, clampedFields := r.2.1 }

-- ══════════════════════════════════════════════════════════════════
-- Numeric-field tables and range predicates (statement vocabulary)
-- ══════════════════════════════════════════════════════════════════

/-- The numeric fields of a liquid-glass record with their registry keys, in
declaration (= iteration) order. -/
def lgNumFields : List (String × (LiquidGlassSettings → ℚ)) :=
  [("blur", LiquidGlassSettings.blur), ("opacity", LiquidGlassSettings.opacity),
   ("borderRadius", LiquidGlassSettings.borderRadius), ("bgAlpha", LiquidGlassSettings.bgAlpha),
   ("borderAlpha", LiquidGlassSettings.borderAlpha), ("borderWidth", LiquidGlassSettings.borderWidth),
   ("refractionIntensity", LiquidGlassSettings.refractionIntensity),
   ("shadowX", LiquidGlassSettings.shadowX), ("shadowY", LiquidGlassSettings.shadowY),
   ("shadowBlur", LiquidGlassSettings.shadowBlur), ("shadowSpread", LiquidGlassSettings.shadowSpread),
   ("shadowAlpha", LiquidGlassSettings.shadowAlpha), ("saturation", LiquidGlassSettings.saturation),
   ("brightness", LiquidGlassSettings.brightness)]

/-- The numeric fields of a glassmorphism record. -/
def gmNumFields : List (String × (GlassmorphismSettings → ℚ)) :=
  [("blur", GlassmorphismSettings.blur), ("opacity", GlassmorphismSettings.opacity),
   ("borderRadius", GlassmorphismSettings.borderRadius), ("bgAlpha", GlassmorphismSettings.bgAlpha),
   ("borderAlpha", GlassmorphismSettings.borderAlpha), ("borderWidth", GlassmorphismSettings.borderWidth),
   ("shadowX", GlassmorphismSettings.shadowX), ("shadowY", GlassmorphismSettings.shadowY),
   ("shadowBlur", GlassmorphismSettings.shadowBlur), ("shadowAlpha", GlassmorphismSettings.shadowAlpha),
   ("saturation", GlassmorphismSettings.saturation)]

/-- The numeric fields of a neumorphism record. -/
def nmNumFields : List (String × (NeumorphismSettings → ℚ)) :=
  [("borderRadius", NeumorphismSettings.borderRadius), ("distance", NeumorphismSettings.distance),
   ("intensity", NeumorphismSettings.intensity), ("blur", NeumorphismSettings.blur)]

/-- The numeric fields of a glow record. -/
def glNumFields : List (String × (GlowSettings → ℚ)) :=
  [("borderRadius", GlowSettings.borderRadius), ("bgAlpha", GlowSettings.bgAlpha),
   ("glowIntensity", GlowSettings.glowIntensity), ("glowSpread", GlowSettings.glowSpread),
   ("glowBlur", GlowSettings.glowBlur), ("innerGlow", GlowSettings.innerGlow),
   ("borderAlpha", GlowSettings.borderAlpha), ("borderWidth", GlowSettings.borderWidth),
   ("blur", GlowSettings.blur), ("saturation", GlowSettings.saturation),
   ("brightness", GlowSettings.brightness)]

/-- Numeric-field table per mode. -/
def modeNumFields : (m : EffectMode) → List (String × (ModeSettings m → ℚ))
  | .liquidGlass => lgNumFields
  | .glassmorphism => gmNumFields
  | .neumorphism => nmNumFields
  | .glow => glNumFields

/-- Whether one value satisfies its registered range (vacuously true when the
registry declares none). -/
def fieldInRange (m : EffectMode) (key : String) (v : ℚ) : Bool :=
  match lookupRange m key with
  | none => true
  | some (lo, hi) => decide (lo ≤ v) && decide (v ≤ hi)

/-- Whether every numeric field of a settings record satisfies its registered
range. -/
def InRangeB (m : EffectMode) (t : ModeSettings m) : Bool :=
  (modeNumFields m).all fun p => fieldInRange m p.1 (p.2 t)

/-- Claim vocabulary: the non-numeric (color / enum) fields of the record are
returned unchanged by the clamp pass. -/
def NonNumericUntouched : (m : EffectMode) → ModeSettings m → ModeSettings m → Prop
  | .liquidGlass, s, t =>
    t.bgColor = s.bgColor ∧ t.borderColor = s.borderColor ∧ t.shadowColor = s.shadowColor
  | .glassmorphism, s, t =>
    t.bgColor = s.bgColor ∧ t.borderColor = s.borderColor ∧ t.shadowColor = s.shadowColor
  | .neumorphism, s, t =>
    t.bgColor = s.bgColor ∧ t.shape = s.shape ∧ t.lightColor = s.lightColor ∧
      t.darkColor = s.darkColor
  | .glow, s, t =>
    t.bgColor = s.bgColor ∧ t.glowColor = s.glowColor ∧ t.borderColor = s.borderColor

-- ══════════════════════════════════════════════════════════════════
-- Clamp lemmas
-- ══════════════════════════════════════════════════════════════════

/-- The clamped value lies in the range. -/
lemma jsClamp_mem {v lo hi : ℚ} (hlh : lo ≤ hi) : lo ≤ jsClamp v lo hi ∧ jsClamp v lo hi ≤ hi :=
  ⟨le_min hlh (le_max_left lo v), min_le_left hi _⟩

/-- Clamping an in-range value is the identity. -/
lemma jsClamp_of_mem {v lo hi : ℚ} (h1 : lo ≤ v) (h2 : v ≤ hi) : jsClamp v lo hi = v := by
  unfold jsClamp
  rw [max_eq_right h1, min_eq_right h2]

/-- A key without a registered range passes through `clampStep` untouched. -/
lemma clampStep_none {m : EffectMode} {k : String} {v : ℚ}
    (h : lookupRange m k = none) : clampStep m k v = (v, [], []) := by
  unfold clampStep
  rw [h]

/-- `clampStep` on a key with a registered range. -/
lemma clampStep_some {m : EffectMode} {k : String} {v lo hi : ℚ}
    (h : lookupRange m k = some (lo, hi)) :
    clampStep m k v =
      if jsClamp v lo hi = v then (v, [], [])
      else (jsClamp v lo hi, [k], [clampDiag k v (jsClamp v lo hi) lo hi]) := by
  unfold clampStep
  rw [h]

/-- The value `clampStep` leaves behind is in range. -/
lemma clampStep_val_bounds {m : EffectMode} {k : String} {v lo hi : ℚ}
    (h : lookupRange m k = some (lo, hi)) (hlh : lo ≤ hi) :
    lo ≤ (clampStep m k v).1 ∧ (clampStep m k v).1 ≤ hi := by
  rw [clampStep_some h]
  split
  · next heq => exact heq ▸ jsClamp_mem hlh
  · exact jsClamp_mem hlh

/-- `clampStep` is the identity on an in-range value. -/
lemma clampStep_id {m : EffectMode} {k : String} {v lo hi : ℚ}
    (h1 : lo ≤ v) (h2 : v ≤ hi) (h : lookupRange m k = some (lo, hi)) :
    clampStep m k v = (v, [], []) := by
  rw [clampStep_some h, if_pos (jsClamp_of_mem h1 h2)]

/-- A changed value means a registered range, a clampedFields entry and the
info diagnostic. -/
lemma clampStep_changed {m : EffectMode} {k : String} {v : ℚ}
    (hne : ¬ (clampStep m k v).1 = v) :
    ∃ lo hi, lookupRange m k = some (lo, hi) ∧
      (clampStep m k v).2.1 = [k] ∧
      (clampStep m k v).2.2 = [clampDiag k v ((clampStep m k v).1) lo hi] := by
  rcases hl : lookupRange m k with _ | ⟨lo, hi⟩
  · rw [clampStep_none hl] at hne
    exact absurd rfl hne
  · refine ⟨lo, hi, rfl, ?_⟩
    rw [clampStep_some hl] at hne ⊢
    by_cases hc : jsClamp v lo hi = v
    · rw [if_pos hc] at hne
      exact absurd rfl hne
    · rw [if_neg hc]
      exact ⟨rfl, rfl⟩

/-- An unchanged value pushes nothing. -/
lemma clampStep_unchanged {m : EffectMode} {k : String} {v : ℚ}
    (heq : (clampStep m k v).1 = v) :
    (clampStep m k v).2.1 = [] ∧ (clampStep m k v).2.2 = [] := by
  rcases hl : lookupRange m k with _ | ⟨lo, hi⟩
  · rw [clampStep_none hl]
    exact ⟨rfl, rfl⟩
  · rw [clampStep_some hl] at heq ⊢
    by_cases hc : jsClamp v lo hi = v
    · rw [if_pos hc]
      exact ⟨rfl, rfl⟩
    · rw [if_neg hc] at heq
      exact absurd heq hc

/-- `fieldInRange` holds on whatever `clampStep` leaves behind. -/
lemma fieldInRange_clampStep {m : EffectMode} {k : String} {v lo hi : ℚ}
    (h : lookupRange m k = some (lo, hi)) (hlh : lo ≤ hi) :
    fieldInRange m k ((clampStep m k v).1) = true := by
  have hb := clampStep_val_bounds (v := v) h hlh
  unfold fieldInRange
  rw [h]
  simp [hb.1, hb.2]

/-- `fieldInRange` as the range proposition. -/
lemma fieldInRange_iff {m : EffectMode} {k : String} {v lo hi : ℚ}
    (h : lookupRange m k = some (lo, hi)) :
    fieldInRange m k v = true ↔ lo ≤ v ∧ v ≤ hi := by
  unfold fieldInRange
  rw [h]
  simp
/-- clampedFields segments of `clampLG` in iteration order. -/
lemma clampLG_cf (s : LiquidGlassSettings) :
    (clampLG s).2.1 =
      (clampStep EffectMode.liquidGlass "blur" s.blur).2.1 ++
      (clampStep EffectMode.liquidGlass "opacity" s.opacity).2.1 ++
      (clampStep EffectMode.liquidGlass "borderRadius" s.borderRadius).2.1 ++
      (clampStep EffectMode.liquidGlass "bgAlpha" s.bgAlpha).2.1 ++
      (clampStep EffectMode.liquidGlass "borderAlpha" s.borderAlpha).2.1 ++
      (clampStep EffectMode.liquidGlass "borderWidth" s.borderWidth).2.1 ++
      (clampStep EffectMode.liquidGlass "refractionIntensity" s.refractionIntensity).2.1 ++
      (clampStep EffectMode.liquidGlass "shadowX" s.shadowX).2.1 ++
      (clampStep EffectMode.liquidGlass "shadowY" s.shadowY).2.1 ++
      (clampStep EffectMode.liquidGlass "shadowBlur" s.shadowBlur).2.1 ++
      (clampStep EffectMode.liquidGlass "shadowSpread" s.shadowSpread).2.1 ++
      (clampStep EffectMode.liquidGlass "shadowAlpha" s.shadowAlpha).2.1 ++
      (clampStep EffectMode.liquidGlass "saturation" s.saturation).2.1 ++
      (clampStep EffectMode.liquidGlass "brightness" s.brightness).2.1 := rfl

/-- Diagnostic segments of `clampLG` in iteration order. -/
lemma clampLG_ds (s : LiquidGlassSettings) :
    (clampLG s).2.2 =
      (clampStep EffectMode.liquidGlass "blur" s.blur).2.2 ++
      (clampStep EffectMode.liquidGlass "opacity" s.opacity).2.2 ++
      (clampStep EffectMode.liquidGlass "borderRadius" s.borderRadius).2.2 ++
      (clampStep EffectMode.liquidGlass "bgAlpha" s.bgAlpha).2.2 ++
      (clampStep EffectMode.liquidGlass "borderAlpha" s.borderAlpha).2.2 ++
      (clampStep EffectMode.liquidGlass "borderWidth" s.borderWidth).2.2 ++
      (clampStep EffectMode.liquidGlass "refractionIntensity" s.refractionIntensity).2.2 ++
      (clampStep EffectMode.liquidGlass "shadowX" s.shadowX).2.2 ++
      (clampStep EffectMode.liquidGlass "shadowY" s.shadowY).2.2 ++
      (clampStep EffectMode.liquidGlass "shadowBlur" s.shadowBlur).2.2 ++
      (clampStep EffectMode.liquidGlass "shadowSpread" s.shadowSpread).2.2 ++
      (clampStep EffectMode.liquidGlass "shadowAlpha" s.shadowAlpha).2.2 ++
      (clampStep EffectMode.liquidGlass "saturation" s.saturation).2.2 ++
      (clampStep EffectMode.liquidGlass "brightness" s.brightness).2.2 := rfl

/-- A fully in-range record passes `clampLG` untouched. -/
lemma clampLG_noop (s : LiquidGlassSettings) (h : InRangeB EffectMode.liquidGlass s = true) :
    clampLG s = (s, [], []) := by
  simp only [InRangeB, modeNumFields, lgNumFields, List.all_cons, List.all_nil,
    Bool.and_eq_true, and_true] at h
  obtain ⟨h1, h2, h3, h4, h5, h6, h7, h8, h9, h10, h11, h12, h13, h14⟩ := h
  rw [fieldInRange_iff (m := EffectMode.liquidGlass) (k := "blur") rfl] at h1
  rw [fieldInRange_iff (m := EffectMode.liquidGlass) (k := "opacity") rfl] at h2
  rw [fieldInRange_iff (m := EffectMode.liquidGlass) (k := "borderRadius") rfl] at h3
  rw [fieldInRange_iff (m := EffectMode.liquidGlass) (k := "bgAlpha") rfl] at h4
  rw [fieldInRange_iff (m := EffectMode.liquidGlass) (k := "borderAlpha") rfl] at h5
  rw [fieldInRange_iff (m := EffectMode.liquidGlass) (k := "borderWidth") rfl] at h6
  rw [fieldInRange_iff (m := EffectMode.liquidGlass) (k := "refractionIntensity") rfl] at h7
  rw [fieldInRange_iff (m := EffectMode.liquidGlass) (k := "shadowX") rfl] at h8
  rw [fieldInRange_iff (m := EffectMode.liquidGlass) (k := "shadowY") rfl] at h9
  rw [fieldInRange_iff (m := EffectMode.liquidGlass) (k := "shadowBlur") rfl] at h10
  rw [fieldInRange_iff (m := EffectMode.liquidGlass) (k := "shadowSpread") rfl] at h11
  rw [fieldInRange_iff (m := EffectMode.liquidGlass) (k := "shadowAlpha") rfl] at h12
  rw [fieldInRange_iff (m := EffectMode.liquidGlass) (k := "saturation") rfl] at h13
  rw [fieldInRange_iff (m := EffectMode.liquidGlass) (k := "brightness") rfl] at h14
  simp only [clampLG]
  rw [clampStep_id (m := EffectMode.liquidGlass) (k := "blur") h1.1 h1.2 rfl,
    clampStep_id (m := EffectMode.liquidGlass) (k := "opacity") h2.1 h2.2 rfl,
    clampStep_id (m := EffectMode.liquidGlass) (k := "borderRadius") h3.1 h3.2 rfl,
    clampStep_id (m := EffectMode.liquidGlass) (k := "bgAlpha") h4.1 h4.2 rfl,
    clampStep_id (m := EffectMode.liquidGlass) (k := "borderAlpha") h5.1 h5.2 rfl,
    clampStep_id (m := EffectMode.liquidGlass) (k := "borderWidth") h6.1 h6.2 rfl,
    clampStep_id (m := EffectMode.liquidGlass) (k := "refractionIntensity") h7.1 h7.2 rfl,
    clampStep_id (m := EffectMode.liquidGlass) (k := "shadowX") h8.1 h8.2 rfl,
    clampStep_id (m := EffectMode.liquidGlass) (k := "shadowY") h9.1 h9.2 rfl,
    clampStep_id (m := EffectMode.liquidGlass) (k := "shadowBlur") h10.1 h10.2 rfl,
    clampStep_id (m := EffectMode.liquidGlass) (k := "shadowSpread") h11.1 h11.2 rfl,
    clampStep_id (m := EffectMode.liquidGlass) (k := "shadowAlpha") h12.1 h12.2 rfl,
    clampStep_id (m := EffectMode.liquidGlass) (k := "saturation") h13.1 h13.2 rfl,
    clampStep_id (m := EffectMode.liquidGlass) (k := "brightness") h14.1 h14.2 rfl]
  rfl

/-- Every numeric field is in range after `clampLG`. -/
lemma clampLG_inRange (s : LiquidGlassSettings) :
    InRangeB EffectMode.liquidGlass (clampLG s).1 = true := by
  simp only [InRangeB, modeNumFields, lgNumFields, List.all_cons, List.all_nil,
    Bool.and_eq_true, and_true]
  refine ⟨?_, ?_, ?_, ?_, ?_, ?_, ?_, ?_, ?_, ?_, ?_, ?_, ?_, ?_⟩ <;>
    exact fieldInRange_clampStep rfl (by norm_num)

/-- clampedFields segments of `clampGM` in iteration order. -/
lemma clampGM_cf (s : GlassmorphismSettings) :
    (clampGM s).2.1 =
      (clampStep EffectMode.glassmorphism "blur" s.blur).2.1 ++
      (clampStep EffectMode.glassmorphism "opacity" s.opacity).2.1 ++
      (clampStep EffectMode.glassmorphism "borderRadius" s.borderRadius).2.1 ++
      (clampStep EffectMode.glassmorphism "bgAlpha" s.bgAlpha).2.1 ++
      (clampStep EffectMode.glassmorphism "borderAlpha" s.borderAlpha).2.1 ++
      (clampStep EffectMode.glassmorphism "borderWidth" s.borderWidth).2.1 ++
      (clampStep EffectMode.glassmorphism "shadowX" s.shadowX).2.1 ++
      (clampStep EffectMode.glassmorphism "shadowY" s.shadowY).2.1 ++
      (clampStep EffectMode.glassmorphism "shadowBlur" s.shadowBlur).2.1 ++
      (clampStep EffectMode.glassmorphism "shadowAlpha" s.shadowAlpha).2.1 ++
      (clampStep EffectMode.glassmorphism "saturation" s.saturation).2.1 := rfl

/-- Diagnostic segments of `clampGM` in iteration order. -/
lemma clampGM_ds (s : GlassmorphismSettings) :
    (clampGM s).2.2 =
      (clampStep EffectMode.glassmorphism "blur" s.blur).2.2 ++
      (clampStep EffectMode.glassmorphism "opacity" s.opacity).2.2 ++
      (clampStep EffectMode.glassmorphism "borderRadius" s.borderRadius).2.2 ++
      (clampStep EffectMode.glassmorphism "bgAlpha" s.bgAlpha).2.2 ++
      (clampStep EffectMode.glassmorphism "borderAlpha" s.borderAlpha).2.2 ++
      (clampStep EffectMode.glassmorphism "borderWidth" s.borderWidth).2.2 ++
      (clampStep EffectMode.glassmorphism "shadowX" s.shadowX).2.2 ++
      (clampStep EffectMode.glassmorphism "shadowY" s.shadowY).2.2 ++
      (clampStep EffectMode.glassmorphism "shadowBlur" s.shadowBlur).2.2 ++
      (clampStep EffectMode.glassmorphism "shadowAlpha" s.shadowAlpha).2.2 ++
      (clampStep EffectMode.glassmorphism "saturation" s.saturation).2.2 := rfl

/-- A fully in-range record passes `clampGM` untouched. -/
lemma clampGM_noop (s : GlassmorphismSettings) (h : InRangeB EffectMode.glassmorphism s = true) :
    clampGM s = (s, [], []) := by
  simp only [InRangeB, modeNumFields, gmNumFields, List.all_cons, List.all_nil,
    Bool.and_eq_true, and_true] at h
  obtain ⟨h1, h2, h3, h4, h5, h6, h7, h8, h9, h10, h11⟩ := h
  rw [fieldInRange_iff (m := EffectMode.glassmorphism) (k := "blur") rfl] at h1
  rw [fieldInRange_iff (m := EffectMode.glassmorphism) (k := "opacity") rfl] at h2
  rw [fieldInRange_iff (m := EffectMode.glassmorphism) (k := "borderRadius") rfl] at h3
  rw [fieldInRange_iff (m := EffectMode.glassmorphism) (k := "bgAlpha") rfl] at h4
  rw [fieldInRange_iff (m := EffectMode.glassmorphism) (k := "borderAlpha") rfl] at h5
  rw [fieldInRange_iff (m := EffectMode.glassmorphism) (k := "borderWidth") rfl] at h6
  rw [fieldInRange_iff (m := EffectMode.glassmorphism) (k := "shadowX") rfl] at h7
  rw [fieldInRange_iff (m := EffectMode.glassmorphism) (k := "shadowY") rfl] at h8
  rw [fieldInRange_iff (m := EffectMode.glassmorphism) (k := "shadowBlur") rfl] at h9
  rw [fieldInRange_iff (m := EffectMode.glassmorphism) (k := "shadowAlpha") rfl] at h10
  rw [fieldInRange_iff (m := EffectMode.glassmorphism) (k := "saturation") rfl] at h11
  simp only [clampGM]
  rw [clampStep_id (m := EffectMode.glassmorphism) (k := "blur") h1.1 h1.2 rfl,
    clampStep_id (m := EffectMode.glassmorphism) (k := "opacity") h2.1 h2.2 rfl,
    clampStep_id (m := EffectMode.glassmorphism) (k := "borderRadius") h3.1 h3.2 rfl,
    clampStep_id (m := EffectMode.glassmorphism) (k := "bgAlpha") h4.1 h4.2 rfl,
    clampStep_id (m := EffectMode.glassmorphism) (k := "borderAlpha") h5.1 h5.2 rfl,
    clampStep_id (m := EffectMode.glassmorphism) (k := "borderWidth") h6.1 h6.2 rfl,
    clampStep_id (m := EffectMode.glassmorphism) (k := "shadowX") h7.1 h7.2 rfl,
    clampStep_id (m := EffectMode.glassmorphism) (k := "shadowY") h8.1 h8.2 rfl,
    clampStep_id (m := EffectMode.glassmorphism) (k := "shadowBlur") h9.1 h9.2 rfl,
    clampStep_id (m := EffectMode.glassmorphism) (k := "shadowAlpha") h10.1 h10.2 rfl,
    clampStep_id (m := EffectMode.glassmorphism) (k := "saturation") h11.1 h11.2 rfl]
  rfl

/-- Every numeric field is in range after `clampGM`. -/
lemma clampGM_inRange (s : GlassmorphismSettings) :
    InRangeB EffectMode.glassmorphism (clampGM s).1 = true := by
  simp only [InRangeB, modeNumFields, gmNumFields, List.all_cons, List.all_nil,
    Bool.and_eq_true, and_true]
  refine ⟨?_, ?_, ?_, ?_, ?_, ?_, ?_, ?_, ?_, ?_, ?_⟩ <;>
    exact fieldInRange_clampStep rfl (by norm_num)

/-- clampedFields segments of `clampNM` in iteration order. -/
lemma clampNM_cf (s : NeumorphismSettings) :
    (clampNM s).2.1 =
      (clampStep EffectMode.neumorphism "borderRadius" s.borderRadius).2.1 ++
      (clampStep EffectMode.neumorphism "distance" s.distance).2.1 ++
      (clampStep EffectMode.neumorphism "intensity" s.intensity).2.1 ++
      (clampStep EffectMode.neumorphism "blur" s.blur).2.1 := rfl

/-- Diagnostic segments of `clampNM` in iteration order. -/
lemma clampNM_ds (s : NeumorphismSettings) :
    (clampNM s).2.2 =
      (clampStep EffectMode.neumorphism "borderRadius" s.borderRadius).2.2 ++
      (clampStep EffectMode.neumorphism "distance" s.distance).2.2 ++
      (clampStep EffectMode.neumorphism "intensity" s.intensity).2.2 ++
      (clampStep EffectMode.neumorphism "blur" s.blur).2.2 := rfl

/-- A fully in-range record passes `clampNM` untouched. -/
lemma clampNM_noop (s : NeumorphismSettings) (h : InRangeB EffectMode.neumorphism s = true) :
    clampNM s = (s, [], []) := by
  simp only [InRangeB, modeNumFields, nmNumFields, List.all_cons, List.all_nil,
    Bool.and_eq_true, and_true] at h
  obtain ⟨h1, h2, h3, h4⟩ := h
  rw [fieldInRange_iff (m := EffectMode.neumorphism) (k := "borderRadius") rfl] at h1
  rw [fieldInRange_iff (m := EffectMode.neumorphism) (k := "distance") rfl] at h2
  rw [fieldInRange_iff (m := EffectMode.neumorphism) (k := "intensity") rfl] at h3
  rw [fieldInRange_iff (m := EffectMode.neumorphism) (k := "blur") rfl] at h4
  simp only [clampNM]
  rw [clampStep_id (m := EffectMode.neumorphism) (k := "borderRadius") h1.1 h1.2 rfl,
    clampStep_id (m := EffectMode.neumorphism) (k := "distance") h2.1 h2.2 rfl,
    clampStep_id (m := EffectMode.neumorphism) (k := "intensity") h3.1 h3.2 rfl,
    clampStep_id (m := EffectMode.neumorphism) (k := "blur") h4.1 h4.2 rfl]
  rfl

/-- Every numeric field is in range after `clampNM`. -/
lemma clampNM_inRange (s : NeumorphismSettings) :
    InRangeB EffectMode.neumorphism (clampNM s).1 = true := by
  simp only [InRangeB, modeNumFields, nmNumFields, List.all_cons, List.all_nil,
    Bool.and_eq_true, and_true]
  refine ⟨?_, ?_, ?_, ?_⟩ <;>
    exact fieldInRange_clampStep rfl (by norm_num)

/-- clampedFields segments of `clampGL` in iteration order. -/
lemma clampGL_cf (s : GlowSettings) :
    (clampGL s).2.1 =
      (clampStep EffectMode.glow "borderRadius" s.borderRadius).2.1 ++
      (clampStep EffectMode.glow "bgAlpha" s.bgAlpha).2.1 ++
      (clampStep EffectMode.glow "glowIntensity" s.glowIntensity).2.1 ++
      (clampStep EffectMode.glow "glowSpread" s.glowSpread).2.1 ++
      (clampStep EffectMode.glow "glowBlur" s.glowBlur).2.1 ++
      (clampStep EffectMode.glow "innerGlow" s.innerGlow).2.1 ++
      (clampStep EffectMode.glow "borderAlpha" s.borderAlpha).2.1 ++
      (clampStep EffectMode.glow "borderWidth" s.borderWidth).2.1 ++
      (clampStep EffectMode.glow "blur" s.blur).2.1 ++
      (clampStep EffectMode.glow "saturation" s.saturation).2.1 ++
      (clampStep EffectMode.glow "brightness" s.brightness).2.1 := rfl

/-- Diagnostic segments of `clampGL` in iteration order. -/
lemma clampGL_ds (s : GlowSettings) :
    (clampGL s).2.2 =
      (clampStep EffectMode.glow "borderRadius" s.borderRadius).2.2 ++
      (clampStep EffectMode.glow "bgAlpha" s.bgAlpha).2.2 ++
      (clampStep EffectMode.glow "glowIntensity" s.glowIntensity).2.2 ++
      (clampStep EffectMode.glow "glowSpread" s.glowSpread).2.2 ++
      (clampStep EffectMode.glow "glowBlur" s.glowBlur).2.2 ++
      (clampStep EffectMode.glow "innerGlow" s.innerGlow).2.2 ++
      (clampStep EffectMode.glow "borderAlpha" s.borderAlpha).2.2 ++
      (clampStep EffectMode.glow "borderWidth" s.borderWidth).2.2 ++
      (clampStep EffectMode.glow "blur" s.blur).2.2 ++
      (clampStep EffectMode.glow "saturation" s.saturation).2.2 ++
      (clampStep EffectMode.glow "brightness" s.brightness).2.2 := rfl

/-- A fully in-range record passes `clampGL` untouched. -/
lemma clampGL_noop (s : GlowSettings) (h : InRangeB EffectMode.glow s = true) :
    clampGL s = (s, [], []) := by
  simp only [InRangeB, modeNumFields, glNumFields, List.all_cons, List.all_nil,
    Bool.and_eq_true, and_true] at h
  obtain ⟨h1, h2, h3, h4, h5, h6, h7, h8, h9, h10, h11⟩ := h
  rw [fieldInRange_iff (m := EffectMode.glow) (k := "borderRadius") rfl] at h1
  rw [fieldInRange_iff (m := EffectMode.glow) (k := "bgAlpha") rfl] at h2
  rw [fieldInRange_iff (m := EffectMode.glow) (k := "glowIntensity") rfl] at h3
  rw [fieldInRange_iff (m := EffectMode.glow) (k := "glowSpread") rfl] at h4
  rw [fieldInRange_iff (m := EffectMode.glow) (k := "glowBlur") rfl] at h5
  rw [fieldInRange_iff (m := EffectMode.glow) (k := "innerGlow") rfl] at h6
  rw [fieldInRange_iff (m := EffectMode.glow) (k := "borderAlpha") rfl] at h7
  rw [fieldInRange_iff (m := EffectMode.glow) (k := "borderWidth") rfl] at h8
  rw [fieldInRange_iff (m := EffectMode.glow) (k := "blur") rfl] at h9
  rw [fieldInRange_iff (m := EffectMode.glow) (k := "saturation") rfl] at h10
  rw [fieldInRange_iff (m := EffectMode.glow) (k := "brightness") rfl] at h11
  simp only [clampGL]
  rw [clampStep_id (m := EffectMode.glow) (k := "borderRadius") h1.1 h1.2 rfl,
    clampStep_id (m := EffectMode.glow) (k := "bgAlpha") h2.1 h2.2 rfl,
    clampStep_id (m := EffectMode.glow) (k := "glowIntensity") h3.1 h3.2 rfl,
    clampStep_id (m := EffectMode.glow) (k := "glowSpread") h4.1 h4.2 rfl,
    clampStep_id (m := EffectMode.glow) (k := "glowBlur") h5.1 h5.2 rfl,
    clampStep_id (m := EffectMode.glow) (k := "innerGlow") h6.1 h6.2 rfl,
    clampStep_id (m := EffectMode.glow) (k := "borderAlpha") h7.1 h7.2 rfl,
    clampStep_id (m := EffectMode.glow) (k := "borderWidth") h8.1 h8.2 rfl,
    clampStep_id (m := EffectMode.glow) (k := "blur") h9.1 h9.2 rfl,
    clampStep_id (m := EffectMode.glow) (k := "saturation") h10.1 h10.2 rfl,
    clampStep_id (m := EffectMode.glow) (k := "brightness") h11.1 h11.2 rfl]
  rfl

/-- Every numeric field is in range after `clampGL`. -/
lemma clampGL_inRange (s : GlowSettings) :
    InRangeB EffectMode.glow (clampGL s).1 = true := by
  simp only [InRangeB, modeNumFields, glNumFields, List.all_cons, List.all_nil,
    Bool.and_eq_true, and_true]
  refine ⟨?_, ?_, ?_, ?_, ?_, ?_, ?_, ?_, ?_, ?_, ?_⟩ <;>
    exact fieldInRange_clampStep rfl (by norm_num)

-- ══════════════════════════════════════════════════════════════════
-- Clamp claims (C2, C5)
-- ══════════════════════════════════════════════════════════════════

/-- Every numeric field is in range after `clampWithTracking`. -/
lemma clamp_out_inRange (m : EffectMode) (s : ModeSettings m) :
    InRangeB m (clampWithTracking m s [] []).1 = true := by
  cases m with
  | liquidGlass => exact clampLG_inRange s
  | glassmorphism => exact clampGM_inRange s
  | neumorphism => exact clampNM_inRange s
  | glow => exact clampGL_inRange s

/-- `clampWithTracking` is the identity (and pushes nothing) on an in-range
record. -/
lemma clamp_noop (m : EffectMode) (s : ModeSettings m) (h : InRangeB m s = true) :
    clampWithTracking m s [] [] = (s, [], []) := by
  cases m with
  | liquidGlass => simp [clampWithTracking, clampLG_noop s h]
  | glassmorphism => simp [clampWithTracking, clampGM_noop s h]
  | neumorphism => simp [clampWithTracking, clampNM_noop s h]
  | glow => simp [clampWithTracking, clampGL_noop s h]

/-- Unfolding of `clampWithTracking` at `liquidGlass`. -/
lemma cwt_lg (s : LiquidGlassSettings) (ds : List Diagnostic) (cf : List String) :
    clampWithTracking EffectMode.liquidGlass s ds cf =
      ((clampLG s).1, cf ++ (clampLG s).2.1, ds ++ (clampLG s).2.2) := rfl

/-- Unfolding of `clampWithTracking` at `glassmorphism`. -/
lemma cwt_gm (s : GlassmorphismSettings) (ds : List Diagnostic) (cf : List String) :
    clampWithTracking EffectMode.glassmorphism s ds cf =
      ((clampGM s).1, cf ++ (clampGM s).2.1, ds ++ (clampGM s).2.2) := rfl

/-- Unfolding of `clampWithTracking` at `neumorphism`. -/
lemma cwt_nm (s : NeumorphismSettings) (ds : List Diagnostic) (cf : List String) :
    clampWithTracking EffectMode.neumorphism s ds cf =
      ((clampNM s).1, cf ++ (clampNM s).2.1, ds ++ (clampNM s).2.2) := rfl

/-- Unfolding of `clampWithTracking` at `glow`. -/
lemma cwt_gl (s : GlowSettings) (ds : List Diagnostic) (cf : List String) :
    clampWithTracking EffectMode.glow s ds cf =
      ((clampGL s).1, cf ++ (clampGL s).2.1, ds ++ (clampGL s).2.2) := rfl

set_option maxHeartbeats 1000000 in
/-- C2: after `clampWithTracking` every numeric field with a registered range
lies within it; every changed field is appended to clampedFields together with
an info diagnostic naming the old value, new value and valid range; numeric
fields without a registered range and non-numeric fields are returned
unchanged. -/
theorem C2_clamp_ranges_and_tracking (m : EffectMode) (s : ModeSettings m) :
    InRangeB m (clampWithTracking m s [] []).1 = true ∧
    (∀ p ∈ modeNumFields m,
      ¬ p.2 (clampWithTracking m s [] []).1 = p.2 s →
        ∃ lo hi, lookupRange m p.1 = some (lo, hi) ∧
          p.1 ∈ (clampWithTracking m s [] []).2.1 ∧
          clampDiag p.1 (p.2 s) (p.2 (clampWithTracking m s [] []).1) lo hi ∈
            (clampWithTracking m s [] []).2.2) ∧
    (∀ p ∈ modeNumFields m, lookupRange m p.1 = none →
      p.2 (clampWithTracking m s [] []).1 = p.2 s) ∧
    NonNumericUntouched m s (clampWithTracking m s [] []).1 := by
  cases m with
  | liquidGlass =>
    refine ⟨clamp_out_inRange _ s, ?_, ?_, ⟨rfl, rfl, rfl⟩⟩
    · simp only [cwt_lg, List.nil_append]
      intro p hp hne
      simp only [modeNumFields, lgNumFields, List.mem_cons, List.not_mem_nil, or_false] at hp
      rcases hp with rfl | rfl | rfl | rfl | rfl | rfl | rfl | rfl | rfl | rfl | rfl | rfl | rfl | rfl
      · obtain ⟨lo, hi, hl, hcf, hds⟩ :=
          clampStep_changed (m := EffectMode.liquidGlass) (k := "blur") (v := s.blur) hne
        refine ⟨lo, hi, hl, ?_, ?_⟩
        · rw [clampLG_cf, hcf]
          simp
        · show clampDiag "blur" s.blur ((clampStep EffectMode.liquidGlass "blur" s.blur).1) lo hi ∈
            (clampLG s).2.2
          rw [clampLG_ds, hds]
          simp
      · obtain ⟨lo, hi, hl, hcf, hds⟩ :=
          clampStep_changed (m := EffectMode.liquidGlass) (k := "opacity") (v := s.opacity) hne
        refine ⟨lo, hi, hl, ?_, ?_⟩
        · rw [clampLG_cf, hcf]
          simp
        · show clampDiag "opacity" s.opacity ((clampStep EffectMode.liquidGlass "opacity" s.opacity).1) lo hi ∈
            (clampLG s).2.2
          rw [clampLG_ds, hds]
          simp
      · obtain ⟨lo, hi, hl, hcf, hds⟩ :=
          clampStep_changed (m := EffectMode.liquidGlass) (k := "borderRadius") (v := s.borderRadius) hne
        refine ⟨lo, hi, hl, ?_, ?_⟩
        · rw [clampLG_cf, hcf]
          simp
        · show clampDiag "borderRadius" s.borderRadius ((clampStep EffectMode.liquidGlass "borderRadius" s.borderRadius).1) lo hi ∈
            (clampLG s).2.2
          rw [clampLG_ds, hds]
          simp
      · obtain ⟨lo, hi, hl, hcf, hds⟩ :=
          clampStep_changed (m := EffectMode.liquidGlass) (k := "bgAlpha") (v := s.bgAlpha) hne
        refine ⟨lo, hi, hl, ?_, ?_⟩
        · rw [clampLG_cf, hcf]
          simp
        · show clampDiag "bgAlpha" s.bgAlpha ((clampStep EffectMode.liquidGlass "bgAlpha" s.bgAlpha).1) lo hi ∈
            (clampLG s).2.2
          rw [clampLG_ds, hds]
          simp
      · obtain ⟨lo, hi, hl, hcf, hds⟩ :=
          clampStep_changed (m := EffectMode.liquidGlass) (k := "borderAlpha") (v := s.borderAlpha) hne
        refine ⟨lo, hi, hl, ?_, ?_⟩
        · rw [clampLG_cf, hcf]
          simp
        · show clampDiag "borderAlpha" s.borderAlpha ((clampStep EffectMode.liquidGlass "borderAlpha" s.borderAlpha).1) lo hi ∈
            (clampLG s).2.2
          rw [clampLG_ds, hds]
          simp
      · obtain ⟨lo, hi, hl, hcf, hds⟩ :=
          clampStep_changed (m := EffectMode.liquidGlass) (k := "borderWidth") (v := s.borderWidth) hne
        refine ⟨lo, hi, hl, ?_, ?_⟩
        · rw [clampLG_cf, hcf]
          simp
        · show clampDiag "borderWidth" s.borderWidth ((clampStep EffectMode.liquidGlass "borderWidth" s.borderWidth).1) lo hi ∈
            (clampLG s).2.2
          rw [clampLG_ds, hds]
          simp
      · obtain ⟨lo, hi, hl, hcf, hds⟩ :=
          clampStep_changed (m := EffectMode.liquidGlass) (k := "refractionIntensity") (v := s.refractionIntensity) hne
        refine ⟨lo, hi, hl, ?_, ?_⟩
        · rw [clampLG_cf, hcf]
          simp
        · show clampDiag "refractionIntensity" s.refractionIntensity ((clampStep EffectMode.liquidGlass "refractionIntensity" s.refractionIntensity).1) lo hi ∈
            (clampLG s).2.2
          rw [clampLG_ds, hds]
          simp
      · obtain ⟨lo, hi, hl, hcf, hds⟩ :=
          clampStep_changed (m := EffectMode.liquidGlass) (k := "shadowX") (v := s.shadowX) hne
        refine ⟨lo, hi, hl, ?_, ?_⟩
        · rw [clampLG_cf, hcf]
          simp
        · show clampDiag "shadowX" s.shadowX ((clampStep EffectMode.liquidGlass "shadowX" s.shadowX).1) lo hi ∈
            (clampLG s).2.2
          rw [clampLG_ds, hds]
          simp
      · obtain ⟨lo, hi, hl, hcf, hds⟩ :=
          clampStep_changed (m := EffectMode.liquidGlass) (k := "shadowY") (v := s.shadowY) hne
        refine ⟨lo, hi, hl, ?_, ?_⟩
        · rw [clampLG_cf, hcf]
          simp
        · show clampDiag "shadowY" s.shadowY ((clampStep EffectMode.liquidGlass "shadowY" s.shadowY).1) lo hi ∈
            (clampLG s).2.2
          rw [clampLG_ds, hds]
          simp
      · obtain ⟨lo, hi, hl, hcf, hds⟩ :=
          clampStep_changed (m := EffectMode.liquidGlass) (k := "shadowBlur") (v := s.shadowBlur) hne
        refine ⟨lo, hi, hl, ?_, ?_⟩
        · rw [clampLG_cf, hcf]
          simp
        · show clampDiag "shadowBlur" s.shadowBlur ((clampStep EffectMode.liquidGlass "shadowBlur" s.shadowBlur).1) lo hi ∈
            (clampLG s).2.2
          rw [clampLG_ds, hds]
          simp
      · obtain ⟨lo, hi, hl, hcf, hds⟩ :=
          clampStep_changed (m := EffectMode.liquidGlass) (k := "shadowSpread") (v := s.shadowSpread) hne
        refine ⟨lo, hi, hl, ?_, ?_⟩
        · rw [clampLG_cf, hcf]
          simp
        · show clampDiag "shadowSpread" s.shadowSpread ((clampStep EffectMode.liquidGlass "shadowSpread" s.shadowSpread).1) lo hi ∈
            (clampLG s).2.2
          rw [clampLG_ds, hds]
          simp
      · obtain ⟨lo, hi, hl, hcf, hds⟩ :=
          clampStep_changed (m := EffectMode.liquidGlass) (k := "shadowAlpha") (v := s.shadowAlpha) hne
        refine ⟨lo, hi, hl, ?_, ?_⟩
        · rw [clampLG_cf, hcf]
          simp
        · show clampDiag "shadowAlpha" s.shadowAlpha ((clampStep EffectMode.liquidGlass "shadowAlpha" s.shadowAlpha).1) lo hi ∈
            (clampLG s).2.2
          rw [clampLG_ds, hds]
          simp
      · obtain ⟨lo, hi, hl, hcf, hds⟩ :=
          clampStep_changed (m := EffectMode.liquidGlass) (k := "saturation") (v := s.saturation) hne
        refine ⟨lo, hi, hl, ?_, ?_⟩
        · rw [clampLG_cf, hcf]
          simp
        · show clampDiag "saturation" s.saturation ((clampStep EffectMode.liquidGlass "saturation" s.saturation).1) lo hi ∈
            (clampLG s).2.2
          rw [clampLG_ds, hds]
          simp
      · obtain ⟨lo, hi, hl, hcf, hds⟩ :=
          clampStep_changed (m := EffectMode.liquidGlass) (k := "brightness") (v := s.brightness) hne
        refine ⟨lo, hi, hl, ?_, ?_⟩
        · rw [clampLG_cf, hcf]
          simp
        · show clampDiag "brightness" s.brightness ((clampStep EffectMode.liquidGlass "brightness" s.brightness).1) lo hi ∈
            (clampLG s).2.2
          rw [clampLG_ds, hds]
          simp
    · intro p hp hnone
      simp only [modeNumFields, lgNumFields, List.mem_cons, List.not_mem_nil, or_false] at hp
      rcases hp with rfl | rfl | rfl | rfl | rfl | rfl | rfl | rfl | rfl | rfl | rfl | rfl | rfl | rfl <;> exact absurd hnone (by decide)
  | glassmorphism =>
    refine ⟨clamp_out_inRange _ s, ?_, ?_, ⟨rfl, rfl, rfl⟩⟩
    · simp only [cwt_gm, List.nil_append]
      intro p hp hne
      simp only [modeNumFields, gmNumFields, List.mem_cons, List.not_mem_nil, or_false] at hp
      rcases hp with rfl | rfl | rfl | rfl | rfl | rfl | rfl | rfl | rfl | rfl | rfl
      · obtain ⟨lo, hi, hl, hcf, hds⟩ :=
          clampStep_changed (m := EffectMode.glassmorphism) (k := "blur") (v := s.blur) hne
        refine ⟨lo, hi, hl, ?_, ?_⟩
        · rw [clampGM_cf, hcf]
          simp
        · show clampDiag "blur" s.blur ((clampStep EffectMode.glassmorphism "blur" s.blur).1) lo hi ∈
            (clampGM s).2.2
          rw [clampGM_ds, hds]
          simp
      · obtain ⟨lo, hi, hl, hcf, hds⟩ :=
          clampStep_changed (m := EffectMode.glassmorphism) (k := "opacity") (v := s.opacity) hne
        refine ⟨lo, hi, hl, ?_, ?_⟩
        · rw [clampGM_cf, hcf]
          simp
        · show clampDiag "opacity" s.opacity ((clampStep EffectMode.glassmorphism "opacity" s.opacity).1) lo hi ∈
            (clampGM s).2.2
          rw [clampGM_ds, hds]
          simp
      · obtain ⟨lo, hi, hl, hcf, hds⟩ :=
          clampStep_changed (m := EffectMode.glassmorphism) (k := "borderRadius") (v := s.borderRadius) hne
        refine ⟨lo, hi, hl, ?_, ?_⟩
        · rw [clampGM_cf, hcf]
          simp
        · show clampDiag "borderRadius" s.borderRadius ((clampStep EffectMode.glassmorphism "borderRadius" s.borderRadius).1) lo hi ∈
            (clampGM s).2.2
          rw [clampGM_ds, hds]
          simp
      · obtain ⟨lo, hi, hl, hcf, hds⟩ :=
          clampStep_changed (m := EffectMode.glassmorphism) (k := "bgAlpha") (v := s.bgAlpha) hne
        refine ⟨lo, hi, hl, ?_, ?_⟩
        · rw [clampGM_cf, hcf]
          simp
        · show clampDiag "bgAlpha" s.bgAlpha ((clampStep EffectMode.glassmorphism "bgAlpha" s.bgAlpha).1) lo hi ∈
            (clampGM s).2.2
          rw [clampGM_ds, hds]
          simp
      · obtain ⟨lo, hi, hl, hcf, hds⟩ :=
          clampStep_changed (m := EffectMode.glassmorphism) (k := "borderAlpha") (v := s.borderAlpha) hne
        refine ⟨lo, hi, hl, ?_, ?_⟩
        · rw [clampGM_cf, hcf]
          simp
        · show clampDiag "borderAlpha" s.borderAlpha ((clampStep EffectMode.glassmorphism "borderAlpha" s.borderAlpha).1) lo hi ∈
            (clampGM s).2.2
          rw [clampGM_ds, hds]
          simp
      · obtain ⟨lo, hi, hl, hcf, hds⟩ :=
          clampStep_changed (m := EffectMode.glassmorphism) (k := "borderWidth") (v := s.borderWidth) hne
        refine ⟨lo, hi, hl, ?_, ?_⟩
        · rw [clampGM_cf, hcf]
          simp
        · show clampDiag "borderWidth" s.borderWidth ((clampStep EffectMode.glassmorphism "borderWidth" s.borderWidth).1) lo hi ∈
            (clampGM s).2.2
          rw [clampGM_ds, hds]
          simp
      · obtain ⟨lo, hi, hl, hcf, hds⟩ :=
          clampStep_changed (m := EffectMode.glassmorphism) (k := "shadowX") (v := s.shadowX) hne
        refine ⟨lo, hi, hl, ?_, ?_⟩
        · rw [clampGM_cf, hcf]
          simp
        · show clampDiag "shadowX" s.shadowX ((clampStep EffectMode.glassmorphism "shadowX" s.shadowX).1) lo hi ∈
            (clampGM s).2.2
          rw [clampGM_ds, hds]
          simp
      · obtain ⟨lo, hi, hl, hcf, hds⟩ :=
          clampStep_changed (m := EffectMode.glassmorphism) (k := "shadowY") (v := s.shadowY) hne
        refine ⟨lo, hi, hl, ?_, ?_⟩
        · rw [clampGM_cf, hcf]
          simp
        · show clampDiag "shadowY" s.shadowY ((clampStep EffectMode.glassmorphism "shadowY" s.shadowY).1) lo hi ∈
            (clampGM s).2.2
          rw [clampGM_ds, hds]
          simp
      · obtain ⟨lo, hi, hl, hcf, hds⟩ :=
          clampStep_changed (m := EffectMode.glassmorphism) (k := "shadowBlur") (v := s.shadowBlur) hne
        refine ⟨lo, hi, hl, ?_, ?_⟩
        · rw [clampGM_cf, hcf]
          simp
        · show clampDiag "shadowBlur" s.shadowBlur ((clampStep EffectMode.glassmorphism "shadowBlur" s.shadowBlur).1) lo hi ∈
            (clampGM s).2.2
          rw [clampGM_ds, hds]
          simp
      · obtain ⟨lo, hi, hl, hcf, hds⟩ :=
          clampStep_changed (m := EffectMode.glassmorphism) (k := "shadowAlpha") (v := s.shadowAlpha) hne
        refine ⟨lo, hi, hl, ?_, ?_⟩
        · rw [clampGM_cf, hcf]
          simp
        · show clampDiag "shadowAlpha" s.shadowAlpha ((clampStep EffectMode.glassmorphism "shadowAlpha" s.shadowAlpha).1) lo hi ∈
            (clampGM s).2.2
          rw [clampGM_ds, hds]
          simp
      · obtain ⟨lo, hi, hl, hcf, hds⟩ :=
          clampStep_changed (m := EffectMode.glassmorphism) (k := "saturation") (v := s.saturation) hne
        refine ⟨lo, hi, hl, ?_, ?_⟩
        · rw [clampGM_cf, hcf]
          simp
        · show clampDiag "saturation" s.saturation ((clampStep EffectMode.glassmorphism "saturation" s.saturation).1) lo hi ∈
            (clampGM s).2.2
          rw [clampGM_ds, hds]
          simp
    · intro p hp hnone
      simp only [modeNumFields, gmNumFields, List.mem_cons, List.not_mem_nil, or_false] at hp
      rcases hp with rfl | rfl | rfl | rfl | rfl | rfl | rfl | rfl | rfl | rfl | rfl <;> exact absurd hnone (by decide)
  | neumorphism =>
    refine ⟨clamp_out_inRange _ s, ?_, ?_, ⟨rfl, rfl, rfl, rfl⟩⟩
    · simp only [cwt_nm, List.nil_append]
      intro p hp hne
      simp only [modeNumFields, nmNumFields, List.mem_cons, List.not_mem_nil, or_false] at hp
      rcases hp with rfl | rfl | rfl | rfl
      · obtain ⟨lo, hi, hl, hcf, hds⟩ :=
          clampStep_changed (m := EffectMode.neumorphism) (k := "borderRadius") (v := s.borderRadius) hne
        refine ⟨lo, hi, hl, ?_, ?_⟩
        · rw [clampNM_cf, hcf]
          simp
        · show clampDiag "borderRadius" s.borderRadius ((clampStep EffectMode.neumorphism "borderRadius" s.borderRadius).1) lo hi ∈
            (clampNM s).2.2
          rw [clampNM_ds, hds]
          simp
      · obtain ⟨lo, hi, hl, hcf, hds⟩ :=
          clampStep_changed (m := EffectMode.neumorphism) (k := "distance") (v := s.distance) hne
        refine ⟨lo, hi, hl, ?_, ?_⟩
        · rw [clampNM_cf, hcf]
          simp
        · show clampDiag "distance" s.distance ((clampStep EffectMode.neumorphism "distance" s.distance).1) lo hi ∈
            (clampNM s).2.2
          rw [clampNM_ds, hds]
          simp
      · obtain ⟨lo, hi, hl, hcf, hds⟩ :=
          clampStep_changed (m := EffectMode.neumorphism) (k := "intensity") (v := s.intensity) hne
        refine ⟨lo, hi, hl, ?_, ?_⟩
        · rw [clampNM_cf, hcf]
          simp
        · show clampDiag "intensity" s.intensity ((clampStep EffectMode.neumorphism "intensity" s.intensity).1) lo hi ∈
            (clampNM s).2.2
          rw [clampNM_ds, hds]
          simp
      · obtain ⟨lo, hi, hl, hcf, hds⟩ :=
          clampStep_changed (m := EffectMode.neumorphism) (k := "blur") (v := s.blur) hne
        refine ⟨lo, hi, hl, ?_, ?_⟩
        · rw [clampNM_cf, hcf]
          simp
        · show clampDiag "blur" s.blur ((clampStep EffectMode.neumorphism "blur" s.blur).1) lo hi ∈
            (clampNM s).2.2
          rw [clampNM_ds, hds]
          simp
    · intro p hp hnone
      simp only [modeNumFields, nmNumFields, List.mem_cons, List.not_mem_nil, or_false] at hp
      rcases hp with rfl | rfl | rfl | rfl <;> exact absurd hnone (by decide)
  | glow =>
    refine ⟨clamp_out_inRange _ s, ?_, ?_, ⟨rfl, rfl, rfl⟩⟩
    · simp only [cwt_gl, List.nil_append]
      intro p hp hne
      simp only [modeNumFields, glNumFields, List.mem_cons, List.not_mem_nil, or_false] at hp
      rcases hp with rfl | rfl | rfl | rfl | rfl | rfl | rfl | rfl | rfl | rfl | rfl
      · obtain ⟨lo, hi, hl, hcf, hds⟩ :=
          clampStep_changed (m := EffectMode.glow) (k := "borderRadius") (v := s.borderRadius) hne
        refine ⟨lo, hi, hl, ?_, ?_⟩
        · rw [clampGL_cf, hcf]
          simp
        · show clampDiag "borderRadius" s.borderRadius ((clampStep EffectMode.glow "borderRadius" s.borderRadius).1) lo hi ∈
            (clampGL s).2.2
          rw [clampGL_ds, hds]
          simp
      · obtain ⟨lo, hi, hl, hcf, hds⟩ :=
          clampStep_changed (m := EffectMode.glow) (k := "bgAlpha") (v := s.bgAlpha) hne
        refine ⟨lo, hi, hl, ?_, ?_⟩
        · rw [clampGL_cf, hcf]
          simp
        · show clampDiag "bgAlpha" s.bgAlpha ((clampStep EffectMode.glow "bgAlpha" s.bgAlpha).1) lo hi ∈
            (clampGL s).2.2
          rw [clampGL_ds, hds]
          simp
      · obtain ⟨lo, hi, hl, hcf, hds⟩ :=
          clampStep_changed (m := EffectMode.glow) (k := "glowIntensity") (v := s.glowIntensity) hne
        refine ⟨lo, hi, hl, ?_, ?_⟩
        · rw [clampGL_cf, hcf]
          simp
        · show clampDiag "glowIntensity" s.glowIntensity ((clampStep EffectMode.glow "glowIntensity" s.glowIntensity).1) lo hi ∈
            (clampGL s).2.2
          rw [clampGL_ds, hds]
          simp
      · obtain ⟨lo, hi, hl, hcf, hds⟩ :=
          clampStep_changed (m := EffectMode.glow) (k := "glowSpread") (v := s.glowSpread) hne
        refine ⟨lo, hi, hl, ?_, ?_⟩
        · rw [clampGL_cf, hcf]
          simp
        · show clampDiag "glowSpread" s.glowSpread ((clampStep EffectMode.glow "glowSpread" s.glowSpread).1) lo hi ∈
            (clampGL s).2.2
          rw [clampGL_ds, hds]
          simp
      · obtain ⟨lo, hi, hl, hcf, hds⟩ :=
          clampStep_changed (m := EffectMode.glow) (k := "glowBlur") (v := s.glowBlur) hne
        refine ⟨lo, hi, hl, ?_, ?_⟩
        · rw [clampGL_cf, hcf]
          simp
        · show clampDiag "glowBlur" s.glowBlur ((clampStep EffectMode.glow "glowBlur" s.glowBlur).1) lo hi ∈
            (clampGL s).2.2
          rw [clampGL_ds, hds]
          simp
      · obtain ⟨lo, hi, hl, hcf, hds⟩ :=
          clampStep_changed (m := EffectMode.glow) (k := "innerGlow") (v := s.innerGlow) hne
        refine ⟨lo, hi, hl, ?_, ?_⟩
        · rw [clampGL_cf, hcf]
          simp
        · show clampDiag "innerGlow" s.innerGlow ((clampStep EffectMode.glow "innerGlow" s.innerGlow).1) lo hi ∈
            (clampGL s).2.2
          rw [clampGL_ds, hds]
          simp
      · obtain ⟨lo, hi, hl, hcf, hds⟩ :=
          clampStep_changed (m := EffectMode.glow) (k := "borderAlpha") (v := s.borderAlpha) hne
        refine ⟨lo, hi, hl, ?_, ?_⟩
        · rw [clampGL_cf, hcf]
          simp
        · show clampDiag "borderAlpha" s.borderAlpha ((clampStep EffectMode.glow "borderAlpha" s.borderAlpha).1) lo hi ∈
            (clampGL s).2.2
          rw [clampGL_ds, hds]
          simp
      · obtain ⟨lo, hi, hl, hcf, hds⟩ :=
          clampStep_changed (m := EffectMode.glow) (k := "borderWidth") (v := s.borderWidth) hne
        refine ⟨lo, hi, hl, ?_, ?_⟩
        · rw [clampGL_cf, hcf]
          simp
        · show clampDiag "borderWidth" s.borderWidth ((clampStep EffectMode.glow "borderWidth" s.borderWidth).1) lo hi ∈
            (clampGL s).2.2
          rw [clampGL_ds, hds]
          simp
      · obtain ⟨lo, hi, hl, hcf, hds⟩ :=
          clampStep_changed (m := EffectMode.glow) (k := "blur") (v := s.blur) hne
        refine ⟨lo, hi, hl, ?_, ?_⟩
        · rw [clampGL_cf, hcf]
          simp
        · show clampDiag "blur" s.blur ((clampStep EffectMode.glow "blur" s.blur).1) lo hi ∈
            (clampGL s).2.2
          rw [clampGL_ds, hds]
          simp
      · obtain ⟨lo, hi, hl, hcf, hds⟩ :=
          clampStep_changed (m := EffectMode.glow) (k := "saturation") (v := s.saturation) hne
        refine ⟨lo, hi, hl, ?_, ?_⟩
        · rw [clampGL_cf, hcf]
          simp
        · show clampDiag "saturation" s.saturation ((clampStep EffectMode.glow "saturation" s.saturation).1) lo hi ∈
            (clampGL s).2.2
          rw [clampGL_ds, hds]
          simp
      · obtain ⟨lo, hi, hl, hcf, hds⟩ :=
          clampStep_changed (m := EffectMode.glow) (k := "brightness") (v := s.brightness) hne
        refine ⟨lo, hi, hl, ?_, ?_⟩
        · rw [clampGL_cf, hcf]
          simp
        · show clampDiag "brightness" s.brightness ((clampStep EffectMode.glow "brightness" s.brightness).1) lo hi ∈
            (clampGL s).2.2
          rw [clampGL_ds, hds]
          simp
    · intro p hp hnone
      simp only [modeNumFields, glNumFields, List.mem_cons, List.not_mem_nil, or_false] at hp
      rcases hp with rfl | rfl | rfl | rfl | rfl | rfl | rfl | rfl | rfl | rfl | rfl <;> exact absurd hnone (by decide)

/-- An in-range glassmorphism baseline used by concrete instantiations. -/
def baseGM : GlassmorphismSettings :=
  { blur := 10, opacity := 100, borderRadius := 16, bgColor := "#ffffff", bgAlpha := 15,
    borderColor := "#ffffff", borderAlpha := 30, borderWidth := 1, shadowX := 0, shadowY := 4,
    shadowBlur := 30, shadowColor := "#000000", shadowAlpha := 10, saturation := 120 }

/-- An in-range liquid-glass baseline. -/
def baseLG : LiquidGlassSettings :=
  { blur := 10, opacity := 100, borderRadius := 16, bgColor := "#ffffff", bgAlpha := 12,
    borderColor := "#ffffff", borderAlpha := 30, borderWidth := 1, refractionIntensity := 50,
    shadowX := 0, shadowY := 4, shadowBlur := 30, shadowSpread := 0, shadowColor := "#000000",
    shadowAlpha := 10, saturation := 120, brightness := 100 }

/-- An in-range neumorphism baseline. -/
def baseNM : NeumorphismSettings :=
  { borderRadius := 10, bgColor := "#000000", distance := 5, intensity := 15, blur := 10,
    shape := .flat, lightColor := "#ffffff", darkColor := "#d9d9d9" }

/-- An in-range glow baseline. -/
def baseGL : GlowSettings :=
  { borderRadius := 20, bgColor := "#0a0a1a", bgAlpha := 80, glowColor := "#00ffcc",
    glowIntensity := 50, glowSpread := 10, glowBlur := 60, innerGlow := 20,
    borderColor := "#00ffcc", borderAlpha := 30, borderWidth := 1, blur := 10,
    saturation := 120, brightness := 100 }

/-- The glassmorphism record with an out-of-range blur (999). -/
def gm999 : GlassmorphismSettings := { baseGM with blur := 999 }

/-- C2 witness: on a glassmorphism record with blur 999, the clamp pass leaves
every ranged field in range and records the changed field. -/
theorem C2_clamp_witness :
    InRangeB .glassmorphism (clampWithTracking .glassmorphism gm999 [] []).1 = true ∧
    "blur" ∈ (clampWithTracking .glassmorphism gm999 [] []).2.1 := by
  have h := C2_clamp_ranges_and_tracking .glassmorphism gm999
  refine ⟨h.1, ?_⟩
  obtain ⟨lo, hi, _, hmem, _⟩ :=
    h.2.1 ("blur", GlassmorphismSettings.blur) (List.Mem.head _) (by decide)
  exact hmem

/-- C5: clamping an already in-range record changes nothing and appends
nothing; the clamp pass is idempotent. -/
theorem C5_clamp_noop_idempotent (m : EffectMode) (s : ModeSettings m) :
    (InRangeB m s = true → clampWithTracking m s [] [] = (s, [], [])) ∧
    clampWithTracking m (clampWithTracking m s [] []).1 [] [] =
      ((clampWithTracking m s [] []).1, [], []) :=
  ⟨clamp_noop m s, clamp_noop m _ (clamp_out_inRange m s)⟩

/-- C5 witness: the in-range glassmorphism baseline passes the clamp pass
untouched. -/
theorem C5_clamp_witness :
    InRangeB .glassmorphism baseGM = true ∧
    clampWithTracking .glassmorphism baseGM [] [] = (baseGM, [], []) :=
  ⟨by decide, (C5_clamp_noop_idempotent .glassmorphism baseGM).1 (by decide)⟩

-- ══════════════════════════════════════════════════════════════════
-- Semantic-rule claims (C6)
-- ══════════════════════════════════════════════════════════════════

/-- Decidable equality for `Except` results (used to evaluate the model on
concrete inputs). -/
instance {ε α : Type} [DecidableEq ε] [DecidableEq α] : DecidableEq (Except ε α) := fun a b => by
  cases a with
  | error e =>
    cases b with
    | error f =>
      exact if h : e = f then .isTrue (by rw [h]) else
        .isFalse (by intro hh; cases hh; exact h rfl)
    | ok y => exact .isFalse (by intro hh; cases hh)
  | ok x =>
    cases b with
    | error f => exact .isFalse (by intro hh; cases hh)
    | ok y =>
      exact if h : x = y then .isTrue (by rw [h]) else
        .isFalse (by intro hh; cases hh; exact h rfl)

/-- The rule-runner fold appends exactly the diagnostics of the rules whose
predicates hold, in rule order. -/
lemma foldRules_eq {σ : Type} (rules : List (SemanticRule σ)) (s : σ) (ds : List Diagnostic) :
    rules.foldl (fun acc r => if r.check s then acc ++ [ruleDiag r] else acc) ds =
      ds ++ (rules.filter (fun r => r.check s)).map ruleDiag := by
  induction rules generalizing ds with
  | nil => simp
  | cons r rest ih =>
    simp only [List.foldl_cons, List.filter_cons]
    by_cases h : r.check s
    · simp [h, ih]
    · simp [h, ih]

/-- Modelled from the spec: the external PostCSS structured parse of
`backdrop-filter: blur(999px);` yields that single declaration (§4.4). -/
def astBlur999 : Except SyntaxErr (List CSSDeclaration) :=
  Except.ok [⟨"backdrop-filter", "blur(999px)", 1, 1⟩]

/-- The diagnostic of the glassmorphism `blur-performance` rule. -/
def blurPerfDiagGM : Diagnostic :=
  { message := "blur > 30px is GPU-intensive. Typical glassmorphism uses 10–20px."
    severity := .warning, property := some "blur" }

/-- The glassmorphism record after clamping `gm999`. -/
def gm50 : GlassmorphismSettings := { baseGM with blur := 50 }

set_option maxRecDepth 4000 in
/-- C6: semantic rules run on the clamped settings and every rule whose
predicate holds fires its diagnostic (not just the first); concretely,
`backdrop-filter: blur(999px);` in glassmorphism clamps blur to 50 with
clampedFields = [blur], and the blur-performance warning still fires on the
post-clamp value. -/
theorem C6_rules_all_fire :
    (∀ (m : EffectMode) (s : ModeSettings m) (ds : List Diagnostic),
      runSemanticRules m s ds = ds ++ ((rulesFor m).filter (fun r => r.check s)).map ruleDiag) ∧
    (parseAndValidateCSS .glassmorphism "backdrop-filter: blur(999px);" astBlur999
        baseGM).map (fun r => r.settings.map GlassmorphismSettings.blur) =
      Except.ok (some 50) ∧
    (parseAndValidateCSS .glassmorphism "backdrop-filter: blur(999px);" astBlur999
        baseGM).map ParseResult.clampedFields = Except.ok ["blur"] ∧
    (parseAndValidateCSS .glassmorphism "backdrop-filter: blur(999px);" astBlur999
        baseGM).map ParseResult.diagnostics =
      Except.ok [clampDiag "blur" 999 50 0 50, blurPerfDiagGM] := by
  have hbd : parseBackdropFilter "blur(999px)" = ⟨some 999, none, none⟩ := by
    with_unfolding_all decide
  have hget_bg : getProp [⟨"backdrop-filter", "blur(999px)", 1, 1⟩] "background" = none := rfl
  have hget_bd : getProp [⟨"backdrop-filter", "blur(999px)", 1, 1⟩] "backdrop-filter" =
      some ⟨"backdrop-filter", "blur(999px)", 1, 1⟩ := rfl
  have hget_br : getProp [⟨"backdrop-filter", "blur(999px)", 1, 1⟩] "border-radius" = none := rfl
  have hget_b : getProp [⟨"backdrop-filter", "blur(999px)", 1, 1⟩] "border" = none := rfl
  have hget_bs : getProp [⟨"backdrop-filter", "blur(999px)", 1, 1⟩] "box-shadow" = none := rfl
  have hext : extractGlassmorphism (getProp [⟨"backdrop-filter", "blur(999px)", 1, 1⟩])
      baseGM [] = .ok (gm999, []) := by
    simp only [extractGlassmorphism, bgStep, bdStep, brStep, borderStep, gmShadowStep,
      bdLookup, hget_bg, hget_bd, hget_br, hget_b, hget_bs, hbd]
    rfl
  have hclamp : clampWithTracking .glassmorphism gm999 [] [] =
      (gm50, ["blur"], [clampDiag "blur" 999 50 0 50]) := by decide
  have hrules : runSemanticRules .glassmorphism gm50
      [clampDiag "blur" 999 50 0 50] = [clampDiag "blur" 999 50 0 50, blurPerfDiagGM] := by
    decide
  have hblur50 : GlassmorphismSettings.blur gm50 = 50 := rfl
  refine ⟨fun m s ds => foldRules_eq (rulesFor m) s ds, ?_, ?_, ?_⟩ <;>
    simp [parseAndValidateCSS, walkCSS, astBlur999, extractFor, hext, hclamp, hrules, hblur50,
      Except.map]

-- ══════════════════════════════════════════════════════════════════
-- Orchestrator exception and ghost-classification claims (C1, C3)
-- ══════════════════════════════════════════════════════════════════

/-- Modelled from the spec: the external PostCSS structured parse of
`background: constructor;` yields that single declaration (§4.4). -/
def astBgConstructor : Except SyntaxErr (List CSSDeclaration) :=
  Except.ok [⟨"background", "constructor", 1, 1⟩]

/-- C1 failing-input evaluation: on `background: constructor;` the orchestrator
does not return a ParseResult at all — the named-color lookup
`NAMED[v.toLowerCase()]` hits `Object.prototype.constructor`, `fromHex` is
invoked on a function, and the resulting TypeError escapes
`parseAndValidateCSS` (the claim says no exception ever propagates). -/
theorem C1_throws_on_constructor_background :
    (parseAndValidateCSS .liquidGlass "background: constructor;" astBgConstructor
      baseLG).map (fun _ => ()) = .error "TypeError" := by
  with_unfolding_all decide

/-- Modelled from the spec: the external PostCSS structured parse of
`constructor: absolute;` yields that single declaration (§4.4). -/
def astConstructorProp : Except SyntaxErr (List CSSDeclaration) :=
  Except.ok [⟨"constructor", "absolute", 1, 1⟩]

/-- C3 failing-input evaluation: the declaration property `constructor` is not
in the glassmorphism vocabulary, yet the ghost loop's JS `in` test sees the
inherited `Object.prototype.constructor` and files no ghost entry — the
partition the claim states fails. -/
theorem C3_ghost_misses_prototype_key :
    ¬ "constructor" ∈ PROPERTIES_BY_MODE .glassmorphism ∧
    ghostsOf .glassmorphism [⟨"constructor", "absolute", 1, 1⟩] = [] ∧
    (parseAndValidateCSS .glassmorphism "constructor: absolute;" astConstructorProp
        baseGM).map ParseResult.ghostProperties = Except.ok [] := by
  refine ⟨by decide, rfl, ?_⟩
  with_unfolding_all decide

-- ══════════════════════════════════════════════════════════════════
-- Hex round-trip (C8)
-- ══════════════════════════════════════════════════════════════════

/-- Byte-level facts about the `toString(16).padStart(2, '0')` encoding: two
characters, `parseInt(·, 16)` inverts it, and no character is whitespace or a
hash (checked for all byte values). -/
lemma hexByte_ok : ∀ n, n < 256 →
    (padTwo (Nat.toDigits 16 n)).length = 2 ∧
    jsParseHexInt (padTwo (Nat.toDigits 16 n)) = some (n : ℤ) ∧
    (padTwo (Nat.toDigits 16 n)).all (fun ch => !ch.isWhitespace) = true := by
  set_option maxRecDepth 4000 in decide

/-- dropWhile is the identity when no element satisfies the predicate. -/
lemma dropWhile_eq_self {p : Char → Bool} {l : List Char} (h : ∀ x ∈ l, p x = false) :
    l.dropWhile p = l := by
  cases l with
  | nil => rfl
  | cons a t => simp [List.dropWhile_cons, h a (by simp)]

/-- Trimming a whitespace-free char list is the identity. -/
lemma trimChars_eq_self {l : List Char} (h : l.all (fun ch => !ch.isWhitespace) = true) :
    trimChars l = l := by
  have h' : ∀ x ∈ l, Char.isWhitespace x = false := by
    intro x hx
    simpa using List.all_eq_true.mp h x hx
  unfold trimChars
  rw [dropWhile_eq_self h', dropWhile_eq_self (by
    intro x hx
    exact h' x (List.mem_reverse.mp hx)), List.reverse_reverse]

/-- A two-element list destructures. -/
lemma length_two {l : List Char} (h : l.length = 2) : ∃ a b, l = [a, b] := by
  match l, h with
  | [a, b], _ => exact ⟨a, b, rfl⟩

/-- An integral channel value is a fixed point of the constructor rounding. -/
lemma chanRound_nat (n : ℕ) (h : n ≤ 255) : chanRound (n : ℚ) = n := by
  unfold chanRound jsRound
  rw [jsClamp_of_mem (by positivity) (by exact_mod_cast h)]
  have hf : ⌊(n : ℚ) + 1 / 2⌋ = (n : ℤ) := by
    rw [Int.floor_eq_iff]
    constructor
    · push_cast
      linarith
    · push_cast
      linarith
  rw [hf]
  exact Int.toNat_natCast n

/-- C8: for a fully opaque constructed color, parsing its hex rendering
succeeds and reproduces the color itself (so in particular the hex
round-trip `parse(toHex).toHex = toHex` holds). -/
theorem C8_hex_roundtrip (c : Color) (hv : c.Valid) (ha : c.a = 1) :
    Color.parse c.toHex = Except.ok (some c) := by
  obtain ⟨hr, hg, hb, -, -⟩ := hv
  obtain ⟨hlr, hpr, hwr⟩ := hexByte_ok c.r (by omega)
  obtain ⟨hlg, hpg, hwg⟩ := hexByte_ok c.g (by omega)
  obtain ⟨hlb, hpb, hwb⟩ := hexByte_ok c.b (by omega)
  obtain ⟨r1, r2, hRv⟩ := length_two hlr
  obtain ⟨g1, g2, hGv⟩ := length_two hlg
  obtain ⟨b1, b2, hBv⟩ := length_two hlb
  have hdata : (Color.toHex c).data = '#' :: ([r1, r2] ++ ([g1, g2] ++ [b1, b2])) := by
    simp [Color.toHex, hRv, hGv, hBv]
  have hall : ((Color.toHex c).data).all (fun ch => !ch.isWhitespace) = true := by
    rw [hdata, ← hRv, ← hGv, ← hBv]
    simp only [List.all_cons, List.all_append, hwr, hwg, hwb]
    decide
  have htrim : jsTrim (Color.toHex c) = Color.toHex c := by
    unfold jsTrim
    rw [trimChars_eq_self hall]
  have hstart : startsWithChars (Color.toHex c).data ['#'] = true := by
    rw [hdata]
    rfl
  have hfrom : Color.fromHex (Color.toHex c) = some c := by
    unfold Color.fromHex
    rw [hdata]
    show Color.hexChans [r1, r2] [g1, g2] [b1, b2] none = some c
    unfold Color.hexChans
    rw [← hRv, ← hGv, ← hBv, hpr, hpg, hpb]
    show some (Color.mkC ((c.r : ℤ) : ℚ) ((c.g : ℤ) : ℚ) ((c.b : ℤ) : ℚ) ((255 : ℚ) / 255)) =
      some c
    unfold Color.mkC
    push_cast
    rw [chanRound_nat c.r hr, chanRound_nat c.g hg, chanRound_nat c.b hb]
    have h255 : jsClamp ((255 : ℚ) / 255) 0 1 = 1 := by
      norm_num [jsClamp]
    rw [h255, ← ha]
  simp only [Color.parse]
  rw [htrim, hstart]
  simp [hfrom]

/-- C8 witness: opaque white round-trips through its hex rendering. -/
theorem C8_hex_roundtrip_witness :
    Color.Valid ⟨255, 255, 255, 1⟩ ∧
    Color.parse (Color.toHex ⟨255, 255, 255, 1⟩) = Except.ok (some ⟨255, 255, 255, 1⟩) :=
  ⟨by norm_num [Color.Valid],
   C8_hex_roundtrip ⟨255, 255, 255, 1⟩ (by norm_num [Color.Valid]) rfl⟩

-- ══════════════════════════════════════════════════════════════════
-- C7: contrast symmetry, bounds, AAA ⇒ AA
-- ══════════════════════════════════════════════════════════════════

theorem linearize_nonneg (n : ℕ) : 0 ≤ linearize n := by
  show 0 ≤ (if ((n : ℝ)/255) ≤ 0.03928 then ((n : ℝ)/255) / 12.92
    else ((((n : ℝ)/255) + 0.055) / 1.055) ^ (2.4 : ℝ))
  split
  · positivity
  · exact Real.rpow_nonneg (by positivity) _

theorem linearize_le_one (n : ℕ) (h : n ≤ 255) : linearize n ≤ 1 := by
  have hval1 : (n : ℝ)/255 ≤ 1 := by
    rw [div_le_one (by norm_num : (0:ℝ) < 255)]
    exact_mod_cast h
  show (if ((n : ℝ)/255) ≤ 0.03928 then ((n : ℝ)/255) / 12.92
    else ((((n : ℝ)/255) + 0.055) / 1.055) ^ (2.4 : ℝ)) ≤ 1
  split
  · rw [div_le_one (by norm_num : (0:ℝ) < 12.92)]
    linarith
  · apply Real.rpow_le_one (by positivity) ?_ (by norm_num)
    rw [div_le_one (by norm_num : (0:ℝ) < 1.055)]
    linarith

theorem relativeLuminance_nonneg (c : Color) : 0 ≤ c.relativeLuminance := by
  have hr := linearize_nonneg c.r
  have hg := linearize_nonneg c.g
  have hb := linearize_nonneg c.b
  unfold Color.relativeLuminance
  linarith

theorem relativeLuminance_le_one (c : Color) (h : c.Valid) : c.relativeLuminance ≤ 1 := by
  obtain ⟨hr, hg, hb, -, -⟩ := h
  have h1 := linearize_le_one c.r hr
  have h2 := linearize_le_one c.g hg
  have h3 := linearize_le_one c.b hb
  unfold Color.relativeLuminance
  linarith

theorem contrastWith_comm (a b : Color) : a.contrastWith b = b.contrastWith a := by
  simp only [Color.contrastWith]
  rcases lt_trichotomy b.relativeLuminance a.relativeLuminance with h | h | h
  · rw [if_pos h, if_neg (not_lt.mpr h.le)]
  · rw [h]
  · rw [if_neg (not_lt.mpr h.le), if_pos h]

theorem contrastWith_bounds (a b : Color) (ha : a.Valid) (hb : b.Valid) :
    1 ≤ a.contrastWith b ∧ a.contrastWith b ≤ 21 := by
  have h0a := relativeLuminance_nonneg a
  have h1a := relativeLuminance_le_one a ha
  have h0b := relativeLuminance_nonneg b
  have h1b := relativeLuminance_le_one b hb
  simp only [Color.contrastWith]
  split
  · next h =>
    dsimp only
    constructor
    · rw [one_le_div (by linarith : (0:ℝ) < b.relativeLuminance + 0.05)]
      linarith
    · rw [div_le_iff₀ (by linarith : (0:ℝ) < b.relativeLuminance + 0.05)]
      linarith
  · next h =>
    have h' := not_lt.mp h
    dsimp only
    constructor
    · rw [one_le_div (by linarith : (0:ℝ) < a.relativeLuminance + 0.05)]
      linarith
    · rw [div_le_iff₀ (by linarith : (0:ℝ) < a.relativeLuminance + 0.05)]
      linarith

theorem mkAccessInfo_aaa_imp_aa (E : ℝ) :
    (mkAccessInfo E).passesAAA → (mkAccessInfo E).passesAA := by
  intro h
  have h7 : (7:ℝ) ≤ max (blackContrastOf E) (whiteContrastOf E) := h
  show (4.5:ℝ) ≤ max (blackContrastOf E) (whiteContrastOf E)
  linarith

/-- C7: `contrastWith` is symmetric and, for colors satisfying the
constructor invariant, always lies in `[1, 21]`; and in every
`AccessibilityInfo` the analyzer produces, `passesAAA` implies `passesAA`
(thresholds 7.0 and 4.5 on the same `contrastRatio`). -/
theorem C7_contrast_symmetry_bounds_aaa_imp_aa
    (a b : Color) (ha : a.Valid) (hb : b.Valid)
    (m : EffectMode) (s : ModeSettings m) (info : AccessibilityInfo)
    (hinfo : calculateAccessibility m s = some info) :
    a.contrastWith b = b.contrastWith a ∧
    (1 ≤ a.contrastWith b ∧ a.contrastWith b ≤ 21) ∧
    (info.passesAAA → info.passesAA) := by
  refine ⟨contrastWith_comm a b, contrastWith_bounds a b ha hb, ?_⟩
  simp only [calculateAccessibility] at hinfo
  split at hinfo
  · exact Option.noConfusion hinfo
  · split at hinfo
    · exact Option.noConfusion hinfo
    · injection hinfo with h
      rw [← h]
      exact mkAccessInfo_aaa_imp_aa _

theorem C7_contrast_witness :
    Color.contrastWith ⟨255, 255, 255, 1⟩ ⟨0, 0, 0, 1⟩ =
      Color.contrastWith ⟨0, 0, 0, 1⟩ ⟨255, 255, 255, 1⟩ ∧
    (1 ≤ Color.contrastWith ⟨255, 255, 255, 1⟩ ⟨0, 0, 0, 1⟩ ∧
      Color.contrastWith ⟨255, 255, 255, 1⟩ ⟨0, 0, 0, 1⟩ ≤ 21) ∧
    ((mkAccessInfo 0).passesAAA → (mkAccessInfo 0).passesAA) := by
  have hfh : Color.fromHex "#000000" = some ⟨0, 0, 0, 1⟩ := by with_unfolding_all decide
  have hlum : Color.relativeLuminance ⟨0, 0, 0, 1⟩ = 0 := by
    have h0 : linearize 0 = 0 := by
      show (if (((0:ℕ) : ℝ)/255) ≤ 0.03928 then (((0:ℕ) : ℝ)/255) / 12.92
        else (((((0:ℕ) : ℝ)/255) + 0.055) / 1.055) ^ (2.4 : ℝ)) = 0
      rw [if_pos (by norm_num)]
      norm_num
    show (0.2126 : ℝ) * linearize 0 + 0.7152 * linearize 0 + 0.0722 * linearize 0 = 0
    rw [h0]; ring
  have hstep : calculateAccessibility EffectMode.neumorphism baseNM =
      some (mkAccessInfo ((Color.relativeLuminance ⟨0, 0, 0, 1⟩) * (((100 : ℚ) : ℝ)/100)
        + 0.5 * (1 - ((100 : ℚ) : ℝ)/100))) := by
    show (if ("#000000" : String) = "" then none
      else match Color.fromHex "#000000" with
        | none => none
        | some bgColor => some (mkAccessInfo (bgColor.relativeLuminance * (((100 : ℚ) : ℝ)/100)
            + 0.5 * (1 - ((100 : ℚ) : ℝ)/100)))) = _
    rw [if_neg (by decide), hfh]
  have hE : (Color.relativeLuminance ⟨0, 0, 0, 1⟩) * (((100 : ℚ) : ℝ)/100)
      + 0.5 * (1 - ((100 : ℚ) : ℝ)/100) = 0 := by
    rw [hlum]; push_cast; norm_num
  have hinfo : calculateAccessibility EffectMode.neumorphism baseNM = some (mkAccessInfo 0) := by
    rw [hstep, hE]
  exact C7_contrast_symmetry_bounds_aaa_imp_aa ⟨255, 255, 255, 1⟩ ⟨0, 0, 0, 1⟩
    (by norm_num [Color.Valid]) (by norm_num [Color.Valid])
    EffectMode.neumorphism baseNM (mkAccessInfo 0) hinfo

-- ══════════════════════════════════════════════════════════════════
-- C10: accessibility always passes AA under the orchestrator
-- ══════════════════════════════════════════════════════════════════

theorem jsRound_le {x : ℚ} {n : ℤ} (h : x ≤ n) : jsRound x ≤ n := by
  unfold jsRound
  have h1 : x + 1/2 < ((n + 1 : ℤ) : ℚ) := by push_cast; linarith
  exact Int.lt_add_one_iff.mp (Int.floor_lt.mpr h1)

theorem chanRound_le255 (x : ℚ) : chanRound x ≤ 255 := by
  unfold chanRound
  have hm := @jsClamp_mem x 0 255 (by norm_num)
  have h := jsRound_le (n := 255) hm.2
  omega

theorem mkC_valid (r g b a : ℚ) : (Color.mkC r g b a).Valid :=
  ⟨chanRound_le255 r, chanRound_le255 g, chanRound_le255 b,
   (@jsClamp_mem a 0 1 (by norm_num)).1, (@jsClamp_mem a 0 1 (by norm_num)).2⟩

theorem hexChans_valid (rp gp bp : List Char) (ap : Option (List Char)) (c : Color)
    (h : Color.hexChans rp gp bp ap = some c) : c.Valid := by
  unfold Color.hexChans at h
  repeat' split at h
  all_goals first
    | exact Option.noConfusion h
    | (injection h with h; rw [← h]; exact mkC_valid _ _ _ _)

theorem fromHex_valid (hx : String) (c : Color) (h : Color.fromHex hx = some c) : c.Valid := by
  simp only [Color.fromHex] at h
  repeat' split at h
  all_goals first
    | exact Option.noConfusion h
    | exact hexChans_valid _ _ _ _ _ h

theorem cwt_fst (m : EffectMode) (s : ModeSettings m) (ds : List Diagnostic)
    (cf : List String) :
    (clampWithTracking m s ds cf).1 = (clampWithTracking m s [] []).1 := by
  cases m <;> simp [cwt_lg, cwt_gm, cwt_nm, cwt_gl]

theorem bgAlpha_in_range (m : EffectMode) (t : ModeSettings m) (h : InRangeB m t = true) :
    0 ≤ bgAlphaOf m t ∧ bgAlphaOf m t ≤ 100 := by
  cases m with
  | liquidGlass =>
    simp only [InRangeB, modeNumFields, lgNumFields, List.all_cons, List.all_nil,
      Bool.and_eq_true, and_true] at h
    obtain ⟨-, -, -, h4, -⟩ := h
    rw [fieldInRange_iff (m := EffectMode.liquidGlass) (k := "bgAlpha") rfl] at h4
    exact h4
  | glassmorphism =>
    simp only [InRangeB, modeNumFields, gmNumFields, List.all_cons, List.all_nil,
      Bool.and_eq_true, and_true] at h
    obtain ⟨-, -, -, h4, -⟩ := h
    rw [fieldInRange_iff (m := EffectMode.glassmorphism) (k := "bgAlpha") rfl] at h4
    exact h4
  | neumorphism =>
    constructor
    · show (0 : ℚ) ≤ 100
      norm_num
    · show (100 : ℚ) ≤ 100
      norm_num
  | glow =>
    simp only [InRangeB, modeNumFields, glNumFields, List.all_cons, List.all_nil,
      Bool.and_eq_true, and_true] at h
    obtain ⟨-, h2, -⟩ := h
    rw [fieldInRange_iff (m := EffectMode.glow) (k := "bgAlpha") rfl] at h2
    exact h2

theorem calcAccess_mkAccessInfo (m : EffectMode) (s : ModeSettings m)
    (info : AccessibilityInfo)
    (hb0 : 0 ≤ bgAlphaOf m s) (hb1 : bgAlphaOf m s ≤ 100)
    (h : calculateAccessibility m s = some info) :
    ∃ L : ℝ, info = mkAccessInfo L ∧ 0 ≤ L ∧ L ≤ 1 := by
  have hbf0 : (0:ℝ) ≤ ((bgAlphaOf m s : ℚ) : ℝ)/100 := by
    have : (0:ℝ) ≤ ((bgAlphaOf m s : ℚ) : ℝ) := by exact_mod_cast hb0
    linarith
  have hbf1 : ((bgAlphaOf m s : ℚ) : ℝ)/100 ≤ 1 := by
    rw [div_le_one (by norm_num : (0:ℝ) < 100)]
    exact_mod_cast hb1
  simp only [calculateAccessibility] at h
  split at h
  · exact Option.noConfusion h
  · rcases hfh : Color.fromHex (bgHexOf m s) with _ | bg
    · rw [hfh] at h
      exact Option.noConfusion h
    · rw [hfh] at h
      dsimp only at h
      injection h with h
      have hv := fromHex_valid _ _ hfh
      have h0 := relativeLuminance_nonneg bg
      have h1 := relativeLuminance_le_one bg hv
      refine ⟨_, h.symm, ?_, ?_⟩
      · nlinarith [mul_nonneg h0 hbf0]
      · nlinarith [mul_nonneg (by linarith : (0:ℝ) ≤ 1 - bg.relativeLuminance) hbf0]

theorem access_core (L : ℝ) (h0 : 0 ≤ L) (h1 : L ≤ 1) :
    blackContrastOf L * whiteContrastOf L = 21 ∧
    Real.sqrt 21 ≤ max (blackContrastOf L) (whiteContrastOf L) ∧
    (4.5 : ℝ) ≤ max (blackContrastOf L) (whiteContrastOf L) := by
  have hpos : (0:ℝ) < L + 0.05 := by linarith
  have hb_pos : 0 < blackContrastOf L := by unfold blackContrastOf; positivity
  have hw_pos : 0 < whiteContrastOf L := by unfold whiteContrastOf; positivity
  have hprod : blackContrastOf L * whiteContrastOf L = 21 := by
    unfold blackContrastOf whiteContrastOf
    field_simp
    ring
  have haa : (4.5 : ℝ) ≤ max (blackContrastOf L) (whiteContrastOf L) := by
    rcases le_total L 0.175 with hc | hc
    · refine le_trans ?_ (le_max_right _ _)
      unfold whiteContrastOf
      rw [le_div_iff₀ hpos]
      linarith
    · refine le_trans ?_ (le_max_left _ _)
      unfold blackContrastOf
      rw [le_div_iff₀ (by norm_num : (0:ℝ) < 0 + 0.05)]
      linarith
  refine ⟨hprod, ?_, haa⟩
  have hmax_pos : 0 < max (blackContrastOf L) (whiteContrastOf L) :=
    lt_of_lt_of_le hb_pos (le_max_left _ _)
  have hsq : 21 ≤ (max (blackContrastOf L) (whiteContrastOf L))^2 := by
    have hx := le_max_left (blackContrastOf L) (whiteContrastOf L)
    have hy := le_max_right (blackContrastOf L) (whiteContrastOf L)
    nlinarith [hprod, hb_pos, hw_pos]
  calc Real.sqrt 21 ≤ Real.sqrt ((max (blackContrastOf L) (whiteContrastOf L))^2) :=
        Real.sqrt_le_sqrt hsq
    _ = max (blackContrastOf L) (whiteContrastOf L) := Real.sqrt_sq hmax_pos.le

theorem mkAccessInfo_rec_ne_low (L : ℝ)
    (h : (4.5:ℝ) ≤ max (blackContrastOf L) (whiteContrastOf L)) :
    (mkAccessInfo L).recommendation ≠ recLow := by
  unfold mkAccessInfo
  dsimp only
  split_ifs with h7
  · intro hc
    exact absurd hc (by decide)
  · intro hc
    exact absurd hc (by decide)

/-- C10: whenever the orchestrator returns a `ParseResult` carrying an
accessibility analysis, that analysis comes from an effective luminance in
`[0, 1]`; the black-contrast and white-contrast values multiply to exactly 21,
so the returned `contrastRatio = max` of the two is at least `√21 > 4.5`:
`passesAA` holds in every returned `AccessibilityInfo` and the low-contrast
recommendation branch is unreachable. -/
theorem C10_accessibility_always_passes_aa
    (m : EffectMode) (css : String) (ast : Except SyntaxErr (List CSSDeclaration))
    (base : ModeSettings m) (res : ParseResult m) (info : AccessibilityInfo)
    (hres : parseAndValidateCSS m css ast base = Except.ok res)
    (hinfo : res.accessibility = some info) :
    ∃ L : ℝ, info = mkAccessInfo L ∧ 0 ≤ L ∧ L ≤ 1 ∧
      blackContrastOf L * whiteContrastOf L = 21 ∧
      Real.sqrt 21 ≤ info.contrastRatio ∧ info.passesAA ∧
      info.recommendation ≠ recLow := by
  simp only [parseAndValidateCSS] at hres
  split at hres
  · injection hres with h
    rw [← h] at hinfo
    exact Option.noConfusion hinfo
  · split at hres
    · exact Except.noConfusion hres
    · next raw ds1 heq =>
      injection hres with h
      rw [← h] at hinfo
      have hacc : calculateAccessibility m
          (clampWithTracking m raw ds1 []).1 = some info := hinfo
      have hir : InRangeB m (clampWithTracking m raw ds1 []).1 = true := by
        rw [cwt_fst]
        exact clamp_out_inRange m raw
      obtain ⟨hbl, hbu⟩ := bgAlpha_in_range m _ hir
      obtain ⟨L, hinfoeq, hL0, hL1⟩ := calcAccess_mkAccessInfo m _ info hbl hbu hacc
      obtain ⟨hprod, hsqrt, haa⟩ := access_core L hL0 hL1
      refine ⟨L, hinfoeq, hL0, hL1, hprod, ?_, ?_, ?_⟩
      · rw [hinfoeq]
        exact hsqrt
      · rw [hinfoeq]
        exact haa
      · rw [hinfoeq]
        exact mkAccessInfo_rec_ne_low L haa

theorem calcAccess_baseNM_black :
    calculateAccessibility EffectMode.neumorphism baseNM = some (mkAccessInfo 0) := by
  have hfh : Color.fromHex "#000000" = some ⟨0, 0, 0, 1⟩ := by with_unfolding_all decide
  have hlum : Color.relativeLuminance ⟨0, 0, 0, 1⟩ = 0 := by
    have h0 : linearize 0 = 0 := by
      show (if (((0:ℕ) : ℝ)/255) ≤ 0.03928 then (((0:ℕ) : ℝ)/255) / 12.92
        else (((((0:ℕ) : ℝ)/255) + 0.055) / 1.055) ^ (2.4 : ℝ)) = 0
      rw [if_pos (by norm_num)]
      norm_num
    show (0.2126 : ℝ) * linearize 0 + 0.7152 * linearize 0 + 0.0722 * linearize 0 = 0
    rw [h0]; ring
  have hstep : calculateAccessibility EffectMode.neumorphism baseNM =
      some (mkAccessInfo ((Color.relativeLuminance ⟨0, 0, 0, 1⟩) * (((100 : ℚ) : ℝ)/100)
        + 0.5 * (1 - ((100 : ℚ) : ℝ)/100))) := by
    show (if ("#000000" : String) = "" then none
      else match Color.fromHex "#000000" with
        | none => none
        | some bgColor => some (mkAccessInfo (bgColor.relativeLuminance * (((100 : ℚ) : ℝ)/100)
            + 0.5 * (1 - ((100 : ℚ) : ℝ)/100)))) = _
    rw [if_neg (by decide), hfh]
  have hE : (Color.relativeLuminance ⟨0, 0, 0, 1⟩) * (((100 : ℚ) : ℝ)/100)
      + 0.5 * (1 - ((100 : ℚ) : ℝ)/100) = 0 := by
    rw [hlum]; push_cast; norm_num
  rw [hstep, hE]

theorem C10_accessibility_witness :
    ∃ L : ℝ, mkAccessInfo 0 = mkAccessInfo L ∧ 0 ≤ L ∧ L ≤ 1 ∧
      blackContrastOf L * whiteContrastOf L = 21 ∧
      Real.sqrt 21 ≤ (mkAccessInfo 0).contrastRatio ∧ (mkAccessInfo 0).passesAA ∧
      (mkAccessInfo 0).recommendation ≠ recLow := by
  have hext : extractFor EffectMode.neumorphism (getProp []) baseNM [] =
      Except.ok (baseNM, []) := rfl
  have hclamp : clampWithTracking EffectMode.neumorphism baseNM [] [] = (baseNM, [], []) := by
    decide
  have hrules : runSemanticRules EffectMode.neumorphism baseNM [] = [] := by decide
  have hres : parseAndValidateCSS EffectMode.neumorphism "" (Except.ok []) baseNM =
      Except.ok { settings := some baseNM,
                  diagnostics := [],
                  ghostProperties := [],
                  accessibility := calculateAccessibility EffectMode.neumorphism baseNM,
                  clampedFields := [] } := by
    simp [parseAndValidateCSS, walkCSS, ghostsOf, hext, hclamp, hrules]
  exact C10_accessibility_always_passes_aa EffectMode.neumorphism "" (Except.ok []) baseNM _
    (mkAccessInfo 0) hres (by exact calcAccess_baseNM_black)

-- ══════════════════════════════════════════════════════════════════
-- C9: glow extraction takes the largest-blur non-inset layer
-- ══════════════════════════════════════════════════════════════════

theorem insertBlurDesc_mem (x y : ParsedShadow) (l : List ParsedShadow) :
    y ∈ insertBlurDesc x l ↔ y = x ∨ y ∈ l := by
  induction l with
  | nil => simp [insertBlurDesc]
  | cons z zs ih =>
    unfold insertBlurDesc
    split
    · simp only [List.mem_cons]
    · simp only [List.mem_cons, ih]
      tauto

theorem insertBlurDesc_pairwise (x : ParsedShadow) (l : List ParsedShadow)
    (h : l.Pairwise (fun a b => b.blur ≤ a.blur)) :
    (insertBlurDesc x l).Pairwise (fun a b => b.blur ≤ a.blur) := by
  induction l with
  | nil => simp [insertBlurDesc]
  | cons z zs ih =>
    rw [List.pairwise_cons] at h
    obtain ⟨hz, hzs⟩ := h
    unfold insertBlurDesc
    split
    · next hlt =>
      rw [List.pairwise_cons]
      refine ⟨?_, ?_⟩
      · intro y hy
        rcases List.mem_cons.mp hy with rfl | hy'
        · exact le_of_lt hlt
        · exact le_trans (hz y hy') (le_of_lt hlt)
      · rw [List.pairwise_cons]
        exact ⟨hz, hzs⟩
    · next hnlt =>
      rw [List.pairwise_cons]
      refine ⟨?_, ih hzs⟩
      intro y hy
      rcases (insertBlurDesc_mem x y zs).mp hy with rfl | hy'
      · exact le_of_not_lt hnlt
      · exact hz y hy'

theorem sortFold_mem (l acc : List ParsedShadow) (y : ParsedShadow) :
    y ∈ l.foldl (fun acc x => insertBlurDesc x acc) acc ↔ y ∈ acc ∨ y ∈ l := by
  induction l generalizing acc with
  | nil => simp
  | cons z zs ih =>
    rw [List.foldl_cons, ih, insertBlurDesc_mem]
    simp [List.mem_cons]
    tauto

theorem sortFold_pairwise (l acc : List ParsedShadow)
    (h : acc.Pairwise (fun a b => b.blur ≤ a.blur)) :
    (l.foldl (fun acc x => insertBlurDesc x acc) acc).Pairwise
      (fun a b => b.blur ≤ a.blur) := by
  induction l generalizing acc with
  | nil => exact h
  | cons z zs ih => exact ih _ (insertBlurDesc_pairwise z acc h)

theorem sortBlurDesc_head_max (l : List ParsedShadow) (og : ParsedShadow)
    (hh : (sortBlurDesc l).head? = some og) :
    og ∈ l ∧ ∀ y ∈ l, y.blur ≤ og.blur := by
  have hmem : ∀ y, y ∈ sortBlurDesc l ↔ y ∈ l := by
    intro y
    unfold sortBlurDesc
    rw [sortFold_mem]
    simp
  have hpw : (sortBlurDesc l).Pairwise (fun a b => b.blur ≤ a.blur) := by
    unfold sortBlurDesc
    exact sortFold_pairwise _ _ List.Pairwise.nil
  cases hsl : sortBlurDesc l with
  | nil =>
    rw [hsl] at hh
    exact Option.noConfusion hh
  | cons a rest =>
    rw [hsl] at hh
    injection hh with hh
    subst hh
    rw [hsl, List.pairwise_cons] at hpw
    constructor
    · rw [← hmem a, hsl]
      exact List.mem_cons_self _ _
    · intro y hy
      rw [← hmem y, hsl] at hy
      rcases List.mem_cons.mp hy with rfl | hy'
      · exact le_refl _
      · exact hpw.1 y hy'

/-- C9: when a `box-shadow` declaration is present and every layer parses, the
glow shadow block succeeds without touching the diagnostics; the head of the
blur-descending stable sort of the non-inset layers — a non-inset layer of
maximal blur — becomes the outer glow (`glowColor` from its color when parsed,
`glowBlur = round(blur)`, `glowSpread = round(spread)` when present,
`glowIntensity = round(alpha / 0.6)` when the color carried an alpha), and the
first layer carrying `inset` sets `innerGlow` from its blur. -/
theorem C9_glow_largest_blur_layer
    (get : String → Option CSSDeclaration) (x : GlowSettings × List Diagnostic)
    (d : CSSDeclaration) (parsedO : List (Option ParsedShadow))
    (hget : get "box-shadow" = some d)
    (hparse : (splitShadowLayers d.value).mapM parseShadowLayer = Except.ok parsedO) :
    ∃ t : GlowSettings, glShadowStep get x = Except.ok (t, x.2) ∧
      (∀ og, (sortBlurDesc ((parsedO.filterMap id).filter (fun l => ! l.inset))).head? =
          some og →
        (og ∈ (parsedO.filterMap id).filter (fun l => ! l.inset) ∧
          ∀ l ∈ (parsedO.filterMap id).filter (fun l => ! l.inset), l.blur ≤ og.blur) ∧
        t.glowBlur = (jsRound og.blur : ℚ) ∧
        (∀ col, og.color = some col → t.glowColor = col) ∧
        (∀ sp, og.spread = some sp → t.glowSpread = (jsRound sp : ℚ)) ∧
        (∀ al, og.alpha = some al → t.glowIntensity = (jsRound ((al : ℚ) / (0.6 : ℚ)) : ℚ))) ∧
      (∀ inner, (parsedO.filterMap id).find? (fun l => l.inset) = some inner →
        t.innerGlow = (jsRound inner.blur : ℚ)) := by
  unfold glShadowStep
  rw [hget]
  dsimp only
  rw [hparse]
  dsimp only
  refine ⟨_, rfl, ?_, ?_⟩
  · intro og hout
    refine ⟨sortBlurDesc_head_max _ og hout, ?_, ?_, ?_, ?_⟩
    · rcases hf : (parsedO.filterMap id).find? (fun l => l.inset) with _ | inner <;>
        rcases hc : og.color with _ | col <;>
        rcases hs : og.spread with _ | sp <;>
        rcases ha : og.alpha with _ | al <;>
        simp only [hout, hf, hc, hs, ha]
    · intro col hcol
      rcases hf : (parsedO.filterMap id).find? (fun l => l.inset) with _ | inner <;>
        rcases hs : og.spread with _ | sp <;>
        rcases ha : og.alpha with _ | al <;>
        simp only [hout, hf, hcol, hs, ha]
    · intro sp hsp
      rcases hf : (parsedO.filterMap id).find? (fun l => l.inset) with _ | inner <;>
        rcases hc : og.color with _ | col <;>
        rcases ha : og.alpha with _ | al <;>
        simp only [hout, hf, hc, hsp, ha]
    · intro al hal
      rcases hf : (parsedO.filterMap id).find? (fun l => l.inset) with _ | inner <;>
        rcases hc : og.color with _ | col <;>
        rcases hs : og.spread with _ | sp <;>
        simp only [hout, hf, hc, hs, hal]
  · intro inner hfind
    rcases hout : (sortBlurDesc ((parsedO.filterMap id).filter (fun l => ! l.inset))).head?
        with _ | og
    · simp only [hout, hfind]
    · rcases hc : og.color with _ | col <;>
        rcases hs : og.spread with _ | sp <;>
        rcases ha : og.alpha with _ | al <;>
        simp only [hout, hfind, hc, hs, ha]

theorem C9_glow_witness :
    ∃ t : GlowSettings,
      glShadowStep
        (getProp [⟨"box-shadow", "0px 0px 10px #00ffcc, inset 0px 0px 4px #112233", 1, 1⟩])
        (baseGL, ([] : List Diagnostic)) = Except.ok (t, ([] : List Diagnostic)) ∧
      (∀ og, (sortBlurDesc (([some ⟨0, 0, 10, none, some "#00ffcc", some 100, false⟩,
            some ⟨0, 0, 4, none, some "#112233", some 100, true⟩].filterMap
              (id : Option ParsedShadow → Option ParsedShadow)).filter
            (fun l => ! l.inset))).head? = some og →
        (og ∈ ([some ⟨0, 0, 10, none, some "#00ffcc", some 100, false⟩,
            some ⟨0, 0, 4, none, some "#112233", some 100, true⟩].filterMap
              (id : Option ParsedShadow → Option ParsedShadow)).filter
            (fun l => ! l.inset) ∧
          ∀ l ∈ ([some ⟨0, 0, 10, none, some "#00ffcc", some 100, false⟩,
            some ⟨0, 0, 4, none, some "#112233", some 100, true⟩].filterMap
              (id : Option ParsedShadow → Option ParsedShadow)).filter
            (fun l => ! l.inset), l.blur ≤ og.blur) ∧
        t.glowBlur = (jsRound og.blur : ℚ) ∧
        (∀ col, og.color = some col → t.glowColor = col) ∧
        (∀ sp, og.spread = some sp → t.glowSpread = (jsRound sp : ℚ)) ∧
        (∀ al, og.alpha = some al → t.glowIntensity = (jsRound ((al : ℚ) / (0.6 : ℚ)) : ℚ))) ∧
      (∀ inner, ([some ⟨0, 0, 10, none, some "#00ffcc", some 100, false⟩,
          some ⟨0, 0, 4, none, some "#112233", some 100, true⟩].filterMap
            (id : Option ParsedShadow → Option ParsedShadow)).find? (fun l => l.inset) =
          some inner →
        t.innerGlow = (jsRound inner.blur : ℚ)) :=
  C9_glow_largest_blur_layer
    (getProp [⟨"box-shadow", "0px 0px 10px #00ffcc, inset 0px 0px 4px #112233", 1, 1⟩])
    (baseGL, ([] : List Diagnostic))
    ⟨"box-shadow", "0px 0px 10px #00ffcc, inset 0px 0px 4px #112233", 1, 1⟩
    [some ⟨0, 0, 10, none, some "#00ffcc", some 100, false⟩,
     some ⟨0, 0, 4, none, some "#112233", some 100, true⟩]
    rfl (by with_unfolding_all decide)

-- ══════════════════════════════════════════════════════════════════
-- C4: extractor step preservation lemmas
-- ══════════════════════════════════════════════════════════════════

theorem bgStep_none {σ : Type} (get : String → Option CSSDeclaration)
    (setBg : String → ℚ → σ → σ) (fail : CSSDeclaration → Diagnostic)
    (x : σ × List Diagnostic) (h : get "background" = none) :
    bgStep get setBg fail x = Except.ok x := by
  unfold bgStep
  rw [h]

theorem bgStep_proj {σ α : Type} (get : String → Option CSSDeclaration)
    (setBg : String → ℚ → σ → σ) (fail : CSSDeclaration → Diagnostic)
    (x y : σ × List Diagnostic) (f : σ → α)
    (hset : ∀ hx al s, f (setBg hx al s) = f s)
    (h : bgStep get setBg fail x = Except.ok y) : f y.1 = f x.1 := by
  unfold bgStep at h
  repeat' split at h
  all_goals first
    | exact Except.noConfusion h
    | (injection h with h; subst h; simp [hset])

theorem bdStep_none {σ : Type} (get : String → Option CSSDeclaration)
    (f1 f2 f3 : ℚ → σ → σ) (s : σ) (h : bdLookup get = none) :
    bdStep get f1 f2 f3 s = s := by
  unfold bdStep
  rw [h]

theorem bdStep_proj {σ α : Type} (get : String → Option CSSDeclaration)
    (f1 f2 f3 : ℚ → σ → σ) (s : σ) (f : σ → α)
    (h1 : ∀ v t, f (f1 v t) = f t) (h2 : ∀ v t, f (f2 v t) = f t)
    (h3 : ∀ v t, f (f3 v t) = f t) :
    f (bdStep get f1 f2 f3 s) = f s := by
  unfold bdStep
  split
  · rfl
  · dsimp only
    repeat' split
    all_goals simp [h1, h2, h3]

theorem brStep_none {σ : Type} (get : String → Option CSSDeclaration)
    (setBr : ℚ → σ → σ) (x : σ × List Diagnostic) (h : get "border-radius" = none) :
    brStep get setBr x = x := by
  unfold brStep
  rw [h]

theorem brStep_proj {σ α : Type} (get : String → Option CSSDeclaration)
    (setBr : ℚ → σ → σ) (x : σ × List Diagnostic) (f : σ → α)
    (hset : ∀ v t, f (setBr v t) = f t) :
    f (brStep get setBr x).1 = f x.1 := by
  unfold brStep
  repeat' split
  all_goals simp [hset]

theorem borderStep_none {σ : Type} (get : String → Option CSSDeclaration)
    (setW : ℚ → σ → σ) (setC : String → σ → σ) (setA : ℚ → σ → σ)
    (x : σ × List Diagnostic) (h : get "border" = none) :
    borderStep get setW setC setA x = Except.ok x := by
  unfold borderStep
  rw [h]

theorem borderStep_proj {σ α : Type} (get : String → Option CSSDeclaration)
    (setW : ℚ → σ → σ) (setC : String → σ → σ) (setA : ℚ → σ → σ)
    (x y : σ × List Diagnostic) (f : σ → α)
    (hW : ∀ v t, f (setW v t) = f t) (hC : ∀ v t, f (setC v t) = f t)
    (hA : ∀ v t, f (setA v t) = f t)
    (h : borderStep get setW setC setA x = Except.ok y) : f y.1 = f x.1 := by
  unfold borderStep at h
  repeat' split at h
  all_goals first
    | exact Except.noConfusion h
    | (injection h with h; subst h; simp [hW, hC, hA])

theorem lgShadowStep_none (get : String → Option CSSDeclaration)
    (x : LiquidGlassSettings × List Diagnostic) (h : get "box-shadow" = none) :
    lgShadowStep get x = Except.ok x := by
  unfold lgShadowStep
  rw [h]

theorem lgShadowStep_proj {α : Type} (get : String → Option CSSDeclaration)
    (x y : LiquidGlassSettings × List Diagnostic) (f : LiquidGlassSettings → α)
    (hset : ∀ s a b c sp col al, f { s with
      shadowX := a
      shadowY := b
      shadowBlur := c
      shadowSpread := sp
      shadowColor := col
      shadowAlpha := al } = f s)
    (h : lgShadowStep get x = Except.ok y) : f y.1 = f x.1 := by
  unfold lgShadowStep at h
  dsimp only at h
  repeat' split at h
  all_goals first
    | exact Except.noConfusion h
    | (injection h with h; subst h; simp [hset])

theorem gmShadowStep_none (get : String → Option CSSDeclaration)
    (x : GlassmorphismSettings × List Diagnostic) (h : get "box-shadow" = none) :
    gmShadowStep get x = Except.ok x := by
  unfold gmShadowStep
  rw [h]

theorem gmShadowStep_proj {α : Type} (get : String → Option CSSDeclaration)
    (x y : GlassmorphismSettings × List Diagnostic) (f : GlassmorphismSettings → α)
    (hset : ∀ s a b c col al, f { s with
      shadowX := a
      shadowY := b
      shadowBlur := c
      shadowColor := col
      shadowAlpha := al } = f s)
    (h : gmShadowStep get x = Except.ok y) : f y.1 = f x.1 := by
  unfold gmShadowStep at h
  dsimp only at h
  repeat' split at h
  all_goals first
    | exact Except.noConfusion h
    | (injection h with h; subst h; simp [hset])

theorem glShadowStep_none (get : String → Option CSSDeclaration)
    (x : GlowSettings × List Diagnostic) (h : get "box-shadow" = none) :
    glShadowStep get x = Except.ok x := by
  unfold glShadowStep
  rw [h]

theorem glShadowStep_proj {α : Type} (get : String → Option CSSDeclaration)
    (x y : GlowSettings × List Diagnostic) (f : GlowSettings → α)
    (hset : ∀ s col bl sp it ig, f ({ s with
      glowColor := col
      glowBlur := bl
      glowSpread := sp
      glowIntensity := it
      innerGlow := ig } : GlowSettings) = f s)
    (h : glShadowStep get x = Except.ok y) : f y.1 = f x.1 := by
  unfold glShadowStep at h
  dsimp only at h
  repeat' split at h
  all_goals first
    | exact Except.noConfusion h
    | (injection h with h; subst h; simp [hset])

theorem nmBrStep_none (get : String → Option CSSDeclaration)
    (current : NeumorphismSettings) (h : get "border-radius" = none) :
    nmBrStep get current = current := by
  unfold nmBrStep
  rw [h]

theorem nmBrStep_proj {α : Type} (get : String → Option CSSDeclaration)
    (current : NeumorphismSettings) (f : NeumorphismSettings → α)
    (hbr : ∀ s v, f ({ s with borderRadius := v } : NeumorphismSettings) = f s) :
    f (nmBrStep get current) = f current := by
  unfold nmBrStep
  repeat' split
  all_goals simp [hbr]

theorem nmBgStep_none (get : String → Option CSSDeclaration)
    (s1 : NeumorphismSettings) (h : get "background" = none) :
    nmBgStep get s1 = Except.ok s1 := by
  unfold nmBgStep
  rw [h]

theorem nmBgStep_proj {α : Type} (get : String → Option CSSDeclaration)
    (s1 s2 : NeumorphismSettings) (f : NeumorphismSettings → α)
    (hset : ∀ s sh col, f ({ s with shape := sh, bgColor := col } : NeumorphismSettings) = f s)
    (h : nmBgStep get s1 = Except.ok s2) : f s2 = f s1 := by
  unfold nmBgStep at h
  dsimp only at h
  repeat' split at h
  all_goals first
    | exact Except.noConfusion h
    | (injection h with h; subst h; simp [hset])

theorem nmShadowStep_none (get : String → Option CSSDeclaration)
    (s2 : NeumorphismSettings) (ds0 : List Diagnostic) (h : get "box-shadow" = none) :
    nmShadowStep get s2 ds0 = Except.ok (s2, ds0) := by
  unfold nmShadowStep
  rw [h]

theorem nmShadowStep_proj {α : Type} (get : String → Option CSSDeclaration)
    (s2 : NeumorphismSettings) (ds0 : List Diagnostic)
    (y : NeumorphismSettings × List Diagnostic) (f : NeumorphismSettings → α)
    (hset : ∀ s sh d b i dk lt, f ({ s with
      shape := sh
      distance := d
      blur := b
      intensity := i
      darkColor := dk
      lightColor := lt } : NeumorphismSettings) = f s)
    (h : nmShadowStep get s2 ds0 = Except.ok y) : f y.1 = f s2 := by
  rcases hg : get "box-shadow" with _ | shadow
  · rw [nmShadowStep_none get s2 ds0 hg] at h
    injection h with h
    subst h
    simp
  · unfold nmShadowStep at h
    rw [hg] at h
    dsimp only at h
    rcases hm : (splitShadowLayers shadow.value).mapM parseShadowLayer with e | parsedO
    · rw [hm] at h
      exact Except.noConfusion h
    · rw [hm] at h
      dsimp only at h
      injection h with h
      subst h
      dsimp only
      repeat' split
      all_goals simp [hset]

theorem extractLG_proj {α : Type} (get : String → Option CSSDeclaration)
    (current : LiquidGlassSettings) (ds0 : List Diagnostic)
    (out : LiquidGlassSettings × List Diagnostic) (f : LiquidGlassSettings → α)
    (hbg : (∀ hx al s, f { s with bgColor := hx, bgAlpha := al } = f s) ∨
      get "background" = none)
    (hblur : (∀ v s, f { s with blur := v } = f s) ∨ bdLookup get = none)
    (hsat : (∀ v s, f { s with saturation := v } = f s) ∨ bdLookup get = none)
    (hbright : (∀ v s, f { s with brightness := v } = f s) ∨ bdLookup get = none)
    (hbr : (∀ v s, f { s with borderRadius := v } = f s) ∨ get "border-radius" = none)
    (hbw : (∀ v s, f { s with borderWidth := v } = f s) ∨ get "border" = none)
    (hbc : (∀ v s, f { s with borderColor := v } = f s) ∨ get "border" = none)
    (hba : (∀ v s, f { s with borderAlpha := v } = f s) ∨ get "border" = none)
    (hsh : (∀ s a b c sp col al, f { s with
      shadowX := a
      shadowY := b
      shadowBlur := c
      shadowSpread := sp
      shadowColor := col
      shadowAlpha := al } = f s) ∨ get "box-shadow" = none)
    (h : extractLiquidGlass get current ds0 = Except.ok out) : f out.1 = f current := by
  simp only [extractLiquidGlass] at h
  split at h
  · exact Except.noConfusion h
  · rename_i x1 heq1
    split at h
    · exact Except.noConfusion h
    · rename_i x3 heq3
      have e1 : f x1.1 = f current := by
        rcases hbg with hs | hn
        · exact bgStep_proj get _ lgBgFail (current, ds0) x1 f hs heq1
        · rw [bgStep_none get _ lgBgFail (current, ds0) hn] at heq1
          injection heq1 with heq1
          rw [← heq1]
      have ebd : f (bdStep get (fun v s => { s with blur := v })
          (fun v s => { s with saturation := v })
          (fun v s => { s with brightness := v }) x1.1) = f x1.1 := by
        rcases hblur with hs1 | hn
        · rcases hsat with hs2 | hn
          · rcases hbright with hs3 | hn
            · exact bdStep_proj get _ _ _ x1.1 f hs1 hs2 hs3
            · rw [bdStep_none get _ _ _ x1.1 hn]
          · rw [bdStep_none get _ _ _ x1.1 hn]
        · rw [bdStep_none get _ _ _ x1.1 hn]
      have ebr : f (brStep get (fun v s => { s with borderRadius := v })
          (bdStep get (fun v s => { s with blur := v })
            (fun v s => { s with saturation := v })
            (fun v s => { s with brightness := v }) x1.1, x1.2)).1 =
          f (bdStep get (fun v s => { s with blur := v })
            (fun v s => { s with saturation := v })
            (fun v s => { s with brightness := v }) x1.1) := by
        rcases hbr with hs | hn
        · exact brStep_proj get _ _ f hs
        · rw [brStep_none get _ _ hn]
      have ebo : f x3.1 = f (brStep get (fun v s => { s with borderRadius := v })
          (bdStep get (fun v s => { s with blur := v })
            (fun v s => { s with saturation := v })
            (fun v s => { s with brightness := v }) x1.1, x1.2)).1 := by
        rcases hbw with hs1 | hn
        · rcases hbc with hs2 | hn
          · rcases hba with hs3 | hn
            · exact borderStep_proj get _ _ _ _ x3 f hs1 hs2 hs3 heq3
            · rw [borderStep_none get _ _ _ _ hn] at heq3
              injection heq3 with heq3
              rw [← heq3]
          · rw [borderStep_none get _ _ _ _ hn] at heq3
            injection heq3 with heq3
            rw [← heq3]
        · rw [borderStep_none get _ _ _ _ hn] at heq3
          injection heq3 with heq3
          rw [← heq3]
      have e4 : f out.1 = f x3.1 := by
        rcases hsh with hs | hn
        · exact lgShadowStep_proj get x3 out f hs h
        · rw [lgShadowStep_none get x3 hn] at h
          injection h with h
          rw [← h]
      rw [e4, ebo, ebr, ebd, e1]

theorem extractGM_proj {α : Type} (get : String → Option CSSDeclaration)
    (current : GlassmorphismSettings) (ds0 : List Diagnostic)
    (out : GlassmorphismSettings × List Diagnostic) (f : GlassmorphismSettings → α)
    (hbg : (∀ hx al s, f { s with bgColor := hx, bgAlpha := al } = f s) ∨
      get "background" = none)
    (hblur : (∀ v s, f { s with blur := v } = f s) ∨ bdLookup get = none)
    (hsat : (∀ v s, f { s with saturation := v } = f s) ∨ bdLookup get = none)
    (hbr : (∀ v s, f { s with borderRadius := v } = f s) ∨ get "border-radius" = none)
    (hbw : (∀ v s, f { s with borderWidth := v } = f s) ∨ get "border" = none)
    (hbc : (∀ v s, f { s with borderColor := v } = f s) ∨ get "border" = none)
    (hba : (∀ v s, f { s with borderAlpha := v } = f s) ∨ get "border" = none)
    (hsh : (∀ s a b c col al, f { s with
      shadowX := a
      shadowY := b
      shadowBlur := c
      shadowColor := col
      shadowAlpha := al } = f s) ∨ get "box-shadow" = none)
    (h : extractGlassmorphism get current ds0 = Except.ok out) : f out.1 = f current := by
  simp only [extractGlassmorphism] at h
  split at h
  · exact Except.noConfusion h
  · rename_i x1 heq1
    split at h
    · exact Except.noConfusion h
    · rename_i x3 heq3
      have e1 : f x1.1 = f current := by
        rcases hbg with hs | hn
        · exact bgStep_proj get _ gmBgFail (current, ds0) x1 f hs heq1
        · rw [bgStep_none get _ gmBgFail (current, ds0) hn] at heq1
          injection heq1 with heq1
          rw [← heq1]
      have ebd : f (bdStep get (fun v s => { s with blur := v })
          (fun v s => { s with saturation := v })
          (fun _ s => s) x1.1) = f x1.1 := by
        rcases hblur with hs1 | hn
        · rcases hsat with hs2 | hn
          · exact bdStep_proj get _ _ _ x1.1 f hs1 hs2 (fun _ _ => rfl)
          · rw [bdStep_none get _ _ _ x1.1 hn]
        · rw [bdStep_none get _ _ _ x1.1 hn]
      have ebr : f (brStep get (fun v s => { s with borderRadius := v })
          (bdStep get (fun v s => { s with blur := v })
            (fun v s => { s with saturation := v })
            (fun _ s => s) x1.1, x1.2)).1 =
          f (bdStep get (fun v s => { s with blur := v })
            (fun v s => { s with saturation := v })
            (fun _ s => s) x1.1) := by
        rcases hbr with hs | hn
        · exact brStep_proj get _ _ f hs
        · rw [brStep_none get _ _ hn]
      have ebo : f x3.1 = f (brStep get (fun v s => { s with borderRadius := v })
          (bdStep get (fun v s => { s with blur := v })
            (fun v s => { s with saturation := v })
            (fun _ s => s) x1.1, x1.2)).1 := by
        rcases hbw with hs1 | hn
        · rcases hbc with hs2 | hn
          · rcases hba with hs3 | hn
            · exact borderStep_proj get _ _ _ _ x3 f hs1 hs2 hs3 heq3
            · rw [borderStep_none get _ _ _ _ hn] at heq3
              injection heq3 with heq3
              rw [← heq3]
          · rw [borderStep_none get _ _ _ _ hn] at heq3
            injection heq3 with heq3
            rw [← heq3]
        · rw [borderStep_none get _ _ _ _ hn] at heq3
          injection heq3 with heq3
          rw [← heq3]
      have e4 : f out.1 = f x3.1 := by
        rcases hsh with hs | hn
        · exact gmShadowStep_proj get x3 out f hs h
        · rw [gmShadowStep_none get x3 hn] at h
          injection h with h
          rw [← h]
      rw [e4, ebo, ebr, ebd, e1]

theorem extractGL_proj {α : Type} (get : String → Option CSSDeclaration)
    (current : GlowSettings) (ds0 : List Diagnostic)
    (out : GlowSettings × List Diagnostic) (f : GlowSettings → α)
    (hbg : (∀ hx al s, f { s with bgColor := hx, bgAlpha := al } = f s) ∨
      get "background" = none)
    (hblur : (∀ v s, f { s with blur := v } = f s) ∨ bdLookup get = none)
    (hsat : (∀ v s, f { s with saturation := v } = f s) ∨ bdLookup get = none)
    (hbright : (∀ v s, f { s with brightness := v } = f s) ∨ bdLookup get = none)
    (hbr : (∀ v s, f { s with borderRadius := v } = f s) ∨ get "border-radius" = none)
    (hbw : (∀ v s, f { s with borderWidth := v } = f s) ∨ get "border" = none)
    (hbc : (∀ v s, f { s with borderColor := v } = f s) ∨ get "border" = none)
    (hba : (∀ v s, f { s with borderAlpha := v } = f s) ∨ get "border" = none)
    (hsh : (∀ s col bl sp it ig, f { s with
      glowColor := col
      glowBlur := bl
      glowSpread := sp
      glowIntensity := it
      innerGlow := ig } = f s) ∨ get "box-shadow" = none)
    (h : extractGlow get current ds0 = Except.ok out) : f out.1 = f current := by
  simp only [extractGlow] at h
  split at h
  · exact Except.noConfusion h
  · rename_i x1 heq1
    split at h
    · exact Except.noConfusion h
    · rename_i x3 heq3
      have e1 : f x1.1 = f current := by
        rcases hbg with hs | hn
        · exact bgStep_proj get _ lgBgFail (current, ds0) x1 f hs heq1
        · rw [bgStep_none get _ lgBgFail (current, ds0) hn] at heq1
          injection heq1 with heq1
          rw [← heq1]
      have ebd : f (bdStep get (fun v s => { s with blur := v })
          (fun v s => { s with saturation := v })
          (fun v s => { s with brightness := v }) x1.1) = f x1.1 := by
        rcases hblur with hs1 | hn
        · rcases hsat with hs2 | hn
          · rcases hbright with hs3 | hn
            · exact bdStep_proj get _ _ _ x1.1 f hs1 hs2 hs3
            · rw [bdStep_none get _ _ _ x1.1 hn]
          · rw [bdStep_none get _ _ _ x1.1 hn]
        · rw [bdStep_none get _ _ _ x1.1 hn]
      have ebr : f (brStep get (fun v s => { s with borderRadius := v })
          (bdStep get (fun v s => { s with blur := v })
            (fun v s => { s with saturation := v })
            (fun v s => { s with brightness := v }) x1.1, x1.2)).1 =
          f (bdStep get (fun v s => { s with blur := v })
            (fun v s => { s with saturation := v })
            (fun v s => { s with brightness := v }) x1.1) := by
        rcases hbr with hs | hn
        · exact brStep_proj get _ _ f hs
        · rw [brStep_none get _ _ hn]
      have ebo : f x3.1 = f (brStep get (fun v s => { s with borderRadius := v })
          (bdStep get (fun v s => { s with blur := v })
            (fun v s => { s with saturation := v })
            (fun v s => { s with brightness := v }) x1.1, x1.2)).1 := by
        rcases hbw with hs1 | hn
        · rcases hbc with hs2 | hn
          · rcases hba with hs3 | hn
            · exact borderStep_proj get _ _ _ _ x3 f hs1 hs2 hs3 heq3
            · rw [borderStep_none get _ _ _ _ hn] at heq3
              injection heq3 with heq3
              rw [← heq3]
          · rw [borderStep_none get _ _ _ _ hn] at heq3
            injection heq3 with heq3
            rw [← heq3]
        · rw [borderStep_none get _ _ _ _ hn] at heq3
          injection heq3 with heq3
          rw [← heq3]
      have e4 : f out.1 = f x3.1 := by
        rcases hsh with hs | hn
        · exact glShadowStep_proj get x3 out f hs h
        · rw [glShadowStep_none get x3 hn] at h
          injection h with h
          rw [← h]
      rw [e4, ebo, ebr, ebd, e1]

theorem extractNM_proj {α : Type} (get : String → Option CSSDeclaration)
    (current : NeumorphismSettings) (ds0 : List Diagnostic)
    (out : NeumorphismSettings × List Diagnostic) (f : NeumorphismSettings → α)
    (hbr : (∀ v s, f ({ s with borderRadius := v } : NeumorphismSettings) = f s) ∨
      get "border-radius" = none)
    (hbgset : (∀ s sh col, f ({ s with shape := sh, bgColor := col } :
      NeumorphismSettings) = f s) ∨ get "background" = none)
    (hsh : (∀ s sh d b i dk lt, f ({ s with
      shape := sh
      distance := d
      blur := b
      intensity := i
      darkColor := dk
      lightColor := lt } : NeumorphismSettings) = f s) ∨ get "box-shadow" = none)
    (h : extractNeumorphism get current ds0 = Except.ok out) : f out.1 = f current := by
  simp only [extractNeumorphism] at h
  split at h
  · exact Except.noConfusion h
  · rename_i s2 heq1
    have e0 : f (nmBrStep get current) = f current := by
      rcases hbr with hs | hn
      · exact nmBrStep_proj get current f (fun s v => hs v s)
      · rw [nmBrStep_none get current hn]
    have e1 : f s2 = f (nmBrStep get current) := by
      rcases hbgset with hs | hn
      · exact nmBgStep_proj get _ s2 f hs heq1
      · rw [nmBgStep_none get _ hn] at heq1
        injection heq1 with heq1
        rw [← heq1]
    have e2 : f out.1 = f s2 := by
      rcases hsh with hs | hn
      · exact nmShadowStep_proj get s2 ds0 out f hs h
      · rw [nmShadowStep_none get s2 ds0 hn] at h
        injection h with h
        rw [← h]
    rw [e2, e1, e0]

/-- C4: each per-mode extractor performs an additive merge: every settings
field whose governing property has no declaration (its lookup returns `none`)
retains exactly its baseline value, and fields the extractor never writes
(liquid-glass `opacity`/`refractionIntensity`, glassmorphism `opacity`) are
always returned at their baseline value.  (Mutation of the caller's record is
not expressible in the value semantics of the embedding: the baseline argument
is immutable by construction, and the extractor's result is a separate
value.) -/
theorem C4_extractors_additive_merge :
    (∀ (get : String → Option CSSDeclaration) (current : LiquidGlassSettings)
        (ds0 : List Diagnostic) (out : LiquidGlassSettings × List Diagnostic),
      extractLiquidGlass get current ds0 = Except.ok out →
      out.1.opacity = current.opacity ∧
      out.1.refractionIntensity = current.refractionIntensity ∧
      (get "background" = none →
        out.1.bgColor = current.bgColor ∧ out.1.bgAlpha = current.bgAlpha) ∧
      (bdLookup get = none → out.1.blur = current.blur ∧
        out.1.saturation = current.saturation ∧ out.1.brightness = current.brightness) ∧
      (get "border-radius" = none → out.1.borderRadius = current.borderRadius) ∧
      (get "border" = none → out.1.borderWidth = current.borderWidth ∧
        out.1.borderColor = current.borderColor ∧ out.1.borderAlpha = current.borderAlpha) ∧
      (get "box-shadow" = none → out.1.shadowX = current.shadowX ∧
        out.1.shadowY = current.shadowY ∧ out.1.shadowBlur = current.shadowBlur ∧
        out.1.shadowSpread = current.shadowSpread ∧
        out.1.shadowColor = current.shadowColor ∧
        out.1.shadowAlpha = current.shadowAlpha)) ∧
    (∀ (get : String → Option CSSDeclaration) (current : GlassmorphismSettings)
        (ds0 : List Diagnostic) (out : GlassmorphismSettings × List Diagnostic),
      extractGlassmorphism get current ds0 = Except.ok out →
      out.1.opacity = current.opacity ∧
      (get "background" = none →
        out.1.bgColor = current.bgColor ∧ out.1.bgAlpha = current.bgAlpha) ∧
      (bdLookup get = none →
        out.1.blur = current.blur ∧ out.1.saturation = current.saturation) ∧
      (get "border-radius" = none → out.1.borderRadius = current.borderRadius) ∧
      (get "border" = none → out.1.borderWidth = current.borderWidth ∧
        out.1.borderColor = current.borderColor ∧ out.1.borderAlpha = current.borderAlpha) ∧
      (get "box-shadow" = none → out.1.shadowX = current.shadowX ∧
        out.1.shadowY = current.shadowY ∧ out.1.shadowBlur = current.shadowBlur ∧
        out.1.shadowColor = current.shadowColor ∧
        out.1.shadowAlpha = current.shadowAlpha)) ∧
    (∀ (get : String → Option CSSDeclaration) (current : NeumorphismSettings)
        (ds0 : List Diagnostic) (out : NeumorphismSettings × List Diagnostic),
      extractNeumorphism get current ds0 = Except.ok out →
      (get "border-radius" = none → out.1.borderRadius = current.borderRadius) ∧
      (get "background" = none → out.1.bgColor = current.bgColor) ∧
      (get "background" = none → get "box-shadow" = none → out.1.shape = current.shape) ∧
      (get "box-shadow" = none → out.1.distance = current.distance ∧
        out.1.intensity = current.intensity ∧ out.1.blur = current.blur ∧
        out.1.darkColor = current.darkColor ∧ out.1.lightColor = current.lightColor)) ∧
    (∀ (get : String → Option CSSDeclaration) (current : GlowSettings)
        (ds0 : List Diagnostic) (out : GlowSettings × List Diagnostic),
      extractGlow get current ds0 = Except.ok out →
      (get "background" = none →
        out.1.bgColor = current.bgColor ∧ out.1.bgAlpha = current.bgAlpha) ∧
      (bdLookup get = none → out.1.blur = current.blur ∧
        out.1.saturation = current.saturation ∧ out.1.brightness = current.brightness) ∧
      (get "border-radius" = none → out.1.borderRadius = current.borderRadius) ∧
      (get "border" = none → out.1.borderWidth = current.borderWidth ∧
        out.1.borderColor = current.borderColor ∧ out.1.borderAlpha = current.borderAlpha) ∧
      (get "box-shadow" = none → out.1.glowColor = current.glowColor ∧
        out.1.glowBlur = current.glowBlur ∧ out.1.glowSpread = current.glowSpread ∧
        out.1.glowIntensity = current.glowIntensity ∧
        out.1.innerGlow = current.innerGlow)) := by
  refine ⟨?_, ?_, ?_, ?_⟩
  · intro get current ds0 out h
    refine ⟨?_, ?_, fun hb => ⟨?_, ?_⟩, fun hb => ⟨?_, ?_, ?_⟩, fun hb => ?_, fun hb => ⟨?_, ?_, ?_⟩, fun hb => ⟨?_, ?_, ?_, ?_, ?_, ?_⟩⟩
    · exact extractLG_proj get current ds0 out LiquidGlassSettings.opacity
        (Or.inl fun _ _ _ => rfl)
        (Or.inl fun _ _ => rfl)
        (Or.inl fun _ _ => rfl)
        (Or.inl fun _ _ => rfl)
        (Or.inl fun _ _ => rfl)
        (Or.inl fun _ _ => rfl)
        (Or.inl fun _ _ => rfl)
        (Or.inl fun _ _ => rfl)
        (Or.inl fun _ _ _ _ _ _ _ => rfl) h
    · exact extractLG_proj get current ds0 out LiquidGlassSettings.refractionIntensity
        (Or.inl fun _ _ _ => rfl)
        (Or.inl fun _ _ => rfl)
        (Or.inl fun _ _ => rfl)
        (Or.inl fun _ _ => rfl)
        (Or.inl fun _ _ => rfl)
        (Or.inl fun _ _ => rfl)
        (Or.inl fun _ _ => rfl)
        (Or.inl fun _ _ => rfl)
        (Or.inl fun _ _ _ _ _ _ _ => rfl) h
    · exact extractLG_proj get current ds0 out LiquidGlassSettings.bgColor
        (Or.inr hb)
        (Or.inl fun _ _ => rfl)
        (Or.inl fun _ _ => rfl)
        (Or.inl fun _ _ => rfl)
        (Or.inl fun _ _ => rfl)
        (Or.inl fun _ _ => rfl)
        (Or.inl fun _ _ => rfl)
        (Or.inl fun _ _ => rfl)
        (Or.inl fun _ _ _ _ _ _ _ => rfl) h
    · exact extractLG_proj get current ds0 out LiquidGlassSettings.bgAlpha
        (Or.inr hb)
        (Or.inl fun _ _ => rfl)
        (Or.inl fun _ _ => rfl)
        (Or.inl fun _ _ => rfl)
        (Or.inl fun _ _ => rfl)
        (Or.inl fun _ _ => rfl)
        (Or.inl fun _ _ => rfl)
        (Or.inl fun _ _ => rfl)
        (Or.inl fun _ _ _ _ _ _ _ => rfl) h
    · exact extractLG_proj get current ds0 out LiquidGlassSettings.blur
        (Or.inl fun _ _ _ => rfl)
        (Or.inr hb)
        (Or.inl fun _ _ => rfl)
        (Or.inl fun _ _ => rfl)
        (Or.inl fun _ _ => rfl)
        (Or.inl fun _ _ => rfl)
        (Or.inl fun _ _ => rfl)
        (Or.inl fun _ _ => rfl)
        (Or.inl fun _ _ _ _ _ _ _ => rfl) h
    · exact extractLG_proj get current ds0 out LiquidGlassSettings.saturation
        (Or.inl fun _ _ _ => rfl)
        (Or.inl fun _ _ => rfl)
        (Or.inr hb)
        (Or.inl fun _ _ => rfl)
        (Or.inl fun _ _ => rfl)
        (Or.inl fun _ _ => rfl)
        (Or.inl fun _ _ => rfl)
        (Or.inl fun _ _ => rfl)
        (Or.inl fun _ _ _ _ _ _ _ => rfl) h
    · exact extractLG_proj get current ds0 out LiquidGlassSettings.brightness
        (Or.inl fun _ _ _ => rfl)
        (Or.inl fun _ _ => rfl)
        (Or.inl fun _ _ => rfl)
        (Or.inr hb)
        (Or.inl fun _ _ => rfl)
        (Or.inl fun _ _ => rfl)
        (Or.inl fun _ _ => rfl)
        (Or.inl fun _ _ => rfl)
        (Or.inl fun _ _ _ _ _ _ _ => rfl) h
    · exact extractLG_proj get current ds0 out LiquidGlassSettings.borderRadius
        (Or.inl fun _ _ _ => rfl)
        (Or.inl fun _ _ => rfl)
        (Or.inl fun _ _ => rfl)
        (Or.inl fun _ _ => rfl)
        (Or.inr hb)
        (Or.inl fun _ _ => rfl)
        (Or.inl fun _ _ => rfl)
        (Or.inl fun _ _ => rfl)
        (Or.inl fun _ _ _ _ _ _ _ => rfl) h
    · exact extractLG_proj get current ds0 out LiquidGlassSettings.borderWidth
        (Or.inl fun _ _ _ => rfl)
        (Or.inl fun _ _ => rfl)
        (Or.inl fun _ _ => rfl)
        (Or.inl fun _ _ => rfl)
        (Or.inl fun _ _ => rfl)
        (Or.inr hb)
        (Or.inl fun _ _ => rfl)
        (Or.inl fun _ _ => rfl)
        (Or.inl fun _ _ _ _ _ _ _ => rfl) h
    · exact extractLG_proj get current ds0 out LiquidGlassSettings.borderColor
        (Or.inl fun _ _ _ => rfl)
        (Or.inl fun _ _ => rfl)
        (Or.inl fun _ _ => rfl)
        (Or.inl fun _ _ => rfl)
        (Or.inl fun _ _ => rfl)
        (Or.inl fun _ _ => rfl)
        (Or.inr hb)
        (Or.inl fun _ _ => rfl)
        (Or.inl fun _ _ _ _ _ _ _ => rfl) h
    · exact extractLG_proj get current ds0 out LiquidGlassSettings.borderAlpha
        (Or.inl fun _ _ _ => rfl)
        (Or.inl fun _ _ => rfl)
        (Or.inl fun _ _ => rfl)
        (Or.inl fun _ _ => rfl)
        (Or.inl fun _ _ => rfl)
        (Or.inl fun _ _ => rfl)
        (Or.inl fun _ _ => rfl)
        (Or.inr hb)
        (Or.inl fun _ _ _ _ _ _ _ => rfl) h
    · exact extractLG_proj get current ds0 out LiquidGlassSettings.shadowX
        (Or.inl fun _ _ _ => rfl)
        (Or.inl fun _ _ => rfl)
        (Or.inl fun _ _ => rfl)
        (Or.inl fun _ _ => rfl)
        (Or.inl fun _ _ => rfl)
        (Or.inl fun _ _ => rfl)
        (Or.inl fun _ _ => rfl)
        (Or.inl fun _ _ => rfl)
        (Or.inr hb) h
    · exact extractLG_proj get current ds0 out LiquidGlassSettings.shadowY
        (Or.inl fun _ _ _ => rfl)
        (Or.inl fun _ _ => rfl)
        (Or.inl fun _ _ => rfl)
        (Or.inl fun _ _ => rfl)
        (Or.inl fun _ _ => rfl)
        (Or.inl fun _ _ => rfl)
        (Or.inl fun _ _ => rfl)
        (Or.inl fun _ _ => rfl)
        (Or.inr hb) h
    · exact extractLG_proj get current ds0 out LiquidGlassSettings.shadowBlur
        (Or.inl fun _ _ _ => rfl)
        (Or.inl fun _ _ => rfl)
        (Or.inl fun _ _ => rfl)
        (Or.inl fun _ _ => rfl)
        (Or.inl fun _ _ => rfl)
        (Or.inl fun _ _ => rfl)
        (Or.inl fun _ _ => rfl)
        (Or.inl fun _ _ => rfl)
        (Or.inr hb) h
    · exact extractLG_proj get current ds0 out LiquidGlassSettings.shadowSpread
        (Or.inl fun _ _ _ => rfl)
        (Or.inl fun _ _ => rfl)
        (Or.inl fun _ _ => rfl)
        (Or.inl fun _ _ => rfl)
        (Or.inl fun _ _ => rfl)
        (Or.inl fun _ _ => rfl)
        (Or.inl fun _ _ => rfl)
        (Or.inl fun _ _ => rfl)
        (Or.inr hb) h
    · exact extractLG_proj get current ds0 out LiquidGlassSettings.shadowColor
        (Or.inl fun _ _ _ => rfl)
        (Or.inl fun _ _ => rfl)
        (Or.inl fun _ _ => rfl)
        (Or.inl fun _ _ => rfl)
        (Or.inl fun _ _ => rfl)
        (Or.inl fun _ _ => rfl)
        (Or.inl fun _ _ => rfl)
        (Or.inl fun _ _ => rfl)
        (Or.inr hb) h
    · exact extractLG_proj get current ds0 out LiquidGlassSettings.shadowAlpha
        (Or.inl fun _ _ _ => rfl)
        (Or.inl fun _ _ => rfl)
        (Or.inl fun _ _ => rfl)
        (Or.inl fun _ _ => rfl)
        (Or.inl fun _ _ => rfl)
        (Or.inl fun _ _ => rfl)
        (Or.inl fun _ _ => rfl)
        (Or.inl fun _ _ => rfl)
        (Or.inr hb) h
  · intro get current ds0 out h
    refine ⟨?_, fun hb => ⟨?_, ?_⟩, fun hb => ⟨?_, ?_⟩, fun hb => ?_, fun hb => ⟨?_, ?_, ?_⟩, fun hb => ⟨?_, ?_, ?_, ?_, ?_⟩⟩
    · exact extractGM_proj get current ds0 out GlassmorphismSettings.opacity
        (Or.inl fun _ _ _ => rfl)
        (Or.inl fun _ _ => rfl)
        (Or.inl fun _ _ => rfl)
        (Or.inl fun _ _ => rfl)
        (Or.inl fun _ _ => rfl)
        (Or.inl fun _ _ => rfl)
        (Or.inl fun _ _ => rfl)
        (Or.inl fun _ _ _ _ _ _ => rfl) h
    · exact extractGM_proj get current ds0 out GlassmorphismSettings.bgColor
        (Or.inr hb)
        (Or.inl fun _ _ => rfl)
        (Or.inl fun _ _ => rfl)
        (Or.inl fun _ _ => rfl)
        (Or.inl fun _ _ => rfl)
        (Or.inl fun _ _ => rfl)
        (Or.inl fun _ _ => rfl)
        (Or.inl fun _ _ _ _ _ _ => rfl) h
    · exact extractGM_proj get current ds0 out GlassmorphismSettings.bgAlpha
        (Or.inr hb)
        (Or.inl fun _ _ => rfl)
        (Or.inl fun _ _ => rfl)
        (Or.inl fun _ _ => rfl)
        (Or.inl fun _ _ => rfl)
        (Or.inl fun _ _ => rfl)
        (Or.inl fun _ _ => rfl)
        (Or.inl fun _ _ _ _ _ _ => rfl) h
    · exact extractGM_proj get current ds0 out GlassmorphismSettings.blur
        (Or.inl fun _ _ _ => rfl)
        (Or.inr hb)
        (Or.inl fun _ _ => rfl)
        (Or.inl fun _ _ => rfl)
        (Or.inl fun _ _ => rfl)
        (Or.inl fun _ _ => rfl)
        (Or.inl fun _ _ => rfl)
        (Or.inl fun _ _ _ _ _ _ => rfl) h
    · exact extractGM_proj get current ds0 out GlassmorphismSettings.saturation
        (Or.inl fun _ _ _ => rfl)
        (Or.inl fun _ _ => rfl)
        (Or.inr hb)
        (Or.inl fun _ _ => rfl)
        (Or.inl fun _ _ => rfl)
        (Or.inl fun _ _ => rfl)
        (Or.inl fun _ _ => rfl)
        (Or.inl fun _ _ _ _ _ _ => rfl) h
    · exact extractGM_proj get current ds0 out GlassmorphismSettings.borderRadius
        (Or.inl fun _ _ _ => rfl)
        (Or.inl fun _ _ => rfl)
        (Or.inl fun _ _ => rfl)
        (Or.inr hb)
        (Or.inl fun _ _ => rfl)
        (Or.inl fun _ _ => rfl)
        (Or.inl fun _ _ => rfl)
        (Or.inl fun _ _ _ _ _ _ => rfl) h
    · exact extractGM_proj get current ds0 out GlassmorphismSettings.borderWidth
        (Or.inl fun _ _ _ => rfl)
        (Or.inl fun _ _ => rfl)
        (Or.inl fun _ _ => rfl)
        (Or.inl fun _ _ => rfl)
        (Or.inr hb)
        (Or.inl fun _ _ => rfl)
        (Or.inl fun _ _ => rfl)
        (Or.inl fun _ _ _ _ _ _ => rfl) h
    · exact extractGM_proj get current ds0 out GlassmorphismSettings.borderColor
        (Or.inl fun _ _ _ => rfl)
        (Or.inl fun _ _ => rfl)
        (Or.inl fun _ _ => rfl)
        (Or.inl fun _ _ => rfl)
        (Or.inl fun _ _ => rfl)
        (Or.inr hb)
        (Or.inl fun _ _ => rfl)
        (Or.inl fun _ _ _ _ _ _ => rfl) h
    · exact extractGM_proj get current ds0 out GlassmorphismSettings.borderAlpha
        (Or.inl fun _ _ _ => rfl)
        (Or.inl fun _ _ => rfl)
        (Or.inl fun _ _ => rfl)
        (Or.inl fun _ _ => rfl)
        (Or.inl fun _ _ => rfl)
        (Or.inl fun _ _ => rfl)
        (Or.inr hb)
        (Or.inl fun _ _ _ _ _ _ => rfl) h
    · exact extractGM_proj get current ds0 out GlassmorphismSettings.shadowX
        (Or.inl fun _ _ _ => rfl)
        (Or.inl fun _ _ => rfl)
        (Or.inl fun _ _ => rfl)
        (Or.inl fun _ _ => rfl)
        (Or.inl fun _ _ => rfl)
        (Or.inl fun _ _ => rfl)
        (Or.inl fun _ _ => rfl)
        (Or.inr hb) h
    · exact extractGM_proj get current ds0 out GlassmorphismSettings.shadowY
        (Or.inl fun _ _ _ => rfl)
        (Or.inl fun _ _ => rfl)
        (Or.inl fun _ _ => rfl)
        (Or.inl fun _ _ => rfl)
        (Or.inl fun _ _ => rfl)
        (Or.inl fun _ _ => rfl)
        (Or.inl fun _ _ => rfl)
        (Or.inr hb) h
    · exact extractGM_proj get current ds0 out GlassmorphismSettings.shadowBlur
        (Or.inl fun _ _ _ => rfl)
        (Or.inl fun _ _ => rfl)
        (Or.inl fun _ _ => rfl)
        (Or.inl fun _ _ => rfl)
        (Or.inl fun _ _ => rfl)
        (Or.inl fun _ _ => rfl)
        (Or.inl fun _ _ => rfl)
        (Or.inr hb) h
    · exact extractGM_proj get current ds0 out GlassmorphismSettings.shadowColor
        (Or.inl fun _ _ _ => rfl)
        (Or.inl fun _ _ => rfl)
        (Or.inl fun _ _ => rfl)
        (Or.inl fun _ _ => rfl)
        (Or.inl fun _ _ => rfl)
        (Or.inl fun _ _ => rfl)
        (Or.inl fun _ _ => rfl)
        (Or.inr hb) h
    · exact extractGM_proj get current ds0 out GlassmorphismSettings.shadowAlpha
        (Or.inl fun _ _ _ => rfl)
        (Or.inl fun _ _ => rfl)
        (Or.inl fun _ _ => rfl)
        (Or.inl fun _ _ => rfl)
        (Or.inl fun _ _ => rfl)
        (Or.inl fun _ _ => rfl)
        (Or.inl fun _ _ => rfl)
        (Or.inr hb) h
  · intro get current ds0 out h
    refine ⟨fun hb => ?_, fun hb => ?_, fun hb hb2 => ?_, fun hb => ⟨?_, ?_, ?_, ?_, ?_⟩⟩
    · exact extractNM_proj get current ds0 out NeumorphismSettings.borderRadius
        (Or.inr hb)
        (Or.inl fun _ _ _ => rfl)
        (Or.inl fun _ _ _ _ _ _ _ => rfl) h
    · exact extractNM_proj get current ds0 out NeumorphismSettings.bgColor
        (Or.inl fun _ _ => rfl)
        (Or.inr hb)
        (Or.inl fun _ _ _ _ _ _ _ => rfl) h
    · exact extractNM_proj get current ds0 out NeumorphismSettings.shape
        (Or.inl fun _ _ => rfl)
        (Or.inr hb)
        (Or.inr hb2) h
    · exact extractNM_proj get current ds0 out NeumorphismSettings.distance
        (Or.inl fun _ _ => rfl)
        (Or.inl fun _ _ _ => rfl)
        (Or.inr hb) h
    · exact extractNM_proj get current ds0 out NeumorphismSettings.intensity
        (Or.inl fun _ _ => rfl)
        (Or.inl fun _ _ _ => rfl)
        (Or.inr hb) h
    · exact extractNM_proj get current ds0 out NeumorphismSettings.blur
        (Or.inl fun _ _ => rfl)
        (Or.inl fun _ _ _ => rfl)
        (Or.inr hb) h
    · exact extractNM_proj get current ds0 out NeumorphismSettings.darkColor
        (Or.inl fun _ _ => rfl)
        (Or.inl fun _ _ _ => rfl)
        (Or.inr hb) h
    · exact extractNM_proj get current ds0 out NeumorphismSettings.lightColor
        (Or.inl fun _ _ => rfl)
        (Or.inl fun _ _ _ => rfl)
        (Or.inr hb) h
  · intro get current ds0 out h
    refine ⟨fun hb => ⟨?_, ?_⟩, fun hb => ⟨?_, ?_, ?_⟩, fun hb => ?_, fun hb => ⟨?_, ?_, ?_⟩, fun hb => ⟨?_, ?_, ?_, ?_, ?_⟩⟩
    · exact extractGL_proj get current ds0 out GlowSettings.bgColor
        (Or.inr hb)
        (Or.inl fun _ _ => rfl)
        (Or.inl fun _ _ => rfl)
        (Or.inl fun _ _ => rfl)
        (Or.inl fun _ _ => rfl)
        (Or.inl fun _ _ => rfl)
        (Or.inl fun _ _ => rfl)
        (Or.inl fun _ _ => rfl)
        (Or.inl fun _ _ _ _ _ _ => rfl) h
    · exact extractGL_proj get current ds0 out GlowSettings.bgAlpha
        (Or.inr hb)
        (Or.inl fun _ _ => rfl)
        (Or.inl fun _ _ => rfl)
        (Or.inl fun _ _ => rfl)
        (Or.inl fun _ _ => rfl)
        (Or.inl fun _ _ => rfl)
        (Or.inl fun _ _ => rfl)
        (Or.inl fun _ _ => rfl)
        (Or.inl fun _ _ _ _ _ _ => rfl) h
    · exact extractGL_proj get current ds0 out GlowSettings.blur
        (Or.inl fun _ _ _ => rfl)
        (Or.inr hb)
        (Or.inl fun _ _ => rfl)
        (Or.inl fun _ _ => rfl)
        (Or.inl fun _ _ => rfl)
        (Or.inl fun _ _ => rfl)
        (Or.inl fun _ _ => rfl)
        (Or.inl fun _ _ => rfl)
        (Or.inl fun _ _ _ _ _ _ => rfl) h
    · exact extractGL_proj get current ds0 out GlowSettings.saturation
        (Or.inl fun _ _ _ => rfl)
        (Or.inl fun _ _ => rfl)
        (Or.inr hb)
        (Or.inl fun _ _ => rfl)
        (Or.inl fun _ _ => rfl)
        (Or.inl fun _ _ => rfl)
        (Or.inl fun _ _ => rfl)
        (Or.inl fun _ _ => rfl)
        (Or.inl fun _ _ _ _ _ _ => rfl) h
    · exact extractGL_proj get current ds0 out GlowSettings.brightness
        (Or.inl fun _ _ _ => rfl)
        (Or.inl fun _ _ => rfl)
        (Or.inl fun _ _ => rfl)
        (Or.inr hb)
        (Or.inl fun _ _ => rfl)
        (Or.inl fun _ _ => rfl)
        (Or.inl fun _ _ => rfl)
        (Or.inl fun _ _ => rfl)
        (Or.inl fun _ _ _ _ _ _ => rfl) h
    · exact extractGL_proj get current ds0 out GlowSettings.borderRadius
        (Or.inl fun _ _ _ => rfl)
        (Or.inl fun _ _ => rfl)
        (Or.inl fun _ _ => rfl)
        (Or.inl fun _ _ => rfl)
        (Or.inr hb)
        (Or.inl fun _ _ => rfl)
        (Or.inl fun _ _ => rfl)
        (Or.inl fun _ _ => rfl)
        (Or.inl fun _ _ _ _ _ _ => rfl) h
    · exact extractGL_proj get current ds0 out GlowSettings.borderWidth
        (Or.inl fun _ _ _ => rfl)
        (Or.inl fun _ _ => rfl)
        (Or.inl fun _ _ => rfl)
        (Or.inl fun _ _ => rfl)
        (Or.inl fun _ _ => rfl)
        (Or.inr hb)
        (Or.inl fun _ _ => rfl)
        (Or.inl fun _ _ => rfl)
        (Or.inl fun _ _ _ _ _ _ => rfl) h
    · exact extractGL_proj get current ds0 out GlowSettings.borderColor
        (Or.inl fun _ _ _ => rfl)
        (Or.inl fun _ _ => rfl)
        (Or.inl fun _ _ => rfl)
        (Or.inl fun _ _ => rfl)
        (Or.inl fun _ _ => rfl)
        (Or.inl fun _ _ => rfl)
        (Or.inr hb)
        (Or.inl fun _ _ => rfl)
        (Or.inl fun _ _ _ _ _ _ => rfl) h
    · exact extractGL_proj get current ds0 out GlowSettings.borderAlpha
        (Or.inl fun _ _ _ => rfl)
        (Or.inl fun _ _ => rfl)
        (Or.inl fun _ _ => rfl)
        (Or.inl fun _ _ => rfl)
        (Or.inl fun _ _ => rfl)
        (Or.inl fun _ _ => rfl)
        (Or.inl fun _ _ => rfl)
        (Or.inr hb)
        (Or.inl fun _ _ _ _ _ _ => rfl) h
    · exact extractGL_proj get current ds0 out GlowSettings.glowColor
        (Or.inl fun _ _ _ => rfl)
        (Or.inl fun _ _ => rfl)
        (Or.inl fun _ _ => rfl)
        (Or.inl fun _ _ => rfl)
        (Or.inl fun _ _ => rfl)
        (Or.inl fun _ _ => rfl)
        (Or.inl fun _ _ => rfl)
        (Or.inl fun _ _ => rfl)
        (Or.inr hb) h
    · exact extractGL_proj get current ds0 out GlowSettings.glowBlur
        (Or.inl fun _ _ _ => rfl)
        (Or.inl fun _ _ => rfl)
        (Or.inl fun _ _ => rfl)
        (Or.inl fun _ _ => rfl)
        (Or.inl fun _ _ => rfl)
        (Or.inl fun _ _ => rfl)
        (Or.inl fun _ _ => rfl)
        (Or.inl fun _ _ => rfl)
        (Or.inr hb) h
    · exact extractGL_proj get current ds0 out GlowSettings.glowSpread
        (Or.inl fun _ _ _ => rfl)
        (Or.inl fun _ _ => rfl)
        (Or.inl fun _ _ => rfl)
        (Or.inl fun _ _ => rfl)
        (Or.inl fun _ _ => rfl)
        (Or.inl fun _ _ => rfl)
        (Or.inl fun _ _ => rfl)
        (Or.inl fun _ _ => rfl)
        (Or.inr hb) h
    · exact extractGL_proj get current ds0 out GlowSettings.glowIntensity
        (Or.inl fun _ _ _ => rfl)
        (Or.inl fun _ _ => rfl)
        (Or.inl fun _ _ => rfl)
        (Or.inl fun _ _ => rfl)
        (Or.inl fun _ _ => rfl)
        (Or.inl fun _ _ => rfl)
        (Or.inl fun _ _ => rfl)
        (Or.inl fun _ _ => rfl)
        (Or.inr hb) h
    · exact extractGL_proj get current ds0 out GlowSettings.innerGlow
        (Or.inl fun _ _ _ => rfl)
        (Or.inl fun _ _ => rfl)
        (Or.inl fun _ _ => rfl)
        (Or.inl fun _ _ => rfl)
        (Or.inl fun _ _ => rfl)
        (Or.inl fun _ _ => rfl)
        (Or.inl fun _ _ => rfl)
        (Or.inl fun _ _ => rfl)
        (Or.inr hb) h

theorem C4_additive_witness :
    extractLiquidGlass (getProp [⟨"border-radius", "12px", 1, 1⟩]) baseLG [] =
      Except.ok ({ baseLG with borderRadius := 12 }, []) ∧
    ({ baseLG with borderRadius := 12 } : LiquidGlassSettings).opacity = baseLG.opacity ∧
    ({ baseLG with borderRadius := 12 } : LiquidGlassSettings).bgColor = baseLG.bgColor ∧
    ({ baseLG with borderRadius := 12 } : LiquidGlassSettings).blur = baseLG.blur ∧
    ({ baseLG with borderRadius := 12 } : LiquidGlassSettings).shadowX = baseLG.shadowX := by
  have hok : extractLiquidGlass (getProp [⟨"border-radius", "12px", 1, 1⟩]) baseLG [] =
      Except.ok ({ baseLG with borderRadius := 12 }, []) := by
    with_unfolding_all decide
  obtain ⟨h1, -, h3, h4, -, -, h7⟩ :=
    C4_extractors_additive_merge.1 (getProp [⟨"border-radius", "12px", 1, 1⟩]) baseLG []
      ({ baseLG with borderRadius := 12 }, []) hok
  exact ⟨hok, h1, (h3 rfl).1, (h4 rfl).1, (h7 rfl).1⟩
